import Mathlib

/-!
# SPA (Simple Prescribed Aerosols): horizontal remap, monthly loader, time state, temporal
and vertical interpolation

A shallow embedding of `components/scream/src/physics/spa/spa_functions_impl.hpp`, together
with the table reader `read_rrtmg_table` of
`components/eamxx/src/physics/mam/mam_aerosol_optics_read_tables.hpp` and the enumeration
`FieldTag` with its naming function `e2str` of `components/eamxx/src/share/field/field_tag.hpp`.

Modelling conventions.

* `Real` of the source is the field `ℚ`: arithmetic is exact, no rounding, no NaN.  Where a
  statement depends on the rounding of `double` arithmetic (the bracket of `linear_interp`),
  the expression is evaluated with `round_double`, the rounding of IEEE 754 binary64 on finite
  operands, overflow included.
* A Kokkos view is a total function of its indices.  Indices that the source takes from data
  (`src_col`, `tgt_col`, the time index) are `Int`; indices that are loop counters starting at
  zero (triplet number, level, band, pack, lane) are `Nat`.  Extents live where the source keeps
  them (`length`, `source_grid_ncols`, ...); reading or writing outside an extent is undefined in the
  source and is not given a meaning of its own here.
* `int` values are unbounded integers.  The only arithmetic the routines do on them is
  `col - 1`, `row - 1` and the `npack` rounding, none of which wraps for values a file can hold
  short of `INT_MIN`, where the source itself is undefined.
* A packed view `view_Nd<Spack>` carries two trailing indices, the pack number and the lane
  inside the pack; the pack width `Spack::n` is a build constant, passed as `packn`.
* A file is the record of what the I/O layer hands back: its dimension lengths and the raw
  arrays that `grid_read_data_array` writes into the local views.
* The time stamp and the calendar (`util::TimeStamp`, `util::julian_day`) are not part of the
  sources at hand: a time stamp is the record of what its accessors return and `julian_day` is a
  parameter.  The vertical interpolator `ekat::LinInterp` is not part of them either and is
  modelled from the specification (`bracket_blend`, `lin_interp_level`).
* `EKAT_REQUIRE_MSG` raises an error; by-reference arguments keep whatever was written to them
  before the error, so every routine returns the error flag together with the final state of
  its by-reference arguments.
-/

namespace SPA

/-! ## Data model -/

/-- Errors raised through `EKAT_REQUIRE` / `EKAT_REQUIRE_MSG`. -/
inductive SPAError where
  | remap_target_mismatch
  | swband_mismatch
  | lwband_mismatch
  | ncol_mismatch
  | ncols_atm_mismatch
  deriving DecidableEq, Repr

/-- Final state of the by-reference arguments together with the error raised, if any. -/
structure Outcome (σ : Type) where
  error : Option SPAError
  state : σ

/-- The horizontal remap table `SPAHorizInterp` (fields as used by the routines). -/
structure SPAHorizInterp where
  length : Int
  source_grid_ncols : Int
  source_grid_nlevs : Int
  weights : Nat → ℚ
  source_grid_loc : Nat → Int
  target_grid_loc : Nat → Int

/-- The dataset `SPAData`: the fields the loader writes (`PS`, `CCN3`, `AER_*`), the hybrid
coefficients `hyam`, `hybm` that the unit test reads from it, and the column and level counts
it is constructed with in the unit test.  Packed views end in `pack, lane`. -/
structure SPAData where
  ncols : Int
  nlevs : Int
  hyam : Nat → Nat → ℚ
  hybm : Nat → Nat → ℚ
  PS : Int → ℚ
  CCN3 : Int → Nat → Nat → ℚ
  AER_G_SW : Int → Nat → Nat → Nat → ℚ
  AER_SSA_SW : Int → Nat → Nat → Nat → ℚ
  AER_TAU_SW : Int → Nat → Nat → Nat → ℚ
  AER_TAU_LW : Int → Nat → Nat → Nat → ℚ

/-- The raw, unpacked arrays read from the data file at one time index:
`PS_v(col)`, `CCN3_v(col,lev)`, `AER_*_v(col,band,lev)`. -/
structure RawFields where
  PS_v : Int → ℚ
  CCN3_v : Int → Nat → ℚ
  AER_G_SW_v : Int → Nat → Nat → ℚ
  AER_SSA_SW_v : Int → Nat → Nat → ℚ
  AER_TAU_SW_v : Int → Nat → Nat → ℚ
  AER_TAU_LW_v : Int → Nat → Nat → ℚ

/-- The SPA data file as seen through the I/O layer: dimension lengths and, for each time index,
the raw arrays delivered by `grid_read_data_array`. -/
structure SPADataFile where
  ncol : Int
  lev : Int
  swband : Int
  lwband : Int
  read : Int → RawFields

/-- The remap file as seen through the I/O layer: `n_s`, `n_a`, `n_b` and the arrays `S`, `row`,
`col` as read into `S_global`, `row_global`, `col_global`. -/
structure RemapFile where
  n_s : Int
  n_a : Int
  n_b : Int
  S : Nat → ℚ
  row : Nat → Int
  col : Nat → Int

/-! ## Cell updates -/

/-- The statement `v(c) += x` on a column-indexed view. -/
def add_at1 (v : Int → ℚ) (c : Int) (x : ℚ) : Int → ℚ :=
  fun c' => if c' = c then v c' + x else v c'

/-- The statement `v(c,pack)[kidx] += x` on a packed 2-d view. -/
def add_at2 (v : Int → Nat → Nat → ℚ) (c : Int) (pack kidx : Nat) (x : ℚ) :
    Int → Nat → Nat → ℚ :=
  fun c' p' l' => if c' = c ∧ p' = pack ∧ l' = kidx then v c' p' l' + x else v c' p' l'

/-- The statement `v(c,n,pack)[kidx] += x` on a packed 3-d view. -/
def add_at3 (v : Int → Nat → Nat → Nat → ℚ) (c : Int) (n pack kidx : Nat) (x : ℚ) :
    Int → Nat → Nat → Nat → ℚ :=
  fun c' n' p' l' =>
    if c' = c ∧ n' = n ∧ p' = pack ∧ l' = kidx then v c' n' p' l' + x else v c' n' p' l'

/-! ## update_spa_data_from_file -/

/-- Body of the shortwave band loop (lines 469-473) for band `n`. -/
def remap_swband (raw : RawFields) (src_wgt : ℚ) (src_col tgt_col : Int) (kk pack kidx : Nat)
    (d : SPAData) (n : Nat) : SPAData :=
  { d with
    AER_G_SW := add_at3 d.AER_G_SW tgt_col n pack kidx (raw.AER_G_SW_v src_col n kk * src_wgt)
    AER_SSA_SW := add_at3 d.AER_SSA_SW tgt_col n pack kidx (raw.AER_SSA_SW_v src_col n kk * src_wgt)
    AER_TAU_SW := add_at3 d.AER_TAU_SW tgt_col n pack kidx (raw.AER_TAU_SW_v src_col n kk * src_wgt) }

/-- Body of the longwave band loop (lines 474-476) for band `n`. -/
def remap_lwband (raw : RawFields) (src_wgt : ℚ) (src_col tgt_col : Int) (kk pack kidx : Nat)
    (d : SPAData) (n : Nat) : SPAData :=
  { d with
    AER_TAU_LW := add_at3 d.AER_TAU_LW tgt_col n pack kidx (raw.AER_TAU_LW_v src_col n kk * src_wgt) }

/-- Body of the level loop (lines 462-477) for level `kk`. -/
def remap_level (packn : Nat) (raw : RawFields) (nswbands nlwbands : Int) (src_wgt : ℚ)
    (src_col tgt_col : Int) (d : SPAData) (kk : Nat) : SPAData :=
  let pack := kk / packn
  let kidx := kk % packn
  let d1 : SPAData :=
    { d with CCN3 := add_at2 d.CCN3 tgt_col pack kidx (raw.CCN3_v src_col kk * src_wgt) }
  let d2 := (List.range nswbands.toNat).foldl
    (remap_swband raw src_wgt src_col tgt_col kk pack kidx) d1
  (List.range nlwbands.toNat).foldl (remap_lwband raw src_wgt src_col tgt_col kk pack kidx) d2

/-- Body of the triplet loop (lines 455-478) for triplet `idx`. -/
def remap_triplet (packn : Nat) (raw : RawFields) (nswbands nlwbands : Int)
    (hi : SPAHorizInterp) (d : SPAData) (idx : Nat) : SPAData :=
  let src_wgt := hi.weights idx
  let src_col := hi.source_grid_loc idx
  let tgt_col := hi.target_grid_loc idx
  let d1 : SPAData := { d with PS := add_at1 d.PS tgt_col (raw.PS_v src_col * src_wgt) }
  (List.range hi.source_grid_nlevs.toNat).foldl
    (remap_level packn raw nswbands nlwbands src_wgt src_col tgt_col) d1

/-- Lines 440-484: zero the six destination fields, then scatter-accumulate every triplet. -/
def remap_data (packn : Nat) (raw : RawFields) (nswbands nlwbands : Int)
    (hi : SPAHorizInterp) (d : SPAData) : SPAData :=
  let d0 : SPAData :=
    { d with
      PS := fun _ => 0
      CCN3 := fun _ _ _ => 0
      AER_G_SW := fun _ _ _ _ => 0
      AER_SSA_SW := fun _ _ _ _ => 0
      AER_TAU_SW := fun _ _ _ _ => 0
      AER_TAU_LW := fun _ _ _ _ => 0 }
  (List.range hi.length.toNat).foldl (remap_triplet packn raw nswbands nlwbands hi) d0

/-- The routine `SPAFunctions::update_spa_data_from_file`. -/
def update_spa_data_from_file (packn : Nat) (file : SPADataFile) (time_index : Int)
    (nswbands nlwbands : Int) (hi : SPAHorizInterp) (d : SPAData) :
    Outcome (SPAHorizInterp × SPAData) :=
  let ncol := file.ncol
  let hi1 : SPAHorizInterp := { hi with source_grid_nlevs := file.lev }
  if nswbands ≠ file.swband then ⟨some .swband_mismatch, (hi1, d)⟩
  else if nlwbands ≠ file.lwband then ⟨some .lwband_mismatch, (hi1, d)⟩
  else if ncol ≠ hi1.source_grid_ncols then ⟨some .ncol_mismatch, (hi1, d)⟩
  else ⟨none, (hi1, remap_data packn (file.read time_index) nswbands nlwbands hi1 d)⟩

/-! ## get_remap_weights_from_file -/

/-- The two index vectors `local_idx`, `global_idx` of lines 339-340. -/
structure RetainedIdx where
  local_idx : List Nat
  global_idx : List Nat

/-- Lines 343-349: scan `dofs_gids` from position `id` on and stop (`break`) at the first
position holding `dof`. -/
def find_dof (dof : Int) : List Int → Nat → Option Nat
  | [], _ => none
  | g :: gs, id => if dof = g then some id else find_dof dof gs (id + 1)

/-- Body of the loop of lines 341-350 for file entry `idx`. -/
def retain_step (file : RemapFile) (dofs_gids : List Int) (acc : RetainedIdx) (idx : Nat) :
    RetainedIdx :=
  let dof := file.col idx - 1
  match find_dof dof dofs_gids 0 with
  | some id => { local_idx := acc.local_idx ++ [id], global_idx := acc.global_idx ++ [idx] }
  | none => acc

/-- Lines 339-350: the file entries kept on this rank, for a file of `n_s` entries. -/
def retain_owned (file : RemapFile) (dofs_gids : List Int) (n_s : Int) : RetainedIdx :=
  (List.range n_s.toNat).foldl (retain_step file dofs_gids) { local_idx := [], global_idx := [] }

/-- Body of the loop of lines 357-362 for table position `idx`. -/
def fill_step (file : RemapFile) (r : RetainedIdx) (hi : SPAHorizInterp) (idx : Nat) :
    SPAHorizInterp :=
  let ii := r.global_idx.getD idx 0
  { hi with
    weights := Function.update hi.weights idx (file.S ii)
    source_grid_loc := Function.update hi.source_grid_loc idx (file.row ii - 1)
    target_grid_loc := Function.update hi.target_grid_loc idx ((r.local_idx.getD idx 0 : Nat) : Int) }

/-- The routine `SPAFunctions::get_remap_weights_from_file`. -/
def get_remap_weights_from_file (file : RemapFile) (ncols_scream : Int) (dofs_gids : List Int)
    (hi : SPAHorizInterp) : Outcome SPAHorizInterp :=
  let hi1 : SPAHorizInterp := { hi with length := file.n_s }
  let hi2 : SPAHorizInterp := { hi1 with source_grid_ncols := file.n_a }
  let target_ncols := file.n_b
  if target_ncols ≠ ncols_scream then ⟨some .remap_target_mismatch, hi2⟩
  else
    let r := retain_owned file dofs_gids hi2.length
    let hi3 : SPAHorizInterp :=
      { hi2 with
        length := (r.local_idx.length : Int)
        weights := fun _ => 0
        source_grid_loc := fun _ => 0
        target_grid_loc := fun _ => 0 }
    ⟨none, (List.range r.local_idx.length).foldl (fill_step file r) hi3⟩

/-! ## linear_interp and the temporal step of spa_main -/

/-- The helper `linear_interp` at `ScalarT = Real`, in exact arithmetic: the value of the
expression of line 535.  Its evaluation in `double` is `linear_interp_double`. -/
def linear_interp (x0 x1 t_norm : ℚ) : ℚ :=
  (1 - t_norm) * x0 + t_norm * x1

/-- The helper `linear_interp` at `ScalarT = Spack`: pack arithmetic acts lane by lane. -/
def linear_interp_pack (x0 x1 : Nat → ℚ) (t_norm : ℚ) : Nat → ℚ :=
  fun lane => linear_interp (x0 lane) (x1 lane) t_norm

/-- The time state `SPATimeState`. -/
structure SPATimeState where
  current_month : Int
  t_beg_month : ℚ
  days_this_month : ℚ
  t_now : ℚ

/-- The pressure state `SPAPressureState` (fields as used by `spa_main`). -/
structure SPAPressureState where
  ncols : Int
  nlevs : Int
  ps_this_month : Int → ℚ
  ps_next_month : Int → ℚ
  hyam : Nat → Nat → ℚ
  hybm : Nat → Nat → ℚ
  pmid : Int → Nat → Nat → ℚ

/-- The call `ekat::npack<Spack>(nlevs)`: packs needed for `nlevs` scalars. -/
def npack (packn : Nat) (nlevs : Int) : Nat :=
  (nlevs.toNat + packn - 1) / packn

/-- The values held after the first parallel region of `spa_main` (lines 128-206): the local
`ps_src` of each column and the temporaries `p_src`, `ccn3_src`, `aer_*_src`. -/
structure SPASource where
  ps_src : Nat → ℚ
  p_src : Nat → Nat → Nat → ℚ
  ccn3_src : Nat → Nat → Nat → ℚ
  aer_g_sw_src : Nat → Nat → Nat → Nat → ℚ
  aer_ssa_sw_src : Nat → Nat → Nat → Nat → ℚ
  aer_tau_sw_src : Nat → Nat → Nat → Nat → ℚ
  aer_tau_lw_src : Nat → Nat → Nat → Nat → ℚ

/-- Line 149: `t_norm = (t_now-t_beg)/t_len`. -/
def t_norm (time_state : SPATimeState) : ℚ :=
  (time_state.t_now - time_state.t_beg_month) / time_state.days_this_month

/-- Lines 128-206 of `spa_main`.  Every cell is written by one iteration of the nested
parallel loops (column `i`, band `n`, pack `k`); a cell outside the iteration space keeps the
zero it was allocated with.  `P0` is `Constants<Real>::P0`. -/
def spa_main_temporal (packn : Nat) (P0 : ℚ) (time_state : SPATimeState)
    (pressure_state : SPAPressureState) (data_beg data_end : SPAData)
    (ncols_atm nswbands nlwbands : Int) : SPASource :=
  let t_norm := t_norm time_state
  let nk_pack := npack packn pressure_state.nlevs
  let ps_src : Nat → ℚ := fun i =>
    linear_interp (pressure_state.ps_this_month i) (pressure_state.ps_next_month i) t_norm
  { ps_src := ps_src
    p_src := fun i k lane =>
      if i < ncols_atm.toNat ∧ k < nk_pack then
        ps_src i * pressure_state.hybm k lane + P0 * pressure_state.hyam k lane
      else 0
    ccn3_src := fun i k =>
      if i < ncols_atm.toNat ∧ k < nk_pack then
        linear_interp_pack (data_beg.CCN3 i k) (data_end.CCN3 i k) t_norm
      else fun _ => 0
    aer_g_sw_src := fun i n k =>
      if i < ncols_atm.toNat ∧ n < nswbands.toNat ∧ k < nk_pack then
        linear_interp_pack (data_beg.AER_G_SW i n k) (data_end.AER_G_SW i n k) t_norm
      else fun _ => 0
    aer_ssa_sw_src := fun i n k =>
      if i < ncols_atm.toNat ∧ n < nswbands.toNat ∧ k < nk_pack then
        linear_interp_pack (data_beg.AER_SSA_SW i n k) (data_end.AER_SSA_SW i n k) t_norm
      else fun _ => 0
    aer_tau_sw_src := fun i n k =>
      if i < ncols_atm.toNat ∧ n < nswbands.toNat ∧ k < nk_pack then
        linear_interp_pack (data_beg.AER_TAU_SW i n k) (data_end.AER_TAU_SW i n k) t_norm
      else fun _ => 0
    aer_tau_lw_src := fun i n k =>
      if i < ncols_atm.toNat ∧ n < nlwbands.toNat ∧ k < nk_pack then
        linear_interp_pack (data_beg.AER_TAU_LW i n k) (data_end.AER_TAU_LW i n k) t_norm
      else fun _ => 0 }

/-! ## update_spa_timestate -/

/-- What `update_spa_timestate` asks of its `util::TimeStamp` argument: the values returned by
`get_julian_day()`, `get_years()`, `get_months()` and `get_dpm()`. -/
structure TimeStamp where
  julian_day : ℚ
  years : Int
  months : Int
  dpm : Int

/-- Line 518: `next_month = current_month==12 ? 1 : current_month+1`. -/
def next_month (current_month : Int) : Int :=
  if current_month = 12 then 1 else current_month + 1

/-- Everything `update_spa_timestate` can write.  `time_state`, `spa_beg_data` and
`spa_end_data` are the objects its body names (they are not among its parameters);
`spa_horiz_interp`, `spa_beg` and `spa_end` are its by-reference parameters.  `loads` is a
record kept for the statements: the time indices with which `update_spa_data_from_file` has
been called, in call order. -/
structure SPAState where
  time_state : SPATimeState
  spa_horiz_interp : SPAHorizInterp
  spa_beg_data : SPAData
  spa_end_data : SPAData
  spa_beg : SPAData
  spa_end : SPAData
  loads : List Int

/-- The routine `SPAFunctions::update_spa_timestate`.  `julian_day` is `util::julian_day`; an
error raised by the first load ends the routine before the second one. -/
def update_spa_timestate (packn : Nat) (julian_day : Int → Int → Int → Int → ℚ)
    (file : SPADataFile) (time_index nswbands nlwbands : Int) (ts : TimeStamp)
    (st : SPAState) : Outcome SPAState :=
  let _ := time_index
  let st1 : SPAState := { st with time_state := { st.time_state with t_now := ts.julian_day } }
  if ts.months ≠ st1.time_state.current_month then
    let t1 : SPATimeState := { st1.time_state with current_month := ts.months }
    let t2 : SPATimeState := { t1 with t_beg_month := julian_day ts.years ts.months 0 0 }
    let t3 : SPATimeState := { t2 with days_this_month := (ts.dpm : ℚ) }
    let r1 := update_spa_data_from_file packn file t3.current_month nswbands nlwbands
      st1.spa_horiz_interp st1.spa_beg_data
    let st2 : SPAState :=
      { st1 with
        time_state := t3
        spa_horiz_interp := r1.state.1
        spa_beg_data := r1.state.2
        loads := st1.loads ++ [t3.current_month] }
    match r1.error with
    | some e => ⟨some e, st2⟩
    | none =>
      let r2 := update_spa_data_from_file packn file (next_month t3.current_month) nswbands
        nlwbands st2.spa_horiz_interp st2.spa_end_data
      ⟨r2.error,
        { st2 with
          spa_horiz_interp := r2.state.1
          spa_end_data := r2.state.2
          loads := st2.loads ++ [next_month t3.current_month] }⟩
  else ⟨none, st1⟩

/-! ## spa_main -/

/-- The output dataset `SPAOutput`: the five fields on the simulation's levels, as packed
views indexed by column, (band,) pack and lane. -/
structure SPAOutput where
  CCN3 : Nat → Nat → Nat → ℚ
  AER_G_SW : Nat → Nat → Nat → Nat → ℚ
  AER_SSA_SW : Nat → Nat → Nat → Nat → ℚ
  AER_TAU_SW : Nat → Nat → Nat → Nat → ℚ
  AER_TAU_LW : Nat → Nat → Nat → Nat → ℚ

/-- A packed column read level by level: level `kk` sits in pack `kk / packn`, lane
`kk % packn`. -/
def unpack (packn : Nat) (v : Nat → Nat → ℚ) : Nat → ℚ :=
  fun kk => v (kk / packn) (kk % packn)

/-- Modelled from the spec: the bracket search of the vertical interpolator
`ekat::LinInterp`, whose code (`ekat/util/ekat_lin_interp.hpp`) is not among the sources.
"Locate the bracketing pair of source levels whose pressures straddle the destination pressure
... and linearly blend", by "a sequential scan over levels": starting at source level `k`, the
first pair `(k, k+1)` with `x1 k ≤ x ≤ x1 (k+1)` is blended with the linear interpolator; when
the `fuel` pairs are used up the value of the last level reached is returned. -/
def bracket_blend (x1 y1 : Nat → ℚ) (x : ℚ) : Nat → Nat → ℚ
  | 0, k => y1 k
  | fuel + 1, k =>
    if x1 k ≤ x ∧ x ≤ x1 (k + 1) then
      linear_interp (y1 k) (y1 (k + 1)) ((x - x1 k) / (x1 (k + 1) - x1 k))
    else bracket_blend x1 y1 x fuel (k + 1)

/-- Modelled from the spec: one destination value of `ekat::LinInterp::lin_interp`, whose code
is not among the sources.  For `km1` source levels with pressures `x1` and values `y1` and a
destination pressure `x`: "outside the source pressure range, clamp the result to the nearest
boundary value", inside it blend the bracketing pair, "with a configurable lower threshold
... applied as a floor". -/
def lin_interp_level (minthreshold : ℚ) (km1 : Nat) (x1 y1 : Nat → ℚ) (x : ℚ) : ℚ :=
  let v :=
    if x < x1 0 then y1 0
    else if x1 (km1 - 1) < x then y1 (km1 - 1)
    else bracket_blend x1 y1 x (km1 - 1) 0
  max v minthreshold

/-- The routine `SPAFunctions::spa_main`: the column-count check of line 110, the temporal
step (lines 128-206) and the vertical interpolation of every field through one interpolator
with `minthreshold = 0.0` (lines 211-279).  A cell of `data_out` that belongs to a column
`i < ncols_atm`, a band in range and a level `< nlevs_atm` receives the interpolated value at
its own destination pressure `pmid(i,pack)[lane]`; the other cells keep what they held. -/
def spa_main (packn : Nat) (P0 : ℚ) (time_state : SPATimeState)
    (pressure_state : SPAPressureState) (data_beg data_end : SPAData) (data_out : SPAOutput)
    (ncols_atm nlevs_atm nswbands nlwbands : Int) : Outcome SPAOutput :=
  if ncols_atm ≠ pressure_state.ncols then ⟨some .ncols_atm_mismatch, data_out⟩
  else
    let src := spa_main_temporal packn P0 time_state pressure_state data_beg data_end
      ncols_atm nswbands nlwbands
    let minthreshold : ℚ := 0
    let km1 := pressure_state.nlevs.toNat
    let is_level : Nat → Nat → Prop := fun pack lane =>
      lane < packn ∧ pack * packn + lane < nlevs_atm.toNat
    let vert : Nat → (Nat → Nat → ℚ) → Nat → Nat → ℚ := fun i y1 pack lane =>
      lin_interp_level minthreshold km1 (unpack packn (src.p_src i)) (unpack packn y1)
        (pressure_state.pmid i pack lane)
    ⟨none,
      { CCN3 := fun i pack lane =>
          if i < ncols_atm.toNat ∧ is_level pack lane then vert i (src.ccn3_src i) pack lane
          else data_out.CCN3 i pack lane
        AER_G_SW := fun i n pack lane =>
          if i < ncols_atm.toNat ∧ n < nswbands.toNat ∧ is_level pack lane then
            vert i (src.aer_g_sw_src i n) pack lane
          else data_out.AER_G_SW i n pack lane
        AER_SSA_SW := fun i n pack lane =>
          if i < ncols_atm.toNat ∧ n < nswbands.toNat ∧ is_level pack lane then
            vert i (src.aer_ssa_sw_src i n) pack lane
          else data_out.AER_SSA_SW i n pack lane
        AER_TAU_SW := fun i n pack lane =>
          if i < ncols_atm.toNat ∧ n < nswbands.toNat ∧ is_level pack lane then
            vert i (src.aer_tau_sw_src i n) pack lane
          else data_out.AER_TAU_SW i n pack lane
        AER_TAU_LW := fun i n pack lane =>
          if i < ncols_atm.toNat ∧ n < nlwbands.toNat ∧ is_level pack lane then
            vert i (src.aer_tau_lw_src i n) pack lane
          else data_out.AER_TAU_LW i n pack lane }⟩

/-! ## read_rrtmg_table (mam_aerosol_optics_read_tables.hpp) -/

/-- The host tables `AerosolOpticsHostData`, as filled by `rrtmg.read_variables`:
`refindex_*_host(band, j)` and the 5-d tables indexed in the file's order
`(band, mode, refindex_im, refindex_real, coef_number)`. -/
structure AerosolOpticsHostData where
  refindex_real_sw_host : Nat → Nat → ℚ
  refindex_im_sw_host : Nat → Nat → ℚ
  refindex_real_lw_host : Nat → Nat → ℚ
  refindex_im_lw_host : Nat → Nat → ℚ
  absplw_host : Nat → Nat → Nat → Nat → Nat → ℚ
  abspsw_host : Nat → Nat → Nat → Nat → Nat → ℚ
  asmpsw_host : Nat → Nat → Nat → Nat → Nat → ℚ
  extpsw_host : Nat → Nat → Nat → Nat → Nat → ℚ

/-- The device tables `AerosolOpticsDeviceData`: arrays `[mode][band]` of 1-d views
`refitabsw`, ... and of 3-d views `abspsw`, ... indexed `(coef_number, refindex_real,
refindex_im)`. -/
structure AerosolOpticsDeviceData where
  refitabsw : Nat → Nat → Nat → ℚ
  refrtabsw : Nat → Nat → Nat → ℚ
  refrtablw : Nat → Nat → Nat → ℚ
  refitablw : Nat → Nat → Nat → ℚ
  abspsw : Nat → Nat → Nat → Nat → Nat → ℚ
  absplw : Nat → Nat → Nat → Nat → Nat → ℚ
  asmpsw : Nat → Nat → Nat → Nat → Nat → ℚ
  extpsw : Nat → Nat → Nat → Nat → Nat → ℚ

/-- The constants of `mam4::modal_aer_opt` that size the tables. -/
structure ModalAerOpt where
  refindex_real : Nat
  refindex_im : Nat
  nlwbands : Nat
  nswbands : Nat
  coef_number : Nat

/-- The statement `deep_copy(tab[d1][d3], row)` on an array of 1-d views. -/
def set_row (tab : Nat → Nat → Nat → ℚ) (d1 d3 : Nat) (row : Nat → ℚ) : Nat → Nat → Nat → ℚ :=
  fun m b => if m = d1 ∧ b = d3 then row else tab m b

/-- The statement `tab[d1][d5](d2,d3,d4) = x` on an array of 3-d views. -/
def set_cell (tab : Nat → Nat → Nat → Nat → Nat → ℚ) (d1 d5 d2 d3 d4 : Nat) (x : ℚ) :
    Nat → Nat → Nat → Nat → Nat → ℚ :=
  fun m b c r i =>
    if m = d1 ∧ b = d5 ∧ c = d2 ∧ r = d3 ∧ i = d4 then x else tab m b c r i

/-- The loop nest `for d5 < nbands, for d2 < coef_number, for d3 < refindex_real,
for d4 < refindex_im` of lines 212-217 and 223-231, with `body` as its innermost statement. -/
def reorder_loop {σ : Type} (nbands coef_number refindex_real refindex_im : Nat)
    (body : σ → Nat → Nat → Nat → Nat → σ) (s : σ) : σ :=
  (List.range nbands).foldl (fun s d5 =>
    (List.range coef_number).foldl (fun s d2 =>
      (List.range refindex_real).foldl (fun s d3 =>
        (List.range refindex_im).foldl (fun s d4 => body s d5 d2 d3 d4) s) s) s) s

/-- The routine `read_rrtmg_table`, from the host tables as read from the file to the device
tables of mode slot `imode`. -/
def read_rrtmg_table (k : ModalAerOpt) (imode : Nat) (host : AerosolOpticsHostData)
    (dev : AerosolOpticsDeviceData) : AerosolOpticsDeviceData :=
  let d1 := imode
  let dev1 := (List.range k.nswbands).foldl (fun (dev : AerosolOpticsDeviceData) d3 =>
    { dev with
      refrtabsw := set_row dev.refrtabsw d1 d3 (host.refindex_real_sw_host d3)
      refitabsw := set_row dev.refitabsw d1 d3 (host.refindex_im_sw_host d3) }) dev
  let dev2 := (List.range k.nlwbands).foldl (fun (dev : AerosolOpticsDeviceData) d3 =>
    { dev with
      refrtablw := set_row dev.refrtablw d1 d3 (host.refindex_real_lw_host d3)
      refitablw := set_row dev.refitablw d1 d3 (host.refindex_im_lw_host d3) }) dev1
  let dev3 := reorder_loop k.nlwbands k.coef_number k.refindex_real k.refindex_im
    (fun (dev : AerosolOpticsDeviceData) d5 d2 d3 d4 =>
      { dev with absplw := set_cell dev.absplw d1 d5 d2 d3 d4 (host.absplw_host d5 0 d4 d3 d2) })
    dev2
  reorder_loop k.nswbands k.coef_number k.refindex_real k.refindex_im
    (fun (dev : AerosolOpticsDeviceData) d5 d2 d3 d4 =>
      { dev with
        asmpsw := set_cell dev.asmpsw d1 d5 d2 d3 d4 (host.asmpsw_host d5 0 d4 d3 d2)
        abspsw := set_cell dev.abspsw d1 d5 d2 d3 d4 (host.abspsw_host d5 0 d4 d3 d2)
        extpsw := set_cell dev.extpsw d1 d5 d2 d3 d4 (host.extpsw_host d5 0 d4 d3 d2) })
    dev3

/-- The reordering of lines 207-209: host index `(band, mode, refindex_im, refindex_real,
coef_number)` to device index `(mode slot, band, coef_number, refindex_real, refindex_im)`. -/
def host_to_device (imode : Nat) : Nat × Nat × Nat × Nat × Nat → Nat × Nat × Nat × Nat × Nat :=
  fun h => (imode, h.1, h.2.2.2.2, h.2.2.2.1, h.2.2.1)

/-- The index range of a host table of `nbands` bands: extents
`(nbands, 1, refindex_im, refindex_real, coef_number)`. -/
def host_range (k : ModalAerOpt) (nbands : Nat) : Set (Nat × Nat × Nat × Nat × Nat) :=
  {h | h.1 < nbands ∧ h.2.1 < 1 ∧ h.2.2.1 < k.refindex_im ∧ h.2.2.2.1 < k.refindex_real ∧
    h.2.2.2.2 < k.coef_number}

/-- The index range of the device tables of mode slot `imode` over `nbands` bands: extents
`(coef_number, refindex_real, refindex_im)` for each band. -/
def device_range (k : ModalAerOpt) (imode nbands : Nat) : Set (Nat × Nat × Nat × Nat × Nat) :=
  {d | d.1 = imode ∧ d.2.1 < nbands ∧ d.2.2.1 < k.coef_number ∧ d.2.2.2.1 < k.refindex_real ∧
    d.2.2.2.2 < k.refindex_im}

/-- Table sizes for the samples: 2 real and 3 imaginary refractive indices, 2 longwave and 2
shortwave bands, 2 coefficients. -/
def sample_modal : ModalAerOpt :=
  { refindex_real := 2, refindex_im := 3, nlwbands := 2, nswbands := 2, coef_number := 2 }

/-- Host tables whose entries encode their own index. -/
def sample_host : AerosolOpticsHostData :=
  { refindex_real_sw_host := fun b j => (10 * b + j : Nat)
    refindex_im_sw_host := fun b j => (10 * b + j : Nat)
    refindex_real_lw_host := fun b j => (10 * b + j : Nat)
    refindex_im_lw_host := fun b j => (10 * b + j : Nat)
    absplw_host := fun b m i r c => (10000 * b + 1000 * m + 100 * i + 10 * r + c : Nat)
    abspsw_host := fun b m i r c => (10000 * b + 1000 * m + 100 * i + 10 * r + c : Nat)
    asmpsw_host := fun b m i r c => (10000 * b + 1000 * m + 100 * i + 10 * r + c : Nat)
    extpsw_host := fun b m i r c => (10000 * b + 1000 * m + 100 * i + 10 * r + c : Nat) }

/-- Device tables that hold 0 everywhere. -/
def sample_device : AerosolOpticsDeviceData :=
  { refitabsw := fun _ _ _ => 0, refrtabsw := fun _ _ _ => 0
    refrtablw := fun _ _ _ => 0, refitablw := fun _ _ _ => 0
    abspsw := fun _ _ _ _ _ => 0, absplw := fun _ _ _ _ _ => 0
    asmpsw := fun _ _ _ _ _ => 0, extpsw := fun _ _ _ _ _ => 0 }

/-! ## FieldTag and e2str (field_tag.hpp) -/

/-- The enumeration `FieldTag`, in the order of its declaration. -/
inductive FieldTag where
  | Invalid
  | Element
  | LevelMidPoint
  | LevelInterface
  | Column
  | GaussPoint
  | Component
  | TimeLevel
  | Gases
  | ShortWaveBand
  | ShortWaveGpoint
  | LongWaveBand
  | LongWaveGpoint
  | IsccpTau
  | IsccpPrs
  | num_modes
  | lw_band
  | sw_band
  | nrefindex_real
  | nrefindex_im
  | ncoef_number
  | mode
  deriving DecidableEq, Repr

/-- The underlying value of a `FieldTag`: its position in the declaration. -/
def FieldTag.value : FieldTag → Nat
  | .Invalid => 0
  | .Element => 1
  | .LevelMidPoint => 2
  | .LevelInterface => 3
  | .Column => 4
  | .GaussPoint => 5
  | .Component => 6
  | .TimeLevel => 7
  | .Gases => 8
  | .ShortWaveBand => 9
  | .ShortWaveGpoint => 10
  | .LongWaveBand => 11
  | .LongWaveGpoint => 12
  | .IsccpTau => 13
  | .IsccpPrs => 14
  | .num_modes => 15
  | .lw_band => 16
  | .sw_band => 17
  | .nrefindex_real => 18
  | .nrefindex_im => 19
  | .ncoef_number => 20
  | .mode => 21

/-- The `switch` of `e2str` on the underlying value: one `case` per enumerator, in the order
of the source, and the `default` branch that raises `EKAT_ERROR_MSG`. -/
def e2str_switch (ft : Nat) : Except String String :=
  if ft = FieldTag.Invalid.value then Except.ok "Invalid"
  else if ft = FieldTag.Element.value then Except.ok "elem"
  else if ft = FieldTag.LevelMidPoint.value then Except.ok "lev"
  else if ft = FieldTag.LevelInterface.value then Except.ok "ilev"
  else if ft = FieldTag.TimeLevel.value then Except.ok "tl"
  else if ft = FieldTag.Column.value then Except.ok "ncol"
  else if ft = FieldTag.GaussPoint.value then Except.ok "gp"
  else if ft = FieldTag.Component.value then Except.ok "dim"
  else if ft = FieldTag.Gases.value then Except.ok "ngas"
  else if ft = FieldTag.ShortWaveBand.value then Except.ok "swband"
  else if ft = FieldTag.ShortWaveGpoint.value then Except.ok "swgpt"
  else if ft = FieldTag.LongWaveBand.value then Except.ok "lwband"
  else if ft = FieldTag.LongWaveGpoint.value then Except.ok "lwgpt"
  else if ft = FieldTag.IsccpTau.value then Except.ok "ISCCPTAU"
  else if ft = FieldTag.IsccpPrs.value then Except.ok "ISCCPPRS"
  else if ft = FieldTag.num_modes.value then Except.ok "num_modes"
  else if ft = FieldTag.lw_band.value then Except.ok "lw_band"
  else if ft = FieldTag.sw_band.value then Except.ok "sw_band"
  else if ft = FieldTag.nrefindex_real.value then Except.ok "refindex_real"
  else if ft = FieldTag.nrefindex_im.value then Except.ok "refindex_im"
  else if ft = FieldTag.ncoef_number.value then Except.ok "coef_number"
  else if ft = FieldTag.mode.value then Except.ok "mode"
  else Except.error "Error! Unrecognized field tag."

/-- The function `e2str` on a `FieldTag`. -/
def e2str (ft : FieldTag) : Except String String :=
  e2str_switch ft.value

/-! ## Double precision -/

/-- Rounding of a real number to an integer: to the nearest one, and to the even one of the
two when they are equally near. -/
def round_half_even (q : ℚ) : Int :=
  if q - ⌊q⌋ < 1 / 2 then ⌊q⌋
  else if 1 / 2 < q - ⌊q⌋ then ⌊q⌋ + 1
  else if ⌊q⌋ % 2 = 0 then ⌊q⌋ else ⌊q⌋ + 1

/-- The spacing of the `double` values (IEEE 754 binary64, 53 significant bits) around `q`:
`2^(e-52)` when `2^e ≤ |q| < 2^(e+1)`, and `2^-1074` below the normal range, which starts at
`2^-1022`. -/
def double_ulp (q : ℚ) : ℚ :=
  (2 : ℚ) ^ (max (Int.log 2 |q|) (-1022) - 52)

/-- The largest finite `double`, `DBL_MAX = (2^53 - 1) * 2^971`. -/
def DBL_MAX : ℚ := (2 ^ 53 - 1) * 2 ^ 971

/-- The rounding that every `double` operation applies to its exact result (round to nearest,
ties to even, the default rounding of C++): the nearest multiple of the spacing, or `none` when
that is beyond `DBL_MAX` and the operation overflows to infinity. -/
def round_double (q : ℚ) : Option ℚ :=
  if |(round_half_even (q / double_ulp q) : ℚ) * double_ulp q| ≤ DBL_MAX then
    some ((round_half_even (q / double_ulp q) : ℚ) * double_ulp q)
  else none

/-- The helper `linear_interp` at `ScalarT = Real` with `Real = double`: the expression
`(1.0 - t_norm) * x0 + t_norm * x1` of line 535 on finite operands, with each of its four
operations rounded to `double` (no contraction into a fused multiply-add); `none` when one of
them overflows. -/
def linear_interp_double (x0 x1 t_norm : ℚ) : Option ℚ :=
  (round_double (1 - t_norm)).bind fun a =>
  (round_double (a * x0)).bind fun b =>
  (round_double (t_norm * x1)).bind fun c =>
  round_double (b + c)

/-! ## Vocabulary of the statements -/

/-- The triplets `idx < length` of a remap table whose target column is `t`. -/
def triplets_onto (hi : SPAHorizInterp) (t : Int) : Finset Nat :=
  (Finset.range hi.length.toNat).filter (fun idx => hi.target_grid_loc idx = t)

/-- The dataset as `update_spa_data_from_file` leaves it. -/
def loaded (packn : Nat) (file : SPADataFile) (time_index nswbands nlwbands : Int)
    (hi : SPAHorizInterp) (d : SPAData) : SPAData :=
  (update_spa_data_from_file packn file time_index nswbands nlwbands hi d).state.2

/-! ## Sample inputs -/

/-- A data file with two source columns, two levels and one band of each kind. -/
def sample_file : SPADataFile :=
  { ncol := 2, lev := 2, swband := 1, lwband := 1
    read := fun m =>
      { PS_v := fun c => 100000 + 200 * (c : ℚ) + (m : ℚ)
        CCN3_v := fun c k => 10 * (c : ℚ) + (k : ℚ) + 1
        AER_G_SW_v := fun c n k => (c : ℚ) + (n : ℚ) + (k : ℚ) + 2
        AER_SSA_SW_v := fun c n k => (c : ℚ) * 3 + (n : ℚ) + (k : ℚ) + 3
        AER_TAU_SW_v := fun c n k => (c : ℚ) * 5 + (n : ℚ) + (k : ℚ) + 4
        AER_TAU_LW_v := fun c n k => (c : ℚ) * 7 + (n : ℚ) + (k : ℚ) + 5 } }

/-- Two source columns onto target column 0, with weights 0.3 and 0.7. -/
def sample_two_onto_one : SPAHorizInterp :=
  { length := 2, source_grid_ncols := 2, source_grid_nlevs := 0
    weights := fun idx => if idx = 0 then 3 / 10 else 7 / 10
    source_grid_loc := fun idx => (idx : Int)
    target_grid_loc := fun _ => 0 }

/-- One triplet per column, source = target, weight 1, for two columns. -/
def sample_identity : SPAHorizInterp :=
  { length := 2, source_grid_ncols := 2, source_grid_nlevs := 0
    weights := fun _ => 1
    source_grid_loc := fun idx => (idx : Int)
    target_grid_loc := fun idx => (idx : Int) }

/-- A dataset that holds 7 everywhere before the load. -/
def sample_data : SPAData :=
  { ncols := 2, nlevs := 2
    hyam := fun _ _ => 7, hybm := fun _ _ => 7, PS := fun _ => 7, CCN3 := fun _ _ _ => 7
    AER_G_SW := fun _ _ _ _ => 7, AER_SSA_SW := fun _ _ _ _ => 7
    AER_TAU_SW := fun _ _ _ _ => 7, AER_TAU_LW := fun _ _ _ _ => 7 }

/-- The file entries kept by `get_remap_weights_from_file`, in table order: the vector
`global_idx` of the source.  Table position `idx` is filled from file entry
`kept_entries[idx]`. -/
def kept_entries (file : RemapFile) (dofs_gids : List Int) : List Nat :=
  (retain_owned file dofs_gids file.n_s).global_idx

/-- A remap file of four triplets from three source columns onto five target columns. -/
def sample_remap_file : RemapFile :=
  { n_s := 4, n_a := 3, n_b := 5
    S := fun ii => (ii : ℚ) / 10
    row := fun ii => [1, 2, 3, 3].getD ii 0
    col := fun ii => [1, 3, 5, 3].getD ii 0 }

/-- An empty remap table. -/
def sample_empty_table : SPAHorizInterp :=
  { length := 0, source_grid_ncols := 0, source_grid_nlevs := 0
    weights := fun _ => 0, source_grid_loc := fun _ => 0, target_grid_loc := fun _ => 0 }

/-- A second dataset, holding 9 everywhere. -/
def sample_data_end : SPAData :=
  { ncols := 2, nlevs := 2
    hyam := fun _ _ => 9, hybm := fun _ _ => 9, PS := fun _ => 9, CCN3 := fun _ _ _ => 9
    AER_G_SW := fun _ _ _ _ => 9, AER_SSA_SW := fun _ _ _ _ => 9
    AER_TAU_SW := fun _ _ _ _ => 9, AER_TAU_LW := fun _ _ _ _ => 9 }

/-- A pressure state with two columns and two source levels; begin surface pressure 100000 and
end surface pressure 100200 in every column. -/
def sample_pressure : SPAPressureState :=
  { ncols := 2, nlevs := 2
    ps_this_month := fun _ => 100000
    ps_next_month := fun _ => 100200
    hyam := fun _ _ => 0
    hybm := fun _ lane => ((lane : ℚ) + 1) / 2
    pmid := fun _ _ _ => 0 }

/-- A time state at the start of a 31-day month beginning on day 10. -/
def sample_time_start : SPATimeState :=
  { current_month := 1, t_beg_month := 10, days_this_month := 31, t_now := 10 }

/-- A time state at the end of a 31-day month beginning on day 10. -/
def sample_time_end : SPATimeState :=
  { current_month := 1, t_beg_month := 10, days_this_month := 31, t_now := 41 }

/-- A time state at the middle of a 31-day month beginning on day 10. -/
def sample_time_mid : SPATimeState :=
  { current_month := 1, t_beg_month := 10, days_this_month := 31, t_now := 51 / 2 }

/-- A state in which no month has been loaded yet (`current_month = 0`). -/
def sample_state : SPAState :=
  { time_state := { current_month := 0, t_beg_month := 0, days_this_month := 0, t_now := 0 }
    spa_horiz_interp := sample_identity
    spa_beg_data := sample_data, spa_end_data := sample_data
    spa_beg := sample_data, spa_end := sample_data
    loads := [] }

/-- A calendar for the samples: day of the year at which a month starts (good for January and
February), plus the day and the fraction of a day. -/
def sample_julian_day : Int → Int → Int → Int → ℚ :=
  fun _ months days seconds => 31 * ((months : ℚ) - 1) + (days : ℚ) + (seconds : ℚ) / 86400

/-- The timestamp 14 February 1900, 00:00 (day 45 of the year; February has 28 days). -/
def sample_ts_feb_1900 : TimeStamp :=
  { julian_day := 45, years := 1900, months := 2, dpm := 28 }

/-- The timestamp 29 February 1904, 12:00 (day 59.5 of the year; February has 29 days). -/
def sample_ts_feb_1904 : TimeStamp :=
  { julian_day := 119 / 2, years := 1904, months := 2, dpm := 29 }

/-- The state after the call for 14 February 1900 from `sample_state`. -/
def sample_state_feb : SPAState :=
  (update_spa_timestate 2 sample_julian_day sample_file 0 1 1 sample_ts_feb_1900
    sample_state).state

/-- The state after the next call, for 29 February 1904. -/
def sample_state_feb_later : SPAState :=
  (update_spa_timestate 2 sample_julian_day sample_file 0 1 1 sample_ts_feb_1904
    sample_state_feb).state

/-- The dataset `sample_data` declared with three columns instead of two. -/
def sample_data_three_cols : SPAData :=
  { sample_data with ncols := 3 }

/-- An output dataset that holds 42 everywhere before `spa_main` runs. -/
def sample_output : SPAOutput :=
  { CCN3 := fun _ _ _ => 42
    AER_G_SW := fun _ _ _ _ => 42, AER_SSA_SW := fun _ _ _ _ => 42
    AER_TAU_SW := fun _ _ _ _ => 42, AER_TAU_LW := fun _ _ _ _ => 42 }

/-- A pressure state with one column and three source levels whose pressures increase with
level (`hybm = 1, 2, 3`, `hyam = 0`, surface pressure 100000); the one destination level has
the pressure of source level 1. -/
def sample_pressure_three : SPAPressureState :=
  { ncols := 1, nlevs := 3
    ps_this_month := fun _ => 100000
    ps_next_month := fun _ => 100000
    hyam := fun _ _ => 0
    hybm := fun pack lane => ((pack * 2 + lane : Nat) : ℚ) + 1
    pmid := fun _ _ _ => 200000 }

/-- A pressure state like `sample_pressure_three` whose source pressures do not increase with
level (`hybm = 3, 2, 4`); the one destination level has the pressure of source level 1. -/
def sample_pressure_unsorted : SPAPressureState :=
  { sample_pressure_three with
    hybm := fun pack lane => if pack * 2 + lane = 0 then 3 else if pack * 2 + lane = 1 then 2 else 4 }

/-- A begin dataset whose `CCN3` is `-7` at source level 1 and `5` elsewhere. -/
def sample_data_negative : SPAData :=
  { sample_data with CCN3 := fun _ pack lane => if pack * 2 + lane = 1 then -7 else 5 }

/-- A begin dataset whose `CCN3` is `5, 8, 11, ...` at source levels `0, 1, 2, ...`. -/
def sample_data_steps : SPAData :=
  { sample_data with CCN3 := fun _ pack lane => 5 + 3 * ((pack * 2 + lane : Nat) : ℚ) }

/-- A remap table with its triplets rearranged: position `idx` holds the triplet that was at
position `σ idx` (the same rearrangement for `weights`, `source_grid_loc` and
`target_grid_loc`). -/
def permute_table (σ : Equiv.Perm Nat) (hi : SPAHorizInterp) : SPAHorizInterp :=
  { hi with
    weights := fun idx => hi.weights (σ idx)
    source_grid_loc := fun idx => hi.source_grid_loc (σ idx)
    target_grid_loc := fun idx => hi.target_grid_loc (σ idx) }

/-- Modelled from the spec: the value `lin_interp_level` holds before the floor is applied,
the clamped or blended value of `ekat::LinInterp` (whose code is not among the sources). -/
def lin_interp_clamped (km1 : Nat) (x1 y1 : Nat → ℚ) (x : ℚ) : ℚ :=
  if x < x1 0 then y1 0
  else if x1 (km1 - 1) < x then y1 (km1 - 1)
  else bracket_blend x1 y1 x (km1 - 1) 0

/-- The pressure state `sample_pressure_three` with the one destination pressure, 50000, below
every source pressure. -/
def sample_pressure_low : SPAPressureState :=
  { sample_pressure_three with pmid := fun _ _ _ => 50000 }

/-- The `double` nearest to 0.1. -/
def double_tenth : ℚ := 3602879701896397 / 2 ^ 55

/-- The `double` nearest to 0.2. -/
def double_fifth : ℚ := 3602879701896397 / 2 ^ 54

/-- The `double` nearest to 0.3. -/
def double_three_tenths : ℚ := 5404319552844595 / 2 ^ 54

/-! ## Generic loop lemmas -/

/-- A quantity that every iteration leaves alone is left alone by the loop. -/
theorem foldl_range_keep {σ β : Type} (r : σ → β) (step : σ → Nat → σ)
    (h : ∀ s i, r (step s i) = r s) (s : σ) (N : Nat) :
    r ((List.range N).foldl step s) = r s := by
  induction N with
  | zero => simp
  | succ N ih => rw [List.range_succ, List.foldl_append]; simp [h, ih]

/-- A cell to which iteration `i` adds `g i` holds, after the loop, its old value plus the
sum of the `g i`. -/
theorem foldl_range_acc {σ : Type} (r : σ → ℚ) (step : σ → Nat → σ) (g : Nat → ℚ)
    (h : ∀ s i, r (step s i) = r s + g i) (s : σ) (N : Nat) :
    r ((List.range N).foldl step s) = r s + ∑ i in Finset.range N, g i := by
  induction N with
  | zero => simp
  | succ N ih =>
    rw [List.range_succ, List.foldl_append, Finset.sum_range_succ]
    simp [h, ih, add_assoc]

/-! ## The scatter-accumulate, field by field -/

section remap
variable (packn : Nat) (raw : RawFields) (nswbands nlwbands : Int)

theorem level_eq_iff (packn kk kk0 : Nat) :
    (kk0 / packn = kk / packn ∧ kk0 % packn = kk % packn) ↔ kk = kk0 := by
  constructor
  · rintro ⟨h1, h2⟩
    rw [← Nat.div_add_mod kk packn, ← Nat.div_add_mod kk0 packn, h1, h2]
  · rintro rfl; exact ⟨rfl, rfl⟩

theorem remap_level_PS (w : ℚ) (s t : Int) (d : SPAData) (kk : Nat) :
    (remap_level packn raw nswbands nlwbands w s t d kk).PS = d.PS := by
  have h1 := foldl_range_keep (fun d : SPAData => d.PS)
    (remap_swband raw w s t kk (kk / packn) (kk % packn)) (fun _ _ => rfl)
  have h2 := foldl_range_keep (fun d : SPAData => d.PS)
    (remap_lwband raw w s t kk (kk / packn) (kk % packn)) (fun _ _ => rfl)
  simp only at h1 h2
  simp only [remap_level, h1, h2]

theorem remap_level_CCN3 (w : ℚ) (s t : Int) (d : SPAData) (kk : Nat) :
    (remap_level packn raw nswbands nlwbands w s t d kk).CCN3
      = add_at2 d.CCN3 t (kk / packn) (kk % packn) (raw.CCN3_v s kk * w) := by
  have h1 := foldl_range_keep (fun d : SPAData => d.CCN3)
    (remap_swband raw w s t kk (kk / packn) (kk % packn)) (fun _ _ => rfl)
  have h2 := foldl_range_keep (fun d : SPAData => d.CCN3)
    (remap_lwband raw w s t kk (kk / packn) (kk % packn)) (fun _ _ => rfl)
  simp only at h1 h2
  simp only [remap_level, h1, h2]

end remap

theorem sum_level_cell (N kk0 packn : Nat) (hk : kk0 < N) (F : Nat → ℚ) (P : Prop)
    [Decidable P] :
    (∑ kk in Finset.range N,
      if P ∧ kk0 / packn = kk / packn ∧ kk0 % packn = kk % packn then F kk else 0)
      = if P then F kk0 else 0 := by
  rw [Finset.sum_eq_single kk0]
  · simp
  · intro kk _ hne
    rw [if_neg]
    rintro ⟨_, h⟩
    exact hne ((level_eq_iff packn kk kk0).1 h)
  · intro h; exact absurd (Finset.mem_range.2 hk) h

theorem sum_level_band_cell (N M b kk0 packn : Nat) (hk : kk0 < N) (hb : b < M)
    (F : Nat → Nat → ℚ) (P : Prop) [Decidable P] :
    (∑ kk in Finset.range N, ∑ n in Finset.range M,
      if P ∧ b = n ∧ kk0 / packn = kk / packn ∧ kk0 % packn = kk % packn then F n kk else 0)
      = if P then F b kk0 else 0 := by
  rw [Finset.sum_eq_single kk0]
  · rw [Finset.sum_eq_single b]
    · simp
    · intro n _ hne
      rw [if_neg]
      rintro ⟨_, h, _⟩
      exact hne h.symm
    · intro h; exact absurd (Finset.mem_range.2 hb) h
  · intro kk _ hne
    apply Finset.sum_eq_zero
    intro n _
    rw [if_neg]
    rintro ⟨_, _, h⟩
    exact hne ((level_eq_iff packn kk kk0).1 h)
  · intro h; exact absurd (Finset.mem_range.2 hk) h

section remap
variable (packn : Nat) (raw : RawFields) (nswbands nlwbands : Int)

theorem remap_level_G (w : ℚ) (s t : Int) (d : SPAData) (kk : Nat) (c : Int) (b p l : Nat) :
    (remap_level packn raw nswbands nlwbands w s t d kk).AER_G_SW c b p l
      = d.AER_G_SW c b p l + ∑ n in Finset.range nswbands.toNat,
          if c = t ∧ b = n ∧ p = kk / packn ∧ l = kk % packn
          then raw.AER_G_SW_v s n kk * w else 0 := by
  have h1 := foldl_range_acc (fun d : SPAData => d.AER_G_SW c b p l)
    (remap_swband raw w s t kk (kk / packn) (kk % packn))
    (fun n => if c = t ∧ b = n ∧ p = kk / packn ∧ l = kk % packn
      then raw.AER_G_SW_v s n kk * w else 0)
    (by intro d n; simp only [remap_swband, add_at3]; split_ifs <;> simp)
  have h2 := foldl_range_keep (fun d : SPAData => d.AER_G_SW)
    (remap_lwband raw w s t kk (kk / packn) (kk % packn)) (fun _ _ => rfl)
  simp only at h1 h2
  simp only [remap_level, h1, h2]

theorem remap_level_SSA (w : ℚ) (s t : Int) (d : SPAData) (kk : Nat) (c : Int) (b p l : Nat) :
    (remap_level packn raw nswbands nlwbands w s t d kk).AER_SSA_SW c b p l
      = d.AER_SSA_SW c b p l + ∑ n in Finset.range nswbands.toNat,
          if c = t ∧ b = n ∧ p = kk / packn ∧ l = kk % packn
          then raw.AER_SSA_SW_v s n kk * w else 0 := by
  have h1 := foldl_range_acc (fun d : SPAData => d.AER_SSA_SW c b p l)
    (remap_swband raw w s t kk (kk / packn) (kk % packn))
    (fun n => if c = t ∧ b = n ∧ p = kk / packn ∧ l = kk % packn
      then raw.AER_SSA_SW_v s n kk * w else 0)
    (by intro d n; simp only [remap_swband, add_at3]; split_ifs <;> simp)
  have h2 := foldl_range_keep (fun d : SPAData => d.AER_SSA_SW)
    (remap_lwband raw w s t kk (kk / packn) (kk % packn)) (fun _ _ => rfl)
  simp only at h1 h2
  simp only [remap_level, h1, h2]

theorem remap_level_TAU_SW (w : ℚ) (s t : Int) (d : SPAData) (kk : Nat) (c : Int)
    (b p l : Nat) :
    (remap_level packn raw nswbands nlwbands w s t d kk).AER_TAU_SW c b p l
      = d.AER_TAU_SW c b p l + ∑ n in Finset.range nswbands.toNat,
          if c = t ∧ b = n ∧ p = kk / packn ∧ l = kk % packn
          then raw.AER_TAU_SW_v s n kk * w else 0 := by
  have h1 := foldl_range_acc (fun d : SPAData => d.AER_TAU_SW c b p l)
    (remap_swband raw w s t kk (kk / packn) (kk % packn))
    (fun n => if c = t ∧ b = n ∧ p = kk / packn ∧ l = kk % packn
      then raw.AER_TAU_SW_v s n kk * w else 0)
    (by intro d n; simp only [remap_swband, add_at3]; split_ifs <;> simp)
  have h2 := foldl_range_keep (fun d : SPAData => d.AER_TAU_SW)
    (remap_lwband raw w s t kk (kk / packn) (kk % packn)) (fun _ _ => rfl)
  simp only at h1 h2
  simp only [remap_level, h1, h2]

theorem remap_level_TAU_LW (w : ℚ) (s t : Int) (d : SPAData) (kk : Nat) (c : Int)
    (b p l : Nat) :
    (remap_level packn raw nswbands nlwbands w s t d kk).AER_TAU_LW c b p l
      = d.AER_TAU_LW c b p l + ∑ n in Finset.range nlwbands.toNat,
          if c = t ∧ b = n ∧ p = kk / packn ∧ l = kk % packn
          then raw.AER_TAU_LW_v s n kk * w else 0 := by
  have h1 := foldl_range_keep (fun d : SPAData => d.AER_TAU_LW)
    (remap_swband raw w s t kk (kk / packn) (kk % packn)) (fun _ _ => rfl)
  have h2 := foldl_range_acc (fun d : SPAData => d.AER_TAU_LW c b p l)
    (remap_lwband raw w s t kk (kk / packn) (kk % packn))
    (fun n => if c = t ∧ b = n ∧ p = kk / packn ∧ l = kk % packn
      then raw.AER_TAU_LW_v s n kk * w else 0)
    (by intro d n; simp only [remap_lwband, add_at3]; split_ifs <;> simp)
  simp only at h1 h2
  simp only [remap_level, h2, h1]

end remap

section remap
variable (packn : Nat) (raw : RawFields) (nswbands nlwbands : Int) (hi : SPAHorizInterp)

theorem remap_triplet_PS (d : SPAData) (idx : Nat) (c : Int) :
    (remap_triplet packn raw nswbands nlwbands hi d idx).PS c
      = d.PS c + if c = hi.target_grid_loc idx
          then raw.PS_v (hi.source_grid_loc idx) * hi.weights idx else 0 := by
  have h := foldl_range_keep (fun d : SPAData => d.PS)
    (remap_level packn raw nswbands nlwbands (hi.weights idx) (hi.source_grid_loc idx)
      (hi.target_grid_loc idx))
    (fun d kk => remap_level_PS packn raw nswbands nlwbands _ _ _ d kk)
  simp only at h
  simp only [remap_triplet, h, add_at1]
  split_ifs <;> simp

theorem remap_triplet_CCN3 (d : SPAData) (idx : Nat) (c : Int) (p l : Nat) :
    (remap_triplet packn raw nswbands nlwbands hi d idx).CCN3 c p l
      = d.CCN3 c p l + ∑ kk in Finset.range hi.source_grid_nlevs.toNat,
          if c = hi.target_grid_loc idx ∧ p = kk / packn ∧ l = kk % packn
          then raw.CCN3_v (hi.source_grid_loc idx) kk * hi.weights idx else 0 := by
  have h := foldl_range_acc (fun d : SPAData => d.CCN3 c p l)
    (remap_level packn raw nswbands nlwbands (hi.weights idx) (hi.source_grid_loc idx)
      (hi.target_grid_loc idx))
    (fun kk => if c = hi.target_grid_loc idx ∧ p = kk / packn ∧ l = kk % packn
      then raw.CCN3_v (hi.source_grid_loc idx) kk * hi.weights idx else 0)
    (by intro d kk; simp only [remap_level_CCN3, add_at2]; split_ifs <;> simp)
  simp only at h
  simp only [remap_triplet, h]

theorem remap_data_PS (d : SPAData) (c : Int) :
    (remap_data packn raw nswbands nlwbands hi d).PS c
      = ∑ idx in Finset.range hi.length.toNat, if c = hi.target_grid_loc idx
          then raw.PS_v (hi.source_grid_loc idx) * hi.weights idx else 0 := by
  have h := foldl_range_acc (fun d : SPAData => d.PS c)
    (remap_triplet packn raw nswbands nlwbands hi) _
    (fun d idx => remap_triplet_PS packn raw nswbands nlwbands hi d idx c)
  simp only at h
  simp only [remap_data, h, zero_add]

theorem remap_data_CCN3 (d : SPAData) (c : Int) (p l : Nat) :
    (remap_data packn raw nswbands nlwbands hi d).CCN3 c p l
      = ∑ idx in Finset.range hi.length.toNat,
          ∑ kk in Finset.range hi.source_grid_nlevs.toNat,
          if c = hi.target_grid_loc idx ∧ p = kk / packn ∧ l = kk % packn
          then raw.CCN3_v (hi.source_grid_loc idx) kk * hi.weights idx else 0 := by
  have h := foldl_range_acc (fun d : SPAData => d.CCN3 c p l)
    (remap_triplet packn raw nswbands nlwbands hi) _
    (fun d idx => remap_triplet_CCN3 packn raw nswbands nlwbands hi d idx c p l)
  simp only at h
  simp only [remap_data, h, zero_add]

theorem remap_triplet_G (d : SPAData) (idx : Nat) (c : Int) (b p l : Nat) :
    (remap_triplet packn raw nswbands nlwbands hi d idx).AER_G_SW c b p l
      = d.AER_G_SW c b p l + ∑ kk in Finset.range hi.source_grid_nlevs.toNat,
          ∑ n in Finset.range nswbands.toNat,
          if c = hi.target_grid_loc idx ∧ b = n ∧ p = kk / packn ∧ l = kk % packn
          then raw.AER_G_SW_v (hi.source_grid_loc idx) n kk * hi.weights idx else 0 := by
  have h := foldl_range_acc (fun d : SPAData => d.AER_G_SW c b p l)
    (remap_level packn raw nswbands nlwbands (hi.weights idx) (hi.source_grid_loc idx)
      (hi.target_grid_loc idx)) _
    (fun d kk => remap_level_G packn raw nswbands nlwbands _ _ _ d kk c b p l)
  simp only at h
  simp only [remap_triplet, h]

theorem remap_data_G (d : SPAData) (c : Int) (b p l : Nat) :
    (remap_data packn raw nswbands nlwbands hi d).AER_G_SW c b p l
      = ∑ idx in Finset.range hi.length.toNat,
          ∑ kk in Finset.range hi.source_grid_nlevs.toNat,
          ∑ n in Finset.range nswbands.toNat,
          if c = hi.target_grid_loc idx ∧ b = n ∧ p = kk / packn ∧ l = kk % packn
          then raw.AER_G_SW_v (hi.source_grid_loc idx) n kk * hi.weights idx else 0 := by
  have h := foldl_range_acc (fun d : SPAData => d.AER_G_SW c b p l)
    (remap_triplet packn raw nswbands nlwbands hi) _
    (fun d idx => remap_triplet_G packn raw nswbands nlwbands hi d idx c b p l)
  simp only at h
  simp only [remap_data, h, zero_add]

theorem remap_triplet_SSA (d : SPAData) (idx : Nat) (c : Int) (b p l : Nat) :
    (remap_triplet packn raw nswbands nlwbands hi d idx).AER_SSA_SW c b p l
      = d.AER_SSA_SW c b p l + ∑ kk in Finset.range hi.source_grid_nlevs.toNat,
          ∑ n in Finset.range nswbands.toNat,
          if c = hi.target_grid_loc idx ∧ b = n ∧ p = kk / packn ∧ l = kk % packn
          then raw.AER_SSA_SW_v (hi.source_grid_loc idx) n kk * hi.weights idx else 0 := by
  have h := foldl_range_acc (fun d : SPAData => d.AER_SSA_SW c b p l)
    (remap_level packn raw nswbands nlwbands (hi.weights idx) (hi.source_grid_loc idx)
      (hi.target_grid_loc idx)) _
    (fun d kk => remap_level_SSA packn raw nswbands nlwbands _ _ _ d kk c b p l)
  simp only at h
  simp only [remap_triplet, h]

theorem remap_data_SSA (d : SPAData) (c : Int) (b p l : Nat) :
    (remap_data packn raw nswbands nlwbands hi d).AER_SSA_SW c b p l
      = ∑ idx in Finset.range hi.length.toNat,
          ∑ kk in Finset.range hi.source_grid_nlevs.toNat,
          ∑ n in Finset.range nswbands.toNat,
          if c = hi.target_grid_loc idx ∧ b = n ∧ p = kk / packn ∧ l = kk % packn
          then raw.AER_SSA_SW_v (hi.source_grid_loc idx) n kk * hi.weights idx else 0 := by
  have h := foldl_range_acc (fun d : SPAData => d.AER_SSA_SW c b p l)
    (remap_triplet packn raw nswbands nlwbands hi) _
    (fun d idx => remap_triplet_SSA packn raw nswbands nlwbands hi d idx c b p l)
  simp only at h
  simp only [remap_data, h, zero_add]

theorem remap_triplet_TAU_SW (d : SPAData) (idx : Nat) (c : Int) (b p l : Nat) :
    (remap_triplet packn raw nswbands nlwbands hi d idx).AER_TAU_SW c b p l
      = d.AER_TAU_SW c b p l + ∑ kk in Finset.range hi.source_grid_nlevs.toNat,
          ∑ n in Finset.range nswbands.toNat,
          if c = hi.target_grid_loc idx ∧ b = n ∧ p = kk / packn ∧ l = kk % packn
          then raw.AER_TAU_SW_v (hi.source_grid_loc idx) n kk * hi.weights idx else 0 := by
  have h := foldl_range_acc (fun d : SPAData => d.AER_TAU_SW c b p l)
    (remap_level packn raw nswbands nlwbands (hi.weights idx) (hi.source_grid_loc idx)
      (hi.target_grid_loc idx)) _
    (fun d kk => remap_level_TAU_SW packn raw nswbands nlwbands _ _ _ d kk c b p l)
  simp only at h
  simp only [remap_triplet, h]

theorem remap_data_TAU_SW (d : SPAData) (c : Int) (b p l : Nat) :
    (remap_data packn raw nswbands nlwbands hi d).AER_TAU_SW c b p l
      = ∑ idx in Finset.range hi.length.toNat,
          ∑ kk in Finset.range hi.source_grid_nlevs.toNat,
          ∑ n in Finset.range nswbands.toNat,
          if c = hi.target_grid_loc idx ∧ b = n ∧ p = kk / packn ∧ l = kk % packn
          then raw.AER_TAU_SW_v (hi.source_grid_loc idx) n kk * hi.weights idx else 0 := by
  have h := foldl_range_acc (fun d : SPAData => d.AER_TAU_SW c b p l)
    (remap_triplet packn raw nswbands nlwbands hi) _
    (fun d idx => remap_triplet_TAU_SW packn raw nswbands nlwbands hi d idx c b p l)
  simp only at h
  simp only [remap_data, h, zero_add]

theorem remap_triplet_TAU_LW (d : SPAData) (idx : Nat) (c : Int) (b p l : Nat) :
    (remap_triplet packn raw nswbands nlwbands hi d idx).AER_TAU_LW c b p l
      = d.AER_TAU_LW c b p l + ∑ kk in Finset.range hi.source_grid_nlevs.toNat,
          ∑ n in Finset.range nlwbands.toNat,
          if c = hi.target_grid_loc idx ∧ b = n ∧ p = kk / packn ∧ l = kk % packn
          then raw.AER_TAU_LW_v (hi.source_grid_loc idx) n kk * hi.weights idx else 0 := by
  have h := foldl_range_acc (fun d : SPAData => d.AER_TAU_LW c b p l)
    (remap_level packn raw nswbands nlwbands (hi.weights idx) (hi.source_grid_loc idx)
      (hi.target_grid_loc idx)) _
    (fun d kk => remap_level_TAU_LW packn raw nswbands nlwbands _ _ _ d kk c b p l)
  simp only at h
  simp only [remap_triplet, h]

theorem remap_data_TAU_LW (d : SPAData) (c : Int) (b p l : Nat) :
    (remap_data packn raw nswbands nlwbands hi d).AER_TAU_LW c b p l
      = ∑ idx in Finset.range hi.length.toNat,
          ∑ kk in Finset.range hi.source_grid_nlevs.toNat,
          ∑ n in Finset.range nlwbands.toNat,
          if c = hi.target_grid_loc idx ∧ b = n ∧ p = kk / packn ∧ l = kk % packn
          then raw.AER_TAU_LW_v (hi.source_grid_loc idx) n kk * hi.weights idx else 0 := by
  have h := foldl_range_acc (fun d : SPAData => d.AER_TAU_LW c b p l)
    (remap_triplet packn raw nswbands nlwbands hi) _
    (fun d idx => remap_triplet_TAU_LW packn raw nswbands nlwbands hi d idx c b p l)
  simp only at h
  simp only [remap_data, h, zero_add]

end remap

/-! ## Destination cells as weighted sums over the triplets of one target -/

section remap
variable (packn : Nat) (raw : RawFields) (nswbands nlwbands : Int) (hi : SPAHorizInterp)

theorem remap_data_PS_sum (d : SPAData) (t : Int) :
    (remap_data packn raw nswbands nlwbands hi d).PS t
      = ∑ idx in triplets_onto hi t, hi.weights idx * raw.PS_v (hi.source_grid_loc idx) := by
  rw [remap_data_PS, triplets_onto, Finset.sum_filter]
  refine Finset.sum_congr rfl (fun idx _ => ?_)
  by_cases h : hi.target_grid_loc idx = t
  · rw [if_pos h.symm, if_pos h, mul_comm]
  · rw [if_neg (fun h2 => h h2.symm), if_neg h]

theorem remap_data_CCN3_sum (d : SPAData) (t : Int) (kk : Nat)
    (hk : kk < hi.source_grid_nlevs.toNat) :
    (remap_data packn raw nswbands nlwbands hi d).CCN3 t (kk / packn) (kk % packn)
      = ∑ idx in triplets_onto hi t, hi.weights idx * raw.CCN3_v (hi.source_grid_loc idx) kk := by
  rw [remap_data_CCN3, triplets_onto, Finset.sum_filter]
  refine Finset.sum_congr rfl (fun idx _ => ?_)
  rw [sum_level_cell _ kk packn hk]
  by_cases h : hi.target_grid_loc idx = t
  · rw [if_pos h.symm, if_pos h, mul_comm]
  · rw [if_neg (fun h2 => h h2.symm), if_neg h]

theorem remap_data_G_sum (d : SPAData) (t : Int) (b kk : Nat)
    (hb : b < nswbands.toNat) (hk : kk < hi.source_grid_nlevs.toNat) :
    (remap_data packn raw nswbands nlwbands hi d).AER_G_SW t b (kk / packn) (kk % packn)
      = ∑ idx in triplets_onto hi t,
          hi.weights idx * raw.AER_G_SW_v (hi.source_grid_loc idx) b kk := by
  rw [remap_data_G, triplets_onto, Finset.sum_filter]
  refine Finset.sum_congr rfl (fun idx _ => ?_)
  rw [sum_level_band_cell _ _ b kk packn hk hb]
  by_cases h : hi.target_grid_loc idx = t
  · rw [if_pos h.symm, if_pos h, mul_comm]
  · rw [if_neg (fun h2 => h h2.symm), if_neg h]

theorem remap_data_SSA_sum (d : SPAData) (t : Int) (b kk : Nat)
    (hb : b < nswbands.toNat) (hk : kk < hi.source_grid_nlevs.toNat) :
    (remap_data packn raw nswbands nlwbands hi d).AER_SSA_SW t b (kk / packn) (kk % packn)
      = ∑ idx in triplets_onto hi t,
          hi.weights idx * raw.AER_SSA_SW_v (hi.source_grid_loc idx) b kk := by
  rw [remap_data_SSA, triplets_onto, Finset.sum_filter]
  refine Finset.sum_congr rfl (fun idx _ => ?_)
  rw [sum_level_band_cell _ _ b kk packn hk hb]
  by_cases h : hi.target_grid_loc idx = t
  · rw [if_pos h.symm, if_pos h, mul_comm]
  · rw [if_neg (fun h2 => h h2.symm), if_neg h]

theorem remap_data_TAU_SW_sum (d : SPAData) (t : Int) (b kk : Nat)
    (hb : b < nswbands.toNat) (hk : kk < hi.source_grid_nlevs.toNat) :
    (remap_data packn raw nswbands nlwbands hi d).AER_TAU_SW t b (kk / packn) (kk % packn)
      = ∑ idx in triplets_onto hi t,
          hi.weights idx * raw.AER_TAU_SW_v (hi.source_grid_loc idx) b kk := by
  rw [remap_data_TAU_SW, triplets_onto, Finset.sum_filter]
  refine Finset.sum_congr rfl (fun idx _ => ?_)
  rw [sum_level_band_cell _ _ b kk packn hk hb]
  by_cases h : hi.target_grid_loc idx = t
  · rw [if_pos h.symm, if_pos h, mul_comm]
  · rw [if_neg (fun h2 => h h2.symm), if_neg h]

theorem remap_data_TAU_LW_sum (d : SPAData) (t : Int) (b kk : Nat)
    (hb : b < nlwbands.toNat) (hk : kk < hi.source_grid_nlevs.toNat) :
    (remap_data packn raw nswbands nlwbands hi d).AER_TAU_LW t b (kk / packn) (kk % packn)
      = ∑ idx in triplets_onto hi t,
          hi.weights idx * raw.AER_TAU_LW_v (hi.source_grid_loc idx) b kk := by
  rw [remap_data_TAU_LW, triplets_onto, Finset.sum_filter]
  refine Finset.sum_congr rfl (fun idx _ => ?_)
  rw [sum_level_band_cell _ _ b kk packn hk hb]
  by_cases h : hi.target_grid_loc idx = t
  · rw [if_pos h.symm, if_pos h, mul_comm]
  · rw [if_neg (fun h2 => h h2.symm), if_neg h]

end remap

/-! ## update_spa_data_from_file: outcome -/

theorem update_ok (packn : Nat) (file : SPADataFile) (time_index nswbands nlwbands : Int)
    (hi : SPAHorizInterp) (d : SPAData) (hsw : nswbands = file.swband)
    (hlw : nlwbands = file.lwband) (hcol : file.ncol = hi.source_grid_ncols) :
    update_spa_data_from_file packn file time_index nswbands nlwbands hi d
      = ⟨none, ({ hi with source_grid_nlevs := file.lev },
          remap_data packn (file.read time_index) nswbands nlwbands
            { hi with source_grid_nlevs := file.lev } d)⟩ := by
  simp [update_spa_data_from_file, hsw, hlw, hcol]

theorem loaded_ok (packn : Nat) (file : SPADataFile) (time_index nswbands nlwbands : Int)
    (hi : SPAHorizInterp) (d : SPAData) (hsw : nswbands = file.swband)
    (hlw : nlwbands = file.lwband) (hcol : file.ncol = hi.source_grid_ncols) :
    loaded packn file time_index nswbands nlwbands hi d
      = remap_data packn (file.read time_index) nswbands nlwbands
          { hi with source_grid_nlevs := file.lev } d := by
  rw [loaded, update_ok packn file time_index nswbands nlwbands hi d hsw hlw hcol]

/-- C1. Horizontal remap of `update_spa_data_from_file`: when the file's dimensions agree with
the caller's, the load succeeds and, whatever the dataset held before, every destination cell is
the sum over the triplets `idx < length` with `target_grid_loc idx = tgt` of
`weights idx * raw (source_grid_loc idx) ...`: `PS` per column, `CCN3` per level, and
`AER_G_SW`, `AER_SSA_SW`, `AER_TAU_SW`, `AER_TAU_LW` per band and level.  In particular a table
of two triplets with weights 0.3 and 0.7 onto one target gives `0.3*v0 + 0.7*v1`. -/
theorem C1_remap_is_weighted_sum (packn : Nat) (file : SPADataFile)
    (time_index nswbands nlwbands : Int) (hi : SPAHorizInterp) (d : SPAData)
    (hsw : nswbands = file.swband) (hlw : nlwbands = file.lwband)
    (hcol : file.ncol = hi.source_grid_ncols) :
    (update_spa_data_from_file packn file time_index nswbands nlwbands hi d).error = none ∧
    (∀ tgt : Int,
      (loaded packn file time_index nswbands nlwbands hi d).PS tgt
        = ∑ idx in triplets_onto hi tgt,
            hi.weights idx * (file.read time_index).PS_v (hi.source_grid_loc idx)) ∧
    (∀ (tgt : Int) (kk : Nat), kk < file.lev.toNat →
      (loaded packn file time_index nswbands nlwbands hi d).CCN3 tgt (kk / packn) (kk % packn)
        = ∑ idx in triplets_onto hi tgt,
            hi.weights idx * (file.read time_index).CCN3_v (hi.source_grid_loc idx) kk) ∧
    (∀ (tgt : Int) (b kk : Nat), b < nswbands.toNat → kk < file.lev.toNat →
      (loaded packn file time_index nswbands nlwbands hi d).AER_G_SW tgt b
          (kk / packn) (kk % packn)
        = ∑ idx in triplets_onto hi tgt,
            hi.weights idx * (file.read time_index).AER_G_SW_v (hi.source_grid_loc idx) b kk) ∧
    (∀ (tgt : Int) (b kk : Nat), b < nswbands.toNat → kk < file.lev.toNat →
      (loaded packn file time_index nswbands nlwbands hi d).AER_SSA_SW tgt b
          (kk / packn) (kk % packn)
        = ∑ idx in triplets_onto hi tgt,
            hi.weights idx * (file.read time_index).AER_SSA_SW_v (hi.source_grid_loc idx) b kk) ∧
    (∀ (tgt : Int) (b kk : Nat), b < nswbands.toNat → kk < file.lev.toNat →
      (loaded packn file time_index nswbands nlwbands hi d).AER_TAU_SW tgt b
          (kk / packn) (kk % packn)
        = ∑ idx in triplets_onto hi tgt,
            hi.weights idx * (file.read time_index).AER_TAU_SW_v (hi.source_grid_loc idx) b kk) ∧
    (∀ (tgt : Int) (b kk : Nat), b < nlwbands.toNat → kk < file.lev.toNat →
      (loaded packn file time_index nswbands nlwbands hi d).AER_TAU_LW tgt b
          (kk / packn) (kk % packn)
        = ∑ idx in triplets_onto hi tgt,
            hi.weights idx * (file.read time_index).AER_TAU_LW_v (hi.source_grid_loc idx) b kk) ∧
    (∀ tgt : Int, hi.length = 2 → hi.target_grid_loc 0 = tgt → hi.target_grid_loc 1 = tgt →
      hi.weights 0 = 3 / 10 → hi.weights 1 = 7 / 10 →
      (loaded packn file time_index nswbands nlwbands hi d).PS tgt
        = 3 / 10 * (file.read time_index).PS_v (hi.source_grid_loc 0)
          + 7 / 10 * (file.read time_index).PS_v (hi.source_grid_loc 1)) := by
  have hl := loaded_ok packn file time_index nswbands nlwbands hi d hsw hlw hcol
  have hps : ∀ tgt : Int,
      (loaded packn file time_index nswbands nlwbands hi d).PS tgt
        = ∑ idx in triplets_onto hi tgt,
            hi.weights idx * (file.read time_index).PS_v (hi.source_grid_loc idx) := by
    intro tgt; rw [hl, remap_data_PS_sum]; rfl
  refine ⟨?_, hps, ?_, ?_, ?_, ?_, ?_, ?_⟩
  · rw [update_ok packn file time_index nswbands nlwbands hi d hsw hlw hcol]
  · intro tgt kk hk; rw [hl, remap_data_CCN3_sum _ _ _ _ _ _ _ _ hk]; rfl
  · intro tgt b kk hb hk; rw [hl, remap_data_G_sum _ _ _ _ _ _ _ _ _ hb hk]; rfl
  · intro tgt b kk hb hk; rw [hl, remap_data_SSA_sum _ _ _ _ _ _ _ _ _ hb hk]; rfl
  · intro tgt b kk hb hk; rw [hl, remap_data_TAU_SW_sum _ _ _ _ _ _ _ _ _ hb hk]; rfl
  · intro tgt b kk hb hk; rw [hl, remap_data_TAU_LW_sum _ _ _ _ _ _ _ _ _ hb hk]; rfl
  · intro tgt hL h0 h1 w0 w1
    rw [hps tgt]
    have hset : triplets_onto hi tgt = {0, 1} := by
      ext idx
      simp only [triplets_onto, hL, Finset.mem_filter, Finset.mem_range, Finset.mem_insert,
        Finset.mem_singleton]
      constructor
      · rintro ⟨h, _⟩
        have : idx < 2 := h
        omega
      · rintro (rfl | rfl)
        · exact ⟨by decide, h0⟩
        · exact ⟨by decide, h1⟩
    rw [hset, Finset.sum_pair (by decide), w0, w1]

theorem C1_remap_is_weighted_sum_witness :
    (1 : Int) = sample_file.swband ∧ (1 : Int) = sample_file.lwband ∧
    sample_file.ncol = sample_two_onto_one.source_grid_ncols ∧
    (loaded 2 sample_file 0 1 1 sample_two_onto_one sample_data).PS 0
      = 3 / 10 * 100000 + 7 / 10 * 100200 := by
  refine ⟨rfl, rfl, rfl, ?_⟩
  have h := (C1_remap_is_weighted_sum 2 sample_file 0 1 1 sample_two_onto_one sample_data
    rfl rfl rfl).2.2.2.2.2.2.2 0 rfl rfl rfl rfl rfl
  rw [h]
  norm_num [sample_file, sample_two_onto_one]

theorem triplets_onto_single (hi : SPAHorizInterp) (t : Int) (idx : Nat)
    (h1 : idx < hi.length.toNat) (h2 : hi.target_grid_loc idx = t)
    (h3 : ∀ idx', idx' < hi.length.toNat → hi.target_grid_loc idx' = t → idx' = idx) :
    triplets_onto hi t = {idx} := by
  ext j
  simp only [triplets_onto, Finset.mem_filter, Finset.mem_range, Finset.mem_singleton]
  constructor
  · rintro ⟨a, b⟩; exact h3 j a b
  · rintro rfl; exact ⟨h1, h2⟩

/-- C2. Identity remap round trip: if for every column `i < n` the table holds exactly one
triplet onto `i`, and that triplet has `source_grid_loc = target_grid_loc = i` and weight 1, then
after `update_spa_data_from_file` every destination field equals the raw source field, column
for column, level for level and band for band. -/
theorem C2_identity_remap_roundtrip (packn : Nat) (file : SPADataFile)
    (time_index nswbands nlwbands : Int) (hi : SPAHorizInterp) (d : SPAData) (n : Nat)
    (hsw : nswbands = file.swband) (hlw : nlwbands = file.lwband)
    (hcol : file.ncol = hi.source_grid_ncols)
    (hone : ∀ i : Nat, i < n → ∃ idx, idx < hi.length.toNat ∧
      hi.target_grid_loc idx = (i : Int) ∧ hi.source_grid_loc idx = (i : Int) ∧
      hi.weights idx = 1 ∧
      ∀ idx', idx' < hi.length.toNat → hi.target_grid_loc idx' = (i : Int) → idx' = idx) :
    ∀ i : Nat, i < n →
      (loaded packn file time_index nswbands nlwbands hi d).PS i
        = (file.read time_index).PS_v i ∧
      (∀ kk : Nat, kk < file.lev.toNat →
        (loaded packn file time_index nswbands nlwbands hi d).CCN3 i (kk / packn) (kk % packn)
          = (file.read time_index).CCN3_v i kk) ∧
      (∀ b kk : Nat, b < nswbands.toNat → kk < file.lev.toNat →
        (loaded packn file time_index nswbands nlwbands hi d).AER_G_SW i b
            (kk / packn) (kk % packn) = (file.read time_index).AER_G_SW_v i b kk ∧
        (loaded packn file time_index nswbands nlwbands hi d).AER_SSA_SW i b
            (kk / packn) (kk % packn) = (file.read time_index).AER_SSA_SW_v i b kk ∧
        (loaded packn file time_index nswbands nlwbands hi d).AER_TAU_SW i b
            (kk / packn) (kk % packn) = (file.read time_index).AER_TAU_SW_v i b kk) ∧
      (∀ b kk : Nat, b < nlwbands.toNat → kk < file.lev.toNat →
        (loaded packn file time_index nswbands nlwbands hi d).AER_TAU_LW i b
            (kk / packn) (kk % packn) = (file.read time_index).AER_TAU_LW_v i b kk) := by
  intro i hi_lt
  obtain ⟨idx, hlt, htgt, hsrc, hw, huniq⟩ := hone i hi_lt
  have hl := loaded_ok packn file time_index nswbands nlwbands hi d hsw hlw hcol
  have hset : triplets_onto { hi with source_grid_nlevs := file.lev } (i : Int) = {idx} :=
    triplets_onto_single _ _ idx hlt htgt huniq
  refine ⟨?_, ?_, ?_, ?_⟩
  · rw [hl, remap_data_PS_sum, hset, Finset.sum_singleton]
    simp only [hw, hsrc, one_mul]
  · intro kk hk
    rw [hl, remap_data_CCN3_sum _ _ _ _ _ _ _ _ hk, hset, Finset.sum_singleton]
    simp only [hw, hsrc, one_mul]
  · intro b kk hb hk
    refine ⟨?_, ?_, ?_⟩
    · rw [hl, remap_data_G_sum _ _ _ _ _ _ _ _ _ hb hk, hset, Finset.sum_singleton]
      simp only [hw, hsrc, one_mul]
    · rw [hl, remap_data_SSA_sum _ _ _ _ _ _ _ _ _ hb hk, hset, Finset.sum_singleton]
      simp only [hw, hsrc, one_mul]
    · rw [hl, remap_data_TAU_SW_sum _ _ _ _ _ _ _ _ _ hb hk, hset, Finset.sum_singleton]
      simp only [hw, hsrc, one_mul]
  · intro b kk hb hk
    rw [hl, remap_data_TAU_LW_sum _ _ _ _ _ _ _ _ _ hb hk, hset, Finset.sum_singleton]
    simp only [hw, hsrc, one_mul]

theorem sample_identity_one_per_column :
    ∀ i : Nat, i < 2 → ∃ idx, idx < sample_identity.length.toNat ∧
      sample_identity.target_grid_loc idx = (i : Int) ∧
      sample_identity.source_grid_loc idx = (i : Int) ∧
      sample_identity.weights idx = 1 ∧
      ∀ idx', idx' < sample_identity.length.toNat →
        sample_identity.target_grid_loc idx' = (i : Int) → idx' = idx := by
  intro i _
  refine ⟨i, by simpa [sample_identity] using ‹i < 2›, rfl, rfl, rfl, ?_⟩
  intro idx' _ h
  simpa [sample_identity] using h

theorem C2_identity_remap_roundtrip_witness :
    (1 : Int) = sample_file.swband ∧ (1 : Int) = sample_file.lwband ∧
    sample_file.ncol = sample_identity.source_grid_ncols ∧
    (loaded 2 sample_file 0 1 1 sample_identity sample_data).PS 1 = 100200 ∧
    (loaded 2 sample_file 0 1 1 sample_identity sample_data).CCN3 1 0 1 = 12 := by
  have h := C2_identity_remap_roundtrip 2 sample_file 0 1 1 sample_identity sample_data 2
    rfl rfl rfl sample_identity_one_per_column 1 (by decide)
  refine ⟨rfl, rfl, rfl, ?_, ?_⟩
  · have h1 := h.1
    rw [show ((1 : Nat) : Int) = 1 from rfl] at h1
    rw [h1]; norm_num [sample_file]
  · have h2 := h.2.1 1 (by decide)
    rw [show ((1 : Nat) : Int) = 1 from rfl, show (1 / 2 : Nat) = 0 from rfl,
      show (1 % 2 : Nat) = 1 from rfl] at h2
    rw [h2]; norm_num [sample_file]

/-! ## get_remap_weights_from_file: the ownership scan -/

theorem find_dof_eq_none (dof : Int) (gs : List Int) (k : Nat) :
    find_dof dof gs k = none ↔ dof ∉ gs := by
  induction gs generalizing k with
  | nil => simp [find_dof]
  | cons g gs ih =>
    unfold find_dof
    by_cases h : dof = g
    · simp [h]
    · simp [h, ih]

theorem find_dof_some (dof : Int) (gs : List Int) (k p : Nat)
    (h : find_dof dof gs k = some p) :
    k ≤ p ∧ gs[p - k]? = some dof ∧ ∀ j, j < p - k → gs[j]? ≠ some dof := by
  induction gs generalizing k with
  | nil => simp [find_dof] at h
  | cons g gs ih =>
    unfold find_dof at h
    by_cases hg : dof = g
    · rw [if_pos hg] at h
      have hp : p = k := (Option.some.inj h).symm
      subst hp
      simp [hg]
    · rw [if_neg hg] at h
      obtain ⟨h1, h2, h3⟩ := ih (k + 1) h
      have hpk : p - k = (p - (k + 1)) + 1 := by omega
      refine ⟨by omega, ?_, ?_⟩
      · rw [hpk, List.getElem?_cons_succ]; exact h2
      · intro j hj
        cases j with
        | zero =>
          simp only [List.getElem?_cons_zero, ne_eq, Option.some.injEq]
          exact fun e => hg e.symm
        | succ j =>
          rw [List.getElem?_cons_succ]
          exact h3 j (by omega)

theorem find_dof_isSome (dof : Int) (gs : List Int) (k : Nat) :
    (find_dof dof gs k).isSome = true ↔ dof ∈ gs := by
  rw [← not_iff_not, ← find_dof_eq_none dof gs k]
  cases find_dof dof gs k <;> simp

theorem retain_foldl (file : RemapFile) (dofs_gids : List Int) (l : List Nat)
    (acc : RetainedIdx) :
    l.foldl (retain_step file dofs_gids) acc
      = { local_idx := acc.local_idx
            ++ l.filterMap (fun idx => find_dof (file.col idx - 1) dofs_gids 0)
          global_idx := acc.global_idx
            ++ l.filter (fun idx => (find_dof (file.col idx - 1) dofs_gids 0).isSome) } := by
  induction l generalizing acc with
  | nil => simp
  | cons a l ih =>
    rw [List.foldl_cons, ih]
    unfold retain_step
    cases h : find_dof (file.col a - 1) dofs_gids 0 with
    | none => simp [List.filterMap_cons, List.filter_cons, h]
    | some id => simp [List.filterMap_cons, List.filter_cons, h]

theorem retain_owned_local (file : RemapFile) (dofs_gids : List Int) (n_s : Int) :
    (retain_owned file dofs_gids n_s).local_idx
      = (List.range n_s.toNat).filterMap
          (fun idx => find_dof (file.col idx - 1) dofs_gids 0) := by
  simp [retain_owned, retain_foldl]

theorem retain_owned_global (file : RemapFile) (dofs_gids : List Int) (n_s : Int) :
    (retain_owned file dofs_gids n_s).global_idx
      = (List.range n_s.toNat).filter
          (fun idx => decide (file.col idx - 1 ∈ dofs_gids)) := by
  simp only [retain_owned, retain_foldl, List.nil_append]
  apply List.filter_congr
  intro idx _
  rw [Bool.eq_iff_iff, find_dof_isSome]
  simp

theorem filterMap_filter_getElem? {α β : Type} (f : α → Option β) (l : List α) (i : Nat) :
    (l.filterMap f)[i]? = ((l.filter (fun a => (f a).isSome))[i]?).bind f := by
  induction l generalizing i with
  | nil => simp
  | cons a l ih =>
    cases h : f a with
    | none => simp [List.filterMap_cons, List.filter_cons, h, ih]
    | some b =>
      cases i with
      | zero => simp [List.filterMap_cons, List.filter_cons, h]
      | succ i => simp [List.filterMap_cons, List.filter_cons, h, ih]

theorem filterMap_filter_length {α β : Type} (f : α → Option β) (l : List α) :
    (l.filterMap f).length = (l.filter (fun a => (f a).isSome)).length := by
  induction l with
  | nil => simp
  | cons a l ih =>
    cases h : f a with
    | none => simp [List.filterMap_cons, List.filter_cons, h, ih]
    | some b => simp [List.filterMap_cons, List.filter_cons, h, ih]

theorem retain_owned_length (file : RemapFile) (dofs_gids : List Int) (n_s : Int) :
    (retain_owned file dofs_gids n_s).local_idx.length
      = (retain_owned file dofs_gids n_s).global_idx.length := by
  simp only [retain_owned, retain_foldl, List.nil_append]
  exact filterMap_filter_length _ _

theorem retain_owned_pair (file : RemapFile) (dofs_gids : List Int) (n_s : Int) (idx : Nat)
    (h : idx < (retain_owned file dofs_gids n_s).global_idx.length) :
    find_dof (file.col ((retain_owned file dofs_gids n_s).global_idx.getD idx 0) - 1)
        dofs_gids 0
      = some ((retain_owned file dofs_gids n_s).local_idx.getD idx 0) := by
  have hl := retain_owned_length file dofs_gids n_s
  have hp := filterMap_filter_getElem?
    (fun idx => find_dof (file.col idx - 1) dofs_gids 0) (List.range n_s.toNat) idx
  simp only [retain_owned, retain_foldl, List.nil_append] at h hl ⊢
  rw [List.getElem?_eq_getElem h, List.getElem?_eq_getElem (hl ▸ h)] at hp
  simp only [Option.some_bind] at hp
  rw [List.getD_eq_getElem _ _ h, List.getD_eq_getElem _ _ (hl ▸ h)]
  exact hp.symm

/-! ## get_remap_weights_from_file: filling the table -/

theorem fill_foldl_scalars (file : RemapFile) (r : RetainedIdx) (hi : SPAHorizInterp)
    (N : Nat) :
    ((List.range N).foldl (fill_step file r) hi).length = hi.length ∧
    ((List.range N).foldl (fill_step file r) hi).source_grid_ncols = hi.source_grid_ncols ∧
    ((List.range N).foldl (fill_step file r) hi).source_grid_nlevs = hi.source_grid_nlevs :=
  ⟨foldl_range_keep (fun h : SPAHorizInterp => h.length) (fill_step file r)
     (fun _ _ => rfl) hi N,
   foldl_range_keep (fun h : SPAHorizInterp => h.source_grid_ncols) (fill_step file r)
     (fun _ _ => rfl) hi N,
   foldl_range_keep (fun h : SPAHorizInterp => h.source_grid_nlevs) (fill_step file r)
     (fun _ _ => rfl) hi N⟩

theorem fill_foldl_views (file : RemapFile) (r : RetainedIdx) (hi : SPAHorizInterp)
    (N j : Nat) :
    ((List.range N).foldl (fill_step file r) hi).weights j
      = (if j < N then file.S (r.global_idx.getD j 0) else hi.weights j) ∧
    ((List.range N).foldl (fill_step file r) hi).source_grid_loc j
      = (if j < N then file.row (r.global_idx.getD j 0) - 1 else hi.source_grid_loc j) ∧
    ((List.range N).foldl (fill_step file r) hi).target_grid_loc j
      = (if j < N then ((r.local_idx.getD j 0 : Nat) : Int) else hi.target_grid_loc j) := by
  induction N with
  | zero => simp
  | succ N ih =>
    rw [List.range_succ, List.foldl_append]
    simp only [List.foldl_cons, List.foldl_nil, fill_step, Function.update_apply]
    obtain ⟨h1, h2, h3⟩ := ih
    rw [h1, h2, h3]
    by_cases hj : j = N
    · subst hj; simp
    · have : (j < N + 1) ↔ (j < N) := by omega
      simp [hj, this]

/-! ## get_remap_weights_from_file: outcome -/

theorem get_remap_ok (file : RemapFile) (ncols_scream : Int) (dofs_gids : List Int)
    (hi : SPAHorizInterp) (hnb : file.n_b = ncols_scream) :
    get_remap_weights_from_file file ncols_scream dofs_gids hi
      = ⟨none, (List.range (retain_owned file dofs_gids file.n_s).local_idx.length).foldl
          (fill_step file (retain_owned file dofs_gids file.n_s))
          { length := ((retain_owned file dofs_gids file.n_s).local_idx.length : Int)
            source_grid_ncols := file.n_a
            source_grid_nlevs := hi.source_grid_nlevs
            weights := fun _ => 0
            source_grid_loc := fun _ => 0
            target_grid_loc := fun _ => 0 }⟩ := by
  simp [get_remap_weights_from_file, hnb]

theorem get_remap_fail (file : RemapFile) (ncols_scream : Int) (dofs_gids : List Int)
    (hi : SPAHorizInterp) (hnb : file.n_b ≠ ncols_scream) :
    get_remap_weights_from_file file ncols_scream dofs_gids hi
      = ⟨some .remap_target_mismatch,
          { hi with length := file.n_s, source_grid_ncols := file.n_a }⟩ := by
  simp [get_remap_weights_from_file, hnb]

theorem mem_kept_entries (file : RemapFile) (dofs_gids : List Int) (ii : Nat) :
    ii ∈ kept_entries file dofs_gids
      ↔ ii < file.n_s.toNat ∧ file.col ii - 1 ∈ dofs_gids := by
  simp [kept_entries, retain_owned_global]

theorem get_remap_table (file : RemapFile) (ncols_scream : Int) (dofs_gids : List Int)
    (hi : SPAHorizInterp) (hnb : file.n_b = ncols_scream) :
    (get_remap_weights_from_file file ncols_scream dofs_gids hi).state.length
        = ((kept_entries file dofs_gids).length : Int) ∧
    (get_remap_weights_from_file file ncols_scream dofs_gids hi).state.source_grid_ncols
        = file.n_a ∧
    ∀ idx, idx < (kept_entries file dofs_gids).length →
      (get_remap_weights_from_file file ncols_scream dofs_gids hi).state.weights idx
        = file.S ((kept_entries file dofs_gids).getD idx 0) ∧
      (get_remap_weights_from_file file ncols_scream dofs_gids hi).state.source_grid_loc idx
        = file.row ((kept_entries file dofs_gids).getD idx 0) - 1 ∧
      find_dof (file.col ((kept_entries file dofs_gids).getD idx 0) - 1) dofs_gids 0
        = some ((get_remap_weights_from_file file ncols_scream dofs_gids
            hi).state.target_grid_loc idx).toNat ∧
      0 ≤ (get_remap_weights_from_file file ncols_scream dofs_gids
            hi).state.target_grid_loc idx := by
  rw [get_remap_ok file ncols_scream dofs_gids hi hnb]
  have hlen := retain_owned_length file dofs_gids file.n_s
  refine ⟨?_, ?_, ?_⟩
  · rw [(fill_foldl_scalars _ _ _ _).1, kept_entries, hlen]
  · rw [(fill_foldl_scalars _ _ _ _).2.1]
  · intro idx hidx
    obtain ⟨h1, h2, h3⟩ := fill_foldl_views file (retain_owned file dofs_gids file.n_s)
      { length := ((retain_owned file dofs_gids file.n_s).local_idx.length : Int)
        source_grid_ncols := file.n_a
        source_grid_nlevs := hi.source_grid_nlevs
        weights := fun _ => 0
        source_grid_loc := fun _ => 0
        target_grid_loc := fun _ => 0 }
      (retain_owned file dofs_gids file.n_s).local_idx.length idx
    have hlt : idx < (retain_owned file dofs_gids file.n_s).local_idx.length := by
      rw [hlen]; exact hidx
    simp only [h1, h2, h3, if_pos hlt]
    refine ⟨rfl, rfl, ?_, Int.natCast_nonneg _⟩
    rw [Int.toNat_natCast]
    exact retain_owned_pair file dofs_gids file.n_s idx hidx

/-- C3. Ownership filter of `get_remap_weights_from_file`: when `n_b` matches, the load does not
fail; file entry `ii < n_s` is kept if and only if its 0-based target column `col ii - 1` is an
entry of `dofs_gids`; the `target_grid_loc` of a kept entry is a position `p < dofs_gids.size()`
with `dofs_gids[p] = col - 1`; the resulting `length` is the number of owned entries, and it is
zero when no target column is owned. -/
theorem C3_ownership_filter (file : RemapFile) (ncols_scream : Int) (dofs_gids : List Int)
    (hi : SPAHorizInterp) (hnb : file.n_b = ncols_scream) :
    (get_remap_weights_from_file file ncols_scream dofs_gids hi).error = none ∧
    (∀ ii : Nat, ii ∈ kept_entries file dofs_gids
      ↔ ii < file.n_s.toNat ∧ file.col ii - 1 ∈ dofs_gids) ∧
    (∀ idx : Nat, idx < (kept_entries file dofs_gids).length →
      ∃ p : Nat, (get_remap_weights_from_file file ncols_scream dofs_gids
          hi).state.target_grid_loc idx = (p : Int) ∧
        p < dofs_gids.length ∧
        dofs_gids[p]? = some (file.col ((kept_entries file dofs_gids).getD idx 0) - 1)) ∧
    (get_remap_weights_from_file file ncols_scream dofs_gids hi).state.length
      = ((List.range file.n_s.toNat).countP
          (fun ii => decide (file.col ii - 1 ∈ dofs_gids)) : Nat) ∧
    ((∀ ii : Nat, ii < file.n_s.toNat → file.col ii - 1 ∉ dofs_gids) →
      (get_remap_weights_from_file file ncols_scream dofs_gids hi).state.length = 0) := by
  obtain ⟨hlen, _, htab⟩ := get_remap_table file ncols_scream dofs_gids hi hnb
  have hcount : (kept_entries file dofs_gids).length
      = (List.range file.n_s.toNat).countP
          (fun ii => decide (file.col ii - 1 ∈ dofs_gids)) := by
    rw [kept_entries, retain_owned_global, List.countP_eq_length_filter]
  refine ⟨?_, mem_kept_entries file dofs_gids, ?_, ?_, ?_⟩
  · rw [get_remap_ok file ncols_scream dofs_gids hi hnb]
  · intro idx hidx
    obtain ⟨_, _, hfind, hpos⟩ := htab idx hidx
    obtain ⟨_, hget, _⟩ := find_dof_some _ _ _ _ hfind
    rw [Nat.sub_zero] at hget
    refine ⟨_, (Int.toNat_of_nonneg hpos).symm, ?_, hget⟩
    by_contra hge
    rw [List.getElem?_eq_none (by omega)] at hget
    exact Option.noConfusion hget
  · rw [hlen, hcount]
  · intro hnone
    rw [hlen, hcount, List.countP_eq_zero.2]
    · rfl
    · intro ii hii
      simpa using hnone ii (List.mem_range.1 hii)

theorem C3_ownership_filter_witness :
    sample_remap_file.n_b = 5 ∧
    (get_remap_weights_from_file sample_remap_file 5 [2, 4, 2] sample_empty_table).error
      = none ∧
    (get_remap_weights_from_file sample_remap_file 5 [2, 4, 2] sample_empty_table).state.length
      = 3 := by
  have h := C3_ownership_filter sample_remap_file 5 [2, 4, 2] sample_empty_table rfl
  refine ⟨rfl, h.1, ?_⟩
  rw [h.2.2.2.1]
  decide

/-- C4. Index conversion of `get_remap_weights_from_file`: the table position filled from file
entry `ii` stores `source_grid_loc = row ii - 1` and `weights = S ii` unchanged, the table's
`source_grid_ncols` is `n_a`, and when every file `row` lies in `1..n_a` every stored
`source_grid_loc` lies in `0..n_a-1`. -/
theorem C4_index_conversion (file : RemapFile) (ncols_scream : Int) (dofs_gids : List Int)
    (hi : SPAHorizInterp) (hnb : file.n_b = ncols_scream) :
    (∀ idx : Nat, idx < (kept_entries file dofs_gids).length →
      (get_remap_weights_from_file file ncols_scream dofs_gids hi).state.source_grid_loc idx
        = file.row ((kept_entries file dofs_gids).getD idx 0) - 1 ∧
      (get_remap_weights_from_file file ncols_scream dofs_gids hi).state.weights idx
        = file.S ((kept_entries file dofs_gids).getD idx 0)) ∧
    (get_remap_weights_from_file file ncols_scream dofs_gids hi).state.source_grid_ncols
      = file.n_a ∧
    ((∀ ii : Nat, ii < file.n_s.toNat → 1 ≤ file.row ii ∧ file.row ii ≤ file.n_a) →
      ∀ idx : Nat, idx < (kept_entries file dofs_gids).length →
        0 ≤ (get_remap_weights_from_file file ncols_scream dofs_gids
            hi).state.source_grid_loc idx ∧
        (get_remap_weights_from_file file ncols_scream dofs_gids
            hi).state.source_grid_loc idx ≤ file.n_a - 1) := by
  obtain ⟨_, hna, htab⟩ := get_remap_table file ncols_scream dofs_gids hi hnb
  refine ⟨fun idx hidx => ⟨(htab idx hidx).2.1, (htab idx hidx).1⟩, hna, ?_⟩
  intro hrow idx hidx
  rw [(htab idx hidx).2.1]
  have hmem : (kept_entries file dofs_gids).getD idx 0 ∈ kept_entries file dofs_gids := by
    rw [List.getD_eq_getElem _ _ hidx]
    exact List.getElem_mem hidx
  obtain ⟨h1, h2⟩ := hrow _ ((mem_kept_entries file dofs_gids _).1 hmem).1
  constructor <;> omega

theorem C4_index_conversion_witness :
    sample_remap_file.n_b = 5 ∧
    (get_remap_weights_from_file sample_remap_file 5 [2, 4, 2]
      sample_empty_table).state.source_grid_loc 0 = 1 ∧
    (get_remap_weights_from_file sample_remap_file 5 [2, 4, 2]
      sample_empty_table).state.weights 0 = 1 / 10 := by
  have hk : kept_entries sample_remap_file [2, 4, 2] = [1, 2, 3] := by decide
  have h := (C4_index_conversion sample_remap_file 5 [2, 4, 2] sample_empty_table rfl).1 0
    (by rw [hk]; decide)
  rw [hk] at h
  refine ⟨rfl, ?_, ?_⟩
  · rw [h.1]; decide
  · rw [h.2]; norm_num [sample_remap_file]

/-- C5. `get_remap_weights_from_file` fails, with the target-domain mismatch error, if and only
if the file's `n_b` differs from `ncols_scream`; it succeeds if and only if they are equal. -/
theorem C5_remap_fails_iff_target_mismatch (file : RemapFile) (ncols_scream : Int)
    (dofs_gids : List Int) (hi : SPAHorizInterp) :
    ((get_remap_weights_from_file file ncols_scream dofs_gids hi).error
        = some SPAError.remap_target_mismatch ↔ file.n_b ≠ ncols_scream) ∧
    ((get_remap_weights_from_file file ncols_scream dofs_gids hi).error = none
        ↔ file.n_b = ncols_scream) := by
  by_cases h : file.n_b = ncols_scream
  · rw [get_remap_ok file ncols_scream dofs_gids hi h]
    simp [h]
  · rw [get_remap_fail file ncols_scream dofs_gids hi h]
    simp [h]

/-! ## update_spa_data_from_file: the dimension checks -/

/-- C6. `update_spa_data_from_file` fails if and only if the file's `swband` length differs
from `nswbands`, or its `lwband` length differs from `nlwbands`, or its `ncol` length differs
from the table's `source_grid_ncols`; it does not fail if and only if all three agree. -/
theorem C6_update_fails_iff_dimension_mismatch (packn : Nat) (file : SPADataFile)
    (time_index nswbands nlwbands : Int) (hi : SPAHorizInterp) (d : SPAData) :
    ((update_spa_data_from_file packn file time_index nswbands nlwbands hi d).error ≠ none
      ↔ (file.swband ≠ nswbands ∨ file.lwband ≠ nlwbands ∨
          file.ncol ≠ hi.source_grid_ncols)) ∧
    ((update_spa_data_from_file packn file time_index nswbands nlwbands hi d).error = none
      ↔ (file.swband = nswbands ∧ file.lwband = nlwbands ∧
          file.ncol = hi.source_grid_ncols)) := by
  unfold update_spa_data_from_file
  by_cases h1 : nswbands = file.swband
  · by_cases h2 : nlwbands = file.lwband
    · by_cases h3 : file.ncol = hi.source_grid_ncols
      · simp [h1, h2, h3]
      · simp [h1, h2, h3]
    · have h2' : ¬ file.lwband = nlwbands := fun e => h2 e.symm
      simp [h1, h2, h2']
  · have h1' : ¬ file.swband = nswbands := fun e => h1 e.symm
    simp [h1, h1']

/-! ## State left behind by a failed call -/

/-- C7 (as stated, refuted). A failing `get_remap_weights_from_file` has already overwritten
`length` (0 before the call, the file's `n_s = 4` after), and a failing
`update_spa_data_from_file` has already overwritten `source_grid_nlevs` (0 before the call, the
file's `lev = 2` after). -/
theorem C7_failed_call_mutates_table :
    (get_remap_weights_from_file sample_remap_file 4 [2, 4, 2] sample_empty_table).error
      = some SPAError.remap_target_mismatch ∧
    sample_empty_table.length = 0 ∧
    (get_remap_weights_from_file sample_remap_file 4 [2, 4, 2] sample_empty_table).state.length
      = 4 ∧
    (update_spa_data_from_file 2 sample_file 0 1 2 sample_identity sample_data).error
      = some SPAError.lwband_mismatch ∧
    sample_identity.source_grid_nlevs = 0 ∧
    (update_spa_data_from_file 2 sample_file 0 1 2 sample_identity
      sample_data).state.1.source_grid_nlevs = 2 := by
  refine ⟨?_, rfl, ?_, ?_, rfl, ?_⟩ <;> decide

/-- C7 (amended). A failing `get_remap_weights_from_file` leaves the table as it was except
that `length` and `source_grid_ncols` hold the file's `n_s` and `n_a`; a failing
`update_spa_data_from_file` leaves the dataset as it was, and the table as it was except that
`source_grid_nlevs` holds the file's `lev`. -/
theorem C7_failed_call_state (packn : Nat) (rfile : RemapFile) (ncols_scream : Int)
    (dofs_gids : List Int) (file : SPADataFile) (time_index nswbands nlwbands : Int)
    (hi : SPAHorizInterp) (d : SPAData) :
    ((get_remap_weights_from_file rfile ncols_scream dofs_gids hi).error ≠ none →
      (get_remap_weights_from_file rfile ncols_scream dofs_gids hi).state
        = { hi with length := rfile.n_s, source_grid_ncols := rfile.n_a }) ∧
    ((update_spa_data_from_file packn file time_index nswbands nlwbands hi d).error ≠ none →
      (update_spa_data_from_file packn file time_index nswbands nlwbands hi d).state
        = ({ hi with source_grid_nlevs := file.lev }, d)) := by
  constructor
  · intro h
    by_cases hnb : rfile.n_b = ncols_scream
    · rw [get_remap_ok rfile ncols_scream dofs_gids hi hnb] at h
      exact absurd rfl h
    · rw [get_remap_fail rfile ncols_scream dofs_gids hi hnb]
  · intro h
    unfold update_spa_data_from_file at h ⊢
    by_cases h1 : nswbands = file.swband
    · by_cases h2 : nlwbands = file.lwband
      · by_cases h3 : file.ncol = hi.source_grid_ncols
        · simp [h1, h2, h3] at h
        · simp [h1, h2, h3]
      · simp [h1, h2]
    · simp [h1]

theorem C7_failed_call_state_witness :
    (get_remap_weights_from_file sample_remap_file 4 [2, 4, 2] sample_empty_table).state
      = { sample_empty_table with length := 4, source_grid_ncols := 3 } ∧
    (update_spa_data_from_file 2 sample_file 0 1 2 sample_identity sample_data).state
      = ({ sample_identity with source_grid_nlevs := 2 }, sample_data) :=
  ⟨(C7_failed_call_state 2 sample_remap_file 4 [2, 4, 2] sample_file 0 1 2
      sample_empty_table sample_data).1 (by decide),
   (C7_failed_call_state 2 sample_remap_file 4 [2, 4, 2] sample_file 0 1 2
      sample_identity sample_data).2 (by decide)⟩

/-! ## linear_interp -/

/-- C8. `linear_interp x0 x1 t_norm` is `(1 - t_norm) * x0 + t_norm * x1` for all `x0`, `x1`
and every `t_norm`, no clamping of `t_norm`; on packs the same holds in every lane. -/
theorem C8_linear_interp_formula (x0 x1 t_norm : ℚ) (p0 p1 : Nat → ℚ) (lane : Nat) :
    linear_interp x0 x1 t_norm = (1 - t_norm) * x0 + t_norm * x1 ∧
    linear_interp_pack p0 p1 t_norm lane = (1 - t_norm) * p0 lane + t_norm * p1 lane :=
  ⟨rfl, rfl⟩

/-! ## Temporal interpolation at the ends of the bracket -/

theorem level_pack_lt (packn : Nat) (nlevs : Int) (kk : Nat) (hp : 0 < packn)
    (hk : kk < nlevs.toNat) : kk / packn < npack packn nlevs := by
  unfold npack
  rw [Nat.div_lt_iff_lt_mul hp]
  have h1 := Nat.div_add_mod (nlevs.toNat + packn - 1) packn
  have h2 := Nat.mod_lt (nlevs.toNat + packn - 1) hp
  rw [Nat.mul_comm] at h1
  omega

/-- C9 (amended). Temporal interpolation at the start of the bracket: when
`t_now = t_beg_month` and `days_this_month` is non-zero, every value computed by the temporal
step of `spa_main` equals the begin value it is blended from: the surface pressure `ps_src`
equals the begin-of-month surface pressure of the pressure state (`ps_this_month`, the operand
of line 136, not the `PS` of the begin dataset), and `CCN3` at every source level and every
band and level of `AER_G_SW`, `AER_SSA_SW`, `AER_TAU_SW`, `AER_TAU_LW` equal the corresponding
element of the begin dataset. -/
theorem C9_interp_at_month_begin (packn : Nat) (P0 : ℚ) (time_state : SPATimeState)
    (pressure_state : SPAPressureState) (data_beg data_end : SPAData)
    (ncols_atm nswbands nlwbands : Int) (hp : 0 < packn)
    (hnow : time_state.t_now = time_state.t_beg_month)
    (hlen : time_state.days_this_month ≠ 0) :
    (∀ i : Nat, i < ncols_atm.toNat →
      (spa_main_temporal packn P0 time_state pressure_state data_beg data_end
          ncols_atm nswbands nlwbands).ps_src i = pressure_state.ps_this_month i) ∧
    (∀ i kk : Nat, i < ncols_atm.toNat → kk < pressure_state.nlevs.toNat →
      (spa_main_temporal packn P0 time_state pressure_state data_beg data_end
          ncols_atm nswbands nlwbands).ccn3_src i (kk / packn) (kk % packn)
        = data_beg.CCN3 i (kk / packn) (kk % packn)) ∧
    (∀ i n kk : Nat, i < ncols_atm.toNat → n < nswbands.toNat →
      kk < pressure_state.nlevs.toNat →
      (spa_main_temporal packn P0 time_state pressure_state data_beg data_end
          ncols_atm nswbands nlwbands).aer_g_sw_src i n (kk / packn) (kk % packn)
        = data_beg.AER_G_SW i n (kk / packn) (kk % packn)) ∧
    (∀ i n kk : Nat, i < ncols_atm.toNat → n < nswbands.toNat →
      kk < pressure_state.nlevs.toNat →
      (spa_main_temporal packn P0 time_state pressure_state data_beg data_end
          ncols_atm nswbands nlwbands).aer_ssa_sw_src i n (kk / packn) (kk % packn)
        = data_beg.AER_SSA_SW i n (kk / packn) (kk % packn)) ∧
    (∀ i n kk : Nat, i < ncols_atm.toNat → n < nswbands.toNat →
      kk < pressure_state.nlevs.toNat →
      (spa_main_temporal packn P0 time_state pressure_state data_beg data_end
          ncols_atm nswbands nlwbands).aer_tau_sw_src i n (kk / packn) (kk % packn)
        = data_beg.AER_TAU_SW i n (kk / packn) (kk % packn)) ∧
    (∀ i n kk : Nat, i < ncols_atm.toNat → n < nlwbands.toNat →
      kk < pressure_state.nlevs.toNat →
      (spa_main_temporal packn P0 time_state pressure_state data_beg data_end
          ncols_atm nswbands nlwbands).aer_tau_lw_src i n (kk / packn) (kk % packn)
        = data_beg.AER_TAU_LW i n (kk / packn) (kk % packn)) := by
  have ht : t_norm time_state = 0 := by
    unfold t_norm
    rw [div_eq_iff hlen, hnow, sub_self, zero_mul]
  have hk : ∀ kk : Nat, kk < pressure_state.nlevs.toNat →
      kk / packn < npack packn pressure_state.nlevs :=
    fun kk h => level_pack_lt packn pressure_state.nlevs kk hp h
  refine ⟨?_, ?_, ?_, ?_, ?_, ?_⟩
  · intro i _
    simp only [spa_main_temporal, ht, linear_interp]
    ring
  · intro i kk hi hkk
    simp only [spa_main_temporal, ht, linear_interp, linear_interp_pack, hi, hk kk hkk,
      and_self, if_true]
    ring
  · intro i n kk hi hn hkk
    simp only [spa_main_temporal, ht, linear_interp, linear_interp_pack, hi, hn, hk kk hkk,
      and_self, if_true]
    ring
  · intro i n kk hi hn hkk
    simp only [spa_main_temporal, ht, linear_interp, linear_interp_pack, hi, hn, hk kk hkk,
      and_self, if_true]
    ring
  · intro i n kk hi hn hkk
    simp only [spa_main_temporal, ht, linear_interp, linear_interp_pack, hi, hn, hk kk hkk,
      and_self, if_true]
    ring
  · intro i n kk hi hn hkk
    simp only [spa_main_temporal, ht, linear_interp, linear_interp_pack, hi, hn, hk kk hkk,
      and_self, if_true]
    ring

theorem C9_interp_at_month_begin_witness :
    sample_time_start.t_now = sample_time_start.t_beg_month ∧
    sample_time_start.days_this_month ≠ 0 ∧
    (spa_main_temporal 2 100000 sample_time_start sample_pressure sample_data sample_data_end
      2 1 1).ps_src 1 = 100000 ∧
    (spa_main_temporal 2 100000 sample_time_start sample_pressure sample_data sample_data_end
      2 1 1).ccn3_src 1 0 1 = 7 := by
  have h := C9_interp_at_month_begin 2 100000 sample_time_start sample_pressure sample_data
    sample_data_end 2 1 1 (by decide) rfl (by decide)
  exact ⟨rfl, by decide, h.1 1 (by decide), h.2.1 1 1 (by decide) (by decide)⟩

/-- C9 (as stated, refuted for the surface pressure). At `t_now = t_beg_month` with a 31-day
month, a begin dataset whose `PS` is 7 in every column and a pressure state whose
`ps_this_month` is 100000: the temporally interpolated surface pressure of column 1 is 100000,
not the 7 of the begin dataset.  The temporal step does not read the `PS` of the begin
dataset at all: replacing it by any other surface pressure leaves every computed value as it
was. -/
theorem C9_begin_dataset_PS_not_read :
    sample_time_start.t_now = sample_time_start.t_beg_month ∧
    sample_time_start.days_this_month ≠ 0 ∧
    sample_data.PS 1 = 7 ∧
    (spa_main_temporal 2 100000 sample_time_start sample_pressure sample_data sample_data_end
      2 1 1).ps_src 1 = 100000 ∧
    (spa_main_temporal 2 100000 sample_time_start sample_pressure sample_data sample_data_end
      2 1 1).ps_src 1 ≠ sample_data.PS 1 ∧
    (∀ ps : Int → ℚ,
      spa_main_temporal 2 100000 sample_time_start sample_pressure
          { sample_data with PS := ps } sample_data_end 2 1 1
        = spa_main_temporal 2 100000 sample_time_start sample_pressure sample_data
          sample_data_end 2 1 1) := by
  have h : (spa_main_temporal 2 100000 sample_time_start sample_pressure sample_data
      sample_data_end 2 1 1).ps_src 1 = 100000 := by
    norm_num [spa_main_temporal, t_norm, linear_interp, sample_time_start, sample_pressure]
  refine ⟨rfl, by decide, rfl, h, ?_, fun _ => rfl⟩
  rw [h]
  norm_num [sample_data]

/-- C10 (amended). Temporal interpolation at the end of the bracket: when
`t_now = t_beg_month + days_this_month` and `days_this_month` is non-zero, every value computed
by the temporal step of `spa_main` equals the end value it is blended from: `ps_src` equals the
end-of-month surface pressure of the pressure state (`ps_next_month`, the operand of line 137,
not the `PS` of the end dataset), and `CCN3` and every band and level of the `AER_*` fields
equal the corresponding element of the end dataset. -/
theorem C10_interp_at_month_end (packn : Nat) (P0 : ℚ) (time_state : SPATimeState)
    (pressure_state : SPAPressureState) (data_beg data_end : SPAData)
    (ncols_atm nswbands nlwbands : Int) (hp : 0 < packn)
    (hnow : time_state.t_now = time_state.t_beg_month + time_state.days_this_month)
    (hlen : time_state.days_this_month ≠ 0) :
    (∀ i : Nat, i < ncols_atm.toNat →
      (spa_main_temporal packn P0 time_state pressure_state data_beg data_end
          ncols_atm nswbands nlwbands).ps_src i = pressure_state.ps_next_month i) ∧
    (∀ i kk : Nat, i < ncols_atm.toNat → kk < pressure_state.nlevs.toNat →
      (spa_main_temporal packn P0 time_state pressure_state data_beg data_end
          ncols_atm nswbands nlwbands).ccn3_src i (kk / packn) (kk % packn)
        = data_end.CCN3 i (kk / packn) (kk % packn)) ∧
    (∀ i n kk : Nat, i < ncols_atm.toNat → n < nswbands.toNat →
      kk < pressure_state.nlevs.toNat →
      (spa_main_temporal packn P0 time_state pressure_state data_beg data_end
          ncols_atm nswbands nlwbands).aer_g_sw_src i n (kk / packn) (kk % packn)
        = data_end.AER_G_SW i n (kk / packn) (kk % packn)) ∧
    (∀ i n kk : Nat, i < ncols_atm.toNat → n < nswbands.toNat →
      kk < pressure_state.nlevs.toNat →
      (spa_main_temporal packn P0 time_state pressure_state data_beg data_end
          ncols_atm nswbands nlwbands).aer_ssa_sw_src i n (kk / packn) (kk % packn)
        = data_end.AER_SSA_SW i n (kk / packn) (kk % packn)) ∧
    (∀ i n kk : Nat, i < ncols_atm.toNat → n < nswbands.toNat →
      kk < pressure_state.nlevs.toNat →
      (spa_main_temporal packn P0 time_state pressure_state data_beg data_end
          ncols_atm nswbands nlwbands).aer_tau_sw_src i n (kk / packn) (kk % packn)
        = data_end.AER_TAU_SW i n (kk / packn) (kk % packn)) ∧
    (∀ i n kk : Nat, i < ncols_atm.toNat → n < nlwbands.toNat →
      kk < pressure_state.nlevs.toNat →
      (spa_main_temporal packn P0 time_state pressure_state data_beg data_end
          ncols_atm nswbands nlwbands).aer_tau_lw_src i n (kk / packn) (kk % packn)
        = data_end.AER_TAU_LW i n (kk / packn) (kk % packn)) := by
  have ht : t_norm time_state = 1 := by
    unfold t_norm
    rw [hnow, add_sub_cancel_left, div_self hlen]
  have hk : ∀ kk : Nat, kk < pressure_state.nlevs.toNat →
      kk / packn < npack packn pressure_state.nlevs :=
    fun kk h => level_pack_lt packn pressure_state.nlevs kk hp h
  refine ⟨?_, ?_, ?_, ?_, ?_, ?_⟩
  · intro i _
    simp only [spa_main_temporal, ht, linear_interp]
    ring
  · intro i kk hi hkk
    simp only [spa_main_temporal, ht, linear_interp, linear_interp_pack, hi, hk kk hkk,
      and_self, if_true]
    ring
  · intro i n kk hi hn hkk
    simp only [spa_main_temporal, ht, linear_interp, linear_interp_pack, hi, hn, hk kk hkk,
      and_self, if_true]
    ring
  · intro i n kk hi hn hkk
    simp only [spa_main_temporal, ht, linear_interp, linear_interp_pack, hi, hn, hk kk hkk,
      and_self, if_true]
    ring
  · intro i n kk hi hn hkk
    simp only [spa_main_temporal, ht, linear_interp, linear_interp_pack, hi, hn, hk kk hkk,
      and_self, if_true]
    ring
  · intro i n kk hi hn hkk
    simp only [spa_main_temporal, ht, linear_interp, linear_interp_pack, hi, hn, hk kk hkk,
      and_self, if_true]
    ring

theorem C10_interp_at_month_end_witness :
    sample_time_end.t_now = sample_time_end.t_beg_month + sample_time_end.days_this_month ∧
    sample_time_end.days_this_month ≠ 0 ∧
    (spa_main_temporal 2 100000 sample_time_end sample_pressure sample_data sample_data_end
      2 1 1).ps_src 1 = 100200 ∧
    (spa_main_temporal 2 100000 sample_time_end sample_pressure sample_data sample_data_end
      2 1 1).ccn3_src 1 0 1 = 9 := by
  have h := C10_interp_at_month_end 2 100000 sample_time_end sample_pressure sample_data
    sample_data_end 2 1 1 (by decide) (by norm_num [sample_time_end]) (by decide)
  exact ⟨by norm_num [sample_time_end], by decide, h.1 1 (by decide),
    h.2.1 1 1 (by decide) (by decide)⟩

/-- C10 (as stated, refuted for the surface pressure). At
`t_now = t_beg_month + days_this_month` with a 31-day month, an end dataset whose `PS` is 9 in
every column and a pressure state whose `ps_next_month` is 100200: the temporally interpolated
surface pressure of column 1 is 100200, not the 9 of the end dataset.  The temporal step does
not read the `PS` of the end dataset at all: replacing it by any other surface pressure leaves
every computed value as it was. -/
theorem C10_end_dataset_PS_not_read :
    sample_time_end.t_now = sample_time_end.t_beg_month + sample_time_end.days_this_month ∧
    sample_time_end.days_this_month ≠ 0 ∧
    sample_data_end.PS 1 = 9 ∧
    (spa_main_temporal 2 100000 sample_time_end sample_pressure sample_data sample_data_end
      2 1 1).ps_src 1 = 100200 ∧
    (spa_main_temporal 2 100000 sample_time_end sample_pressure sample_data sample_data_end
      2 1 1).ps_src 1 ≠ sample_data_end.PS 1 ∧
    (∀ ps : Int → ℚ,
      spa_main_temporal 2 100000 sample_time_end sample_pressure sample_data
          { sample_data_end with PS := ps } 2 1 1
        = spa_main_temporal 2 100000 sample_time_end sample_pressure sample_data
          sample_data_end 2 1 1) := by
  have h : (spa_main_temporal 2 100000 sample_time_end sample_pressure sample_data
      sample_data_end 2 1 1).ps_src 1 = 100200 := by
    norm_num [spa_main_temporal, t_norm, linear_interp, sample_time_end, sample_pressure]
  refine ⟨by norm_num [sample_time_end], by decide, rfl, h, ?_, fun _ => rfl⟩
  rw [h]
  norm_num [sample_data_end]

/-! ## The temporal step of spa_main, cell by cell -/

theorem temporal_cells (packn : Nat) (P0 : ℚ) (time_state : SPATimeState)
    (pressure_state : SPAPressureState) (data_beg data_end : SPAData)
    (ncols_atm nswbands nlwbands : Int) (hp : 0 < packn) :
    (∀ i : Nat, i < ncols_atm.toNat →
      (spa_main_temporal packn P0 time_state pressure_state data_beg data_end
          ncols_atm nswbands nlwbands).ps_src i
        = linear_interp (pressure_state.ps_this_month i) (pressure_state.ps_next_month i)
            (t_norm time_state)) ∧
    (∀ i kk : Nat, i < ncols_atm.toNat → kk < pressure_state.nlevs.toNat →
      (spa_main_temporal packn P0 time_state pressure_state data_beg data_end
          ncols_atm nswbands nlwbands).ccn3_src i (kk / packn) (kk % packn)
        = linear_interp (data_beg.CCN3 i (kk / packn) (kk % packn))
            (data_end.CCN3 i (kk / packn) (kk % packn)) (t_norm time_state)) ∧
    (∀ i n kk : Nat, i < ncols_atm.toNat → n < nswbands.toNat →
      kk < pressure_state.nlevs.toNat →
      (spa_main_temporal packn P0 time_state pressure_state data_beg data_end
          ncols_atm nswbands nlwbands).aer_g_sw_src i n (kk / packn) (kk % packn)
        = linear_interp (data_beg.AER_G_SW i n (kk / packn) (kk % packn))
            (data_end.AER_G_SW i n (kk / packn) (kk % packn)) (t_norm time_state)) ∧
    (∀ i n kk : Nat, i < ncols_atm.toNat → n < nswbands.toNat →
      kk < pressure_state.nlevs.toNat →
      (spa_main_temporal packn P0 time_state pressure_state data_beg data_end
          ncols_atm nswbands nlwbands).aer_ssa_sw_src i n (kk / packn) (kk % packn)
        = linear_interp (data_beg.AER_SSA_SW i n (kk / packn) (kk % packn))
            (data_end.AER_SSA_SW i n (kk / packn) (kk % packn)) (t_norm time_state)) ∧
    (∀ i n kk : Nat, i < ncols_atm.toNat → n < nswbands.toNat →
      kk < pressure_state.nlevs.toNat →
      (spa_main_temporal packn P0 time_state pressure_state data_beg data_end
          ncols_atm nswbands nlwbands).aer_tau_sw_src i n (kk / packn) (kk % packn)
        = linear_interp (data_beg.AER_TAU_SW i n (kk / packn) (kk % packn))
            (data_end.AER_TAU_SW i n (kk / packn) (kk % packn)) (t_norm time_state)) ∧
    (∀ i n kk : Nat, i < ncols_atm.toNat → n < nlwbands.toNat →
      kk < pressure_state.nlevs.toNat →
      (spa_main_temporal packn P0 time_state pressure_state data_beg data_end
          ncols_atm nswbands nlwbands).aer_tau_lw_src i n (kk / packn) (kk % packn)
        = linear_interp (data_beg.AER_TAU_LW i n (kk / packn) (kk % packn))
            (data_end.AER_TAU_LW i n (kk / packn) (kk % packn)) (t_norm time_state)) ∧
    (∀ i kk : Nat, i < ncols_atm.toNat → kk < pressure_state.nlevs.toNat →
      (spa_main_temporal packn P0 time_state pressure_state data_beg data_end
          ncols_atm nswbands nlwbands).p_src i (kk / packn) (kk % packn)
        = (spa_main_temporal packn P0 time_state pressure_state data_beg data_end
          ncols_atm nswbands nlwbands).ps_src i
            * pressure_state.hybm (kk / packn) (kk % packn)
          + P0 * pressure_state.hyam (kk / packn) (kk % packn)) := by
  have hk : ∀ kk : Nat, kk < pressure_state.nlevs.toNat →
      kk / packn < npack packn pressure_state.nlevs :=
    fun kk h => level_pack_lt packn pressure_state.nlevs kk hp h
  refine ⟨?_, ?_, ?_, ?_, ?_, ?_, ?_⟩
  · intro i _
    simp only [spa_main_temporal]
  · intro i kk hi hkk
    simp only [spa_main_temporal, linear_interp_pack, hi, hk kk hkk, and_self, if_true]
  · intro i n kk hi hn hkk
    simp only [spa_main_temporal, linear_interp_pack, hi, hn, hk kk hkk, and_self, if_true]
  · intro i n kk hi hn hkk
    simp only [spa_main_temporal, linear_interp_pack, hi, hn, hk kk hkk, and_self, if_true]
  · intro i n kk hi hn hkk
    simp only [spa_main_temporal, linear_interp_pack, hi, hn, hk kk hkk, and_self, if_true]
  · intro i n kk hi hn hkk
    simp only [spa_main_temporal, linear_interp_pack, hi, hn, hk kk hkk, and_self, if_true]
  · intro i kk hi hkk
    simp only [spa_main_temporal, hi, hk kk hkk, and_self, if_true]

/-! ## Temporal interpolation at the midpoint -/

/-- C11. Temporal interpolation at the midpoint: when
`t_now = t_beg_month + days_this_month / 2` and `days_this_month` is non-zero, every value
computed by the temporal step of `spa_main` is the arithmetic mean `(begin + end) / 2` of the
two values it is blended from; with begin surface pressure 100000 and end surface pressure
100200 in every column the interpolated surface pressure is 100100 in every column. -/
theorem C11_interp_at_midpoint (packn : Nat) (P0 : ℚ) (time_state : SPATimeState)
    (pressure_state : SPAPressureState) (data_beg data_end : SPAData)
    (ncols_atm nswbands nlwbands : Int) (hp : 0 < packn)
    (hnow : time_state.t_now = time_state.t_beg_month + time_state.days_this_month / 2)
    (hlen : time_state.days_this_month ≠ 0) :
    (∀ i : Nat, i < ncols_atm.toNat →
      (spa_main_temporal packn P0 time_state pressure_state data_beg data_end
          ncols_atm nswbands nlwbands).ps_src i
        = (pressure_state.ps_this_month i + pressure_state.ps_next_month i) / 2) ∧
    (∀ i kk : Nat, i < ncols_atm.toNat → kk < pressure_state.nlevs.toNat →
      (spa_main_temporal packn P0 time_state pressure_state data_beg data_end
          ncols_atm nswbands nlwbands).ccn3_src i (kk / packn) (kk % packn)
        = (data_beg.CCN3 i (kk / packn) (kk % packn)
            + data_end.CCN3 i (kk / packn) (kk % packn)) / 2) ∧
    (∀ i n kk : Nat, i < ncols_atm.toNat → n < nswbands.toNat →
      kk < pressure_state.nlevs.toNat →
      (spa_main_temporal packn P0 time_state pressure_state data_beg data_end
          ncols_atm nswbands nlwbands).aer_g_sw_src i n (kk / packn) (kk % packn)
        = (data_beg.AER_G_SW i n (kk / packn) (kk % packn)
            + data_end.AER_G_SW i n (kk / packn) (kk % packn)) / 2) ∧
    (∀ i n kk : Nat, i < ncols_atm.toNat → n < nswbands.toNat →
      kk < pressure_state.nlevs.toNat →
      (spa_main_temporal packn P0 time_state pressure_state data_beg data_end
          ncols_atm nswbands nlwbands).aer_ssa_sw_src i n (kk / packn) (kk % packn)
        = (data_beg.AER_SSA_SW i n (kk / packn) (kk % packn)
            + data_end.AER_SSA_SW i n (kk / packn) (kk % packn)) / 2) ∧
    (∀ i n kk : Nat, i < ncols_atm.toNat → n < nswbands.toNat →
      kk < pressure_state.nlevs.toNat →
      (spa_main_temporal packn P0 time_state pressure_state data_beg data_end
          ncols_atm nswbands nlwbands).aer_tau_sw_src i n (kk / packn) (kk % packn)
        = (data_beg.AER_TAU_SW i n (kk / packn) (kk % packn)
            + data_end.AER_TAU_SW i n (kk / packn) (kk % packn)) / 2) ∧
    (∀ i n kk : Nat, i < ncols_atm.toNat → n < nlwbands.toNat →
      kk < pressure_state.nlevs.toNat →
      (spa_main_temporal packn P0 time_state pressure_state data_beg data_end
          ncols_atm nswbands nlwbands).aer_tau_lw_src i n (kk / packn) (kk % packn)
        = (data_beg.AER_TAU_LW i n (kk / packn) (kk % packn)
            + data_end.AER_TAU_LW i n (kk / packn) (kk % packn)) / 2) ∧
    ((∀ i : Nat, pressure_state.ps_this_month i = 100000) →
      (∀ i : Nat, pressure_state.ps_next_month i = 100200) →
      ∀ i : Nat, i < ncols_atm.toNat →
        (spa_main_temporal packn P0 time_state pressure_state data_beg data_end
          ncols_atm nswbands nlwbands).ps_src i = 100100) := by
  have ht : t_norm time_state = 1 / 2 := by
    unfold t_norm
    rw [hnow, add_sub_cancel_left]
    field_simp
    ring
  obtain ⟨h1, h2, h3, h4, h5, h6, _⟩ := temporal_cells packn P0 time_state pressure_state
    data_beg data_end ncols_atm nswbands nlwbands hp
  refine ⟨?_, ?_, ?_, ?_, ?_, ?_, ?_⟩
  · intro i hi
    rw [h1 i hi, ht, linear_interp]; ring
  · intro i kk hi hkk
    rw [h2 i kk hi hkk, ht, linear_interp]; ring
  · intro i n kk hi hn hkk
    rw [h3 i n kk hi hn hkk, ht, linear_interp]; ring
  · intro i n kk hi hn hkk
    rw [h4 i n kk hi hn hkk, ht, linear_interp]; ring
  · intro i n kk hi hn hkk
    rw [h5 i n kk hi hn hkk, ht, linear_interp]; ring
  · intro i n kk hi hn hkk
    rw [h6 i n kk hi hn hkk, ht, linear_interp]; ring
  · intro hb he i hi
    rw [h1 i hi, ht, linear_interp, hb, he]; norm_num

theorem C11_interp_at_midpoint_witness :
    sample_time_mid.t_now = sample_time_mid.t_beg_month + sample_time_mid.days_this_month / 2 ∧
    sample_time_mid.days_this_month ≠ 0 ∧
    (spa_main_temporal 2 100000 sample_time_mid sample_pressure sample_data sample_data_end
      2 1 1).ps_src 1 = 100100 ∧
    (spa_main_temporal 2 100000 sample_time_mid sample_pressure sample_data sample_data_end
      2 1 1).ccn3_src 1 0 1 = (7 + 9) / 2 := by
  have h := C11_interp_at_midpoint 2 100000 sample_time_mid sample_pressure sample_data
    sample_data_end 2 1 1 (by decide) (by norm_num [sample_time_mid]) (by decide)
  exact ⟨by norm_num [sample_time_mid], by decide,
    h.2.2.2.2.2.2 (fun _ => rfl) (fun _ => rfl) 1 (by decide),
    h.2.1 1 1 (by decide) (by decide)⟩

/-! ## Phase 1 of spa_main -/

/-- C12. Phase 1 of `spa_main`: with the single value
`t_norm = (t_now - t_beg_month) / days_this_month`, for every column `i < ncols_atm` the
intermediate arrays are `ps_src i = linear_interp (ps_beg i) (ps_end i) t_norm`,
`ccn3_src (i,k) = linear_interp (CCN3_beg (i,k)) (CCN3_end (i,k)) t_norm`, and the same
element-wise blend for every band and level of `AER_G_SW`, `AER_SSA_SW`, `AER_TAU_SW` and
`AER_TAU_LW`; an element of the result is the same for any two pairs of datasets that agree on
that element. -/
theorem C12_phase1_elementwise (packn : Nat) (P0 : ℚ) (time_state : SPATimeState)
    (pressure_state : SPAPressureState) (data_beg data_end : SPAData)
    (ncols_atm nswbands nlwbands : Int) (hp : 0 < packn) :
    (∀ i : Nat, i < ncols_atm.toNat →
      (spa_main_temporal packn P0 time_state pressure_state data_beg data_end
          ncols_atm nswbands nlwbands).ps_src i
        = linear_interp (pressure_state.ps_this_month i) (pressure_state.ps_next_month i)
            ((time_state.t_now - time_state.t_beg_month) / time_state.days_this_month)) ∧
    (∀ i kk : Nat, i < ncols_atm.toNat → kk < pressure_state.nlevs.toNat →
      (spa_main_temporal packn P0 time_state pressure_state data_beg data_end
          ncols_atm nswbands nlwbands).ccn3_src i (kk / packn) (kk % packn)
        = linear_interp (data_beg.CCN3 i (kk / packn) (kk % packn))
            (data_end.CCN3 i (kk / packn) (kk % packn))
            ((time_state.t_now - time_state.t_beg_month) / time_state.days_this_month)) ∧
    (∀ i n kk : Nat, i < ncols_atm.toNat → n < nswbands.toNat →
      kk < pressure_state.nlevs.toNat →
      (spa_main_temporal packn P0 time_state pressure_state data_beg data_end
          ncols_atm nswbands nlwbands).aer_g_sw_src i n (kk / packn) (kk % packn)
        = linear_interp (data_beg.AER_G_SW i n (kk / packn) (kk % packn))
            (data_end.AER_G_SW i n (kk / packn) (kk % packn))
            ((time_state.t_now - time_state.t_beg_month) / time_state.days_this_month)) ∧
    (∀ i n kk : Nat, i < ncols_atm.toNat → n < nswbands.toNat →
      kk < pressure_state.nlevs.toNat →
      (spa_main_temporal packn P0 time_state pressure_state data_beg data_end
          ncols_atm nswbands nlwbands).aer_ssa_sw_src i n (kk / packn) (kk % packn)
        = linear_interp (data_beg.AER_SSA_SW i n (kk / packn) (kk % packn))
            (data_end.AER_SSA_SW i n (kk / packn) (kk % packn))
            ((time_state.t_now - time_state.t_beg_month) / time_state.days_this_month)) ∧
    (∀ i n kk : Nat, i < ncols_atm.toNat → n < nswbands.toNat →
      kk < pressure_state.nlevs.toNat →
      (spa_main_temporal packn P0 time_state pressure_state data_beg data_end
          ncols_atm nswbands nlwbands).aer_tau_sw_src i n (kk / packn) (kk % packn)
        = linear_interp (data_beg.AER_TAU_SW i n (kk / packn) (kk % packn))
            (data_end.AER_TAU_SW i n (kk / packn) (kk % packn))
            ((time_state.t_now - time_state.t_beg_month) / time_state.days_this_month)) ∧
    (∀ i n kk : Nat, i < ncols_atm.toNat → n < nlwbands.toNat →
      kk < pressure_state.nlevs.toNat →
      (spa_main_temporal packn P0 time_state pressure_state data_beg data_end
          ncols_atm nswbands nlwbands).aer_tau_lw_src i n (kk / packn) (kk % packn)
        = linear_interp (data_beg.AER_TAU_LW i n (kk / packn) (kk % packn))
            (data_end.AER_TAU_LW i n (kk / packn) (kk % packn))
            ((time_state.t_now - time_state.t_beg_month) / time_state.days_this_month)) ∧
    (∀ (data_beg2 data_end2 : SPAData) (i kk : Nat), i < ncols_atm.toNat →
      kk < pressure_state.nlevs.toNat →
      data_beg2.CCN3 i (kk / packn) (kk % packn) = data_beg.CCN3 i (kk / packn) (kk % packn) →
      data_end2.CCN3 i (kk / packn) (kk % packn) = data_end.CCN3 i (kk / packn) (kk % packn) →
      (spa_main_temporal packn P0 time_state pressure_state data_beg2 data_end2
          ncols_atm nswbands nlwbands).ccn3_src i (kk / packn) (kk % packn)
        = (spa_main_temporal packn P0 time_state pressure_state data_beg data_end
          ncols_atm nswbands nlwbands).ccn3_src i (kk / packn) (kk % packn)) ∧
    (∀ (data_beg2 data_end2 : SPAData) (i n kk : Nat), i < ncols_atm.toNat →
      n < nswbands.toNat → kk < pressure_state.nlevs.toNat →
      data_beg2.AER_G_SW i n (kk / packn) (kk % packn)
        = data_beg.AER_G_SW i n (kk / packn) (kk % packn) →
      data_end2.AER_G_SW i n (kk / packn) (kk % packn)
        = data_end.AER_G_SW i n (kk / packn) (kk % packn) →
      (spa_main_temporal packn P0 time_state pressure_state data_beg2 data_end2
          ncols_atm nswbands nlwbands).aer_g_sw_src i n (kk / packn) (kk % packn)
        = (spa_main_temporal packn P0 time_state pressure_state data_beg data_end
          ncols_atm nswbands nlwbands).aer_g_sw_src i n (kk / packn) (kk % packn)) ∧
    (∀ (data_beg2 data_end2 : SPAData) (i n kk : Nat), i < ncols_atm.toNat →
      n < nswbands.toNat → kk < pressure_state.nlevs.toNat →
      data_beg2.AER_SSA_SW i n (kk / packn) (kk % packn)
        = data_beg.AER_SSA_SW i n (kk / packn) (kk % packn) →
      data_end2.AER_SSA_SW i n (kk / packn) (kk % packn)
        = data_end.AER_SSA_SW i n (kk / packn) (kk % packn) →
      (spa_main_temporal packn P0 time_state pressure_state data_beg2 data_end2
          ncols_atm nswbands nlwbands).aer_ssa_sw_src i n (kk / packn) (kk % packn)
        = (spa_main_temporal packn P0 time_state pressure_state data_beg data_end
          ncols_atm nswbands nlwbands).aer_ssa_sw_src i n (kk / packn) (kk % packn)) ∧
    (∀ (data_beg2 data_end2 : SPAData) (i n kk : Nat), i < ncols_atm.toNat →
      n < nswbands.toNat → kk < pressure_state.nlevs.toNat →
      data_beg2.AER_TAU_SW i n (kk / packn) (kk % packn)
        = data_beg.AER_TAU_SW i n (kk / packn) (kk % packn) →
      data_end2.AER_TAU_SW i n (kk / packn) (kk % packn)
        = data_end.AER_TAU_SW i n (kk / packn) (kk % packn) →
      (spa_main_temporal packn P0 time_state pressure_state data_beg2 data_end2
          ncols_atm nswbands nlwbands).aer_tau_sw_src i n (kk / packn) (kk % packn)
        = (spa_main_temporal packn P0 time_state pressure_state data_beg data_end
          ncols_atm nswbands nlwbands).aer_tau_sw_src i n (kk / packn) (kk % packn)) ∧
    (∀ (data_beg2 data_end2 : SPAData) (i n kk : Nat), i < ncols_atm.toNat →
      n < nlwbands.toNat → kk < pressure_state.nlevs.toNat →
      data_beg2.AER_TAU_LW i n (kk / packn) (kk % packn)
        = data_beg.AER_TAU_LW i n (kk / packn) (kk % packn) →
      data_end2.AER_TAU_LW i n (kk / packn) (kk % packn)
        = data_end.AER_TAU_LW i n (kk / packn) (kk % packn) →
      (spa_main_temporal packn P0 time_state pressure_state data_beg2 data_end2
          ncols_atm nswbands nlwbands).aer_tau_lw_src i n (kk / packn) (kk % packn)
        = (spa_main_temporal packn P0 time_state pressure_state data_beg data_end
          ncols_atm nswbands nlwbands).aer_tau_lw_src i n (kk / packn) (kk % packn)) := by
  obtain ⟨h1, h2, h3, h4, h5, h6, _⟩ := temporal_cells packn P0 time_state pressure_state
    data_beg data_end ncols_atm nswbands nlwbands hp
  refine ⟨h1, h2, h3, h4, h5, h6, ?_, ?_, ?_, ?_, ?_⟩
  · intro b2 e2 i kk hi hkk hb he
    rw [h2 i kk hi hkk, (temporal_cells packn P0 time_state pressure_state
      b2 e2 ncols_atm nswbands nlwbands hp).2.1 i kk hi hkk, hb, he]
  · intro b2 e2 i n kk hi hn hkk hb he
    rw [h3 i n kk hi hn hkk, (temporal_cells packn P0 time_state pressure_state
      b2 e2 ncols_atm nswbands nlwbands hp).2.2.1 i n kk hi hn hkk, hb, he]
  · intro b2 e2 i n kk hi hn hkk hb he
    rw [h4 i n kk hi hn hkk, (temporal_cells packn P0 time_state pressure_state
      b2 e2 ncols_atm nswbands nlwbands hp).2.2.2.1 i n kk hi hn hkk, hb, he]
  · intro b2 e2 i n kk hi hn hkk hb he
    rw [h5 i n kk hi hn hkk, (temporal_cells packn P0 time_state pressure_state
      b2 e2 ncols_atm nswbands nlwbands hp).2.2.2.2.1 i n kk hi hn hkk, hb, he]
  · intro b2 e2 i n kk hi hn hkk hb he
    rw [h6 i n kk hi hn hkk, (temporal_cells packn P0 time_state pressure_state
      b2 e2 ncols_atm nswbands nlwbands hp).2.2.2.2.2.1 i n kk hi hn hkk, hb, he]

theorem C12_phase1_elementwise_witness :
    (0 : Nat) < 2 ∧
    (spa_main_temporal 2 100000 sample_time_mid sample_pressure sample_data sample_data_end
      2 1 1).ccn3_src 1 0 1 = linear_interp 7 9 ((51 / 2 - 10) / 31) ∧
    (spa_main_temporal 2 100000 sample_time_mid sample_pressure sample_data sample_data_end
      2 1 1).aer_tau_lw_src 1 0 0 1 = linear_interp 7 9 ((51 / 2 - 10) / 31) := by
  have h := C12_phase1_elementwise 2 100000 sample_time_mid sample_pressure sample_data
    sample_data_end 2 1 1 (by decide)
  exact ⟨by decide, h.2.1 1 1 (by decide) (by decide),
    h.2.2.2.2.2.1 1 0 1 (by decide) (by decide) (by decide)⟩

/-- C13. Source pressure profile in `spa_main`: for every column `i < ncols_atm` and every
source level `k`, `p_src (i,k) = ps_src i * hybm k + P0 * hyam k`, where `ps_src i` is the
temporally interpolated surface pressure of column `i` and `hyam`, `hybm` are read at the same
index `k` as the level written. -/
theorem C13_source_pressure_profile (packn : Nat) (P0 : ℚ) (time_state : SPATimeState)
    (pressure_state : SPAPressureState) (data_beg data_end : SPAData)
    (ncols_atm nswbands nlwbands : Int) (hp : 0 < packn) :
    ∀ i kk : Nat, i < ncols_atm.toNat → kk < pressure_state.nlevs.toNat →
      (spa_main_temporal packn P0 time_state pressure_state data_beg data_end
          ncols_atm nswbands nlwbands).p_src i (kk / packn) (kk % packn)
        = (spa_main_temporal packn P0 time_state pressure_state data_beg data_end
          ncols_atm nswbands nlwbands).ps_src i
            * pressure_state.hybm (kk / packn) (kk % packn)
          + P0 * pressure_state.hyam (kk / packn) (kk % packn) ∧
      (spa_main_temporal packn P0 time_state pressure_state data_beg data_end
          ncols_atm nswbands nlwbands).ps_src i
        = linear_interp (pressure_state.ps_this_month i) (pressure_state.ps_next_month i)
            ((time_state.t_now - time_state.t_beg_month) / time_state.days_this_month) := by
  intro i kk hi hkk
  obtain ⟨h1, _, _, _, _, _, h7⟩ := temporal_cells packn P0 time_state pressure_state
    data_beg data_end ncols_atm nswbands nlwbands hp
  exact ⟨h7 i kk hi hkk, h1 i hi⟩

theorem C13_source_pressure_profile_witness :
    (0 : Nat) < 2 ∧
    (spa_main_temporal 2 100000 sample_time_mid sample_pressure sample_data sample_data_end
      2 1 1).p_src 1 0 1
      = (spa_main_temporal 2 100000 sample_time_mid sample_pressure sample_data
          sample_data_end 2 1 1).ps_src 1 * sample_pressure.hybm 0 1
        + 100000 * sample_pressure.hyam 0 1 :=
  ⟨by decide, (C13_source_pressure_profile 2 100000 sample_time_mid sample_pressure sample_data
    sample_data_end 2 1 1 (by decide) 1 1 (by decide) (by decide)).1⟩

/-! ## update_spa_timestate: outcome -/

theorem update_nlevs_irrelevant (packn : Nat) (file : SPADataFile)
    (time_index nswbands nlwbands : Int) (hi : SPAHorizInterp) (d : SPAData) (x : Int) :
    update_spa_data_from_file packn file time_index nswbands nlwbands
        { hi with source_grid_nlevs := x } d
      = update_spa_data_from_file packn file time_index nswbands nlwbands hi d := rfl

theorem timestate_same (packn : Nat) (julian_day : Int → Int → Int → Int → ℚ)
    (file : SPADataFile) (time_index nswbands nlwbands : Int) (ts : TimeStamp) (st : SPAState)
    (h : ts.months = st.time_state.current_month) :
    update_spa_timestate packn julian_day file time_index nswbands nlwbands ts st
      = ⟨none, { st with time_state := { st.time_state with t_now := ts.julian_day } }⟩ := by
  simp [update_spa_timestate, h]

theorem timestate_roll_time (packn : Nat) (julian_day : Int → Int → Int → Int → ℚ)
    (file : SPADataFile) (time_index nswbands nlwbands : Int) (ts : TimeStamp) (st : SPAState)
    (h : ts.months ≠ st.time_state.current_month) :
    (update_spa_timestate packn julian_day file time_index nswbands nlwbands ts
        st).state.time_state
      = { current_month := ts.months
          t_beg_month := julian_day ts.years ts.months 0 0
          days_this_month := (ts.dpm : ℚ)
          t_now := ts.julian_day } ∧
    ∃ rest, (update_spa_timestate packn julian_day file time_index nswbands nlwbands ts
        st).state.loads = st.loads ++ ts.months :: rest := by
  unfold update_spa_timestate
  simp only [ne_eq, h, not_false_eq_true, if_true]
  cases hr : (update_spa_data_from_file packn file ts.months nswbands nlwbands
      st.spa_horiz_interp st.spa_beg_data).error with
  | none => exact ⟨rfl, [next_month ts.months], by simp⟩
  | some e => exact ⟨rfl, [], rfl⟩

theorem timestate_roll_ok (packn : Nat) (julian_day : Int → Int → Int → Int → ℚ)
    (file : SPADataFile) (time_index nswbands nlwbands : Int) (ts : TimeStamp) (st : SPAState)
    (h : ts.months ≠ st.time_state.current_month)
    (hsw : nswbands = file.swband) (hlw : nlwbands = file.lwband)
    (hcol : file.ncol = st.spa_horiz_interp.source_grid_ncols) :
    update_spa_timestate packn julian_day file time_index nswbands nlwbands ts st
      = ⟨none,
          { time_state :=
              { current_month := ts.months
                t_beg_month := julian_day ts.years ts.months 0 0
                days_this_month := (ts.dpm : ℚ)
                t_now := ts.julian_day }
            spa_horiz_interp := { st.spa_horiz_interp with source_grid_nlevs := file.lev }
            spa_beg_data := loaded packn file ts.months nswbands nlwbands
              st.spa_horiz_interp st.spa_beg_data
            spa_end_data := loaded packn file (next_month ts.months) nswbands nlwbands
              st.spa_horiz_interp st.spa_end_data
            spa_beg := st.spa_beg
            spa_end := st.spa_end
            loads := st.loads ++ [ts.months, next_month ts.months] }⟩ := by
  have e1 := update_ok packn file ts.months nswbands nlwbands st.spa_horiz_interp
    st.spa_beg_data hsw hlw hcol
  have e2 := update_ok packn file (next_month ts.months) nswbands nlwbands
    st.spa_horiz_interp st.spa_end_data hsw hlw hcol
  unfold update_spa_timestate
  simp only [ne_eq, h, not_false_eq_true, if_true, e1, update_nlevs_irrelevant, e2, loaded,
    List.append_assoc, List.singleton_append]

/-! ## update_spa_timestate: the claims -/

/-- C14. `update_spa_timestate` reloads exactly when the month changes.  When
`ts.get_months()` equals the stored `current_month` nothing but `t_now` changes: no load is
called and `current_month`, `t_beg_month`, `days_this_month` and the datasets are as before.
When it differs, `current_month`, `t_beg_month` and `days_this_month` are rewritten and the
load of the begin dataset is called; with a file whose dimensions agree both loads are called
and succeed.  A load is called if and only if the month differs. -/
theorem C14_reload_iff_month_changes (packn : Nat) (julian_day : Int → Int → Int → Int → ℚ)
    (file : SPADataFile) (time_index nswbands nlwbands : Int) (ts : TimeStamp)
    (st : SPAState) :
    (ts.months = st.time_state.current_month →
      (update_spa_timestate packn julian_day file time_index nswbands nlwbands ts st).error
        = none ∧
      (update_spa_timestate packn julian_day file time_index nswbands nlwbands ts st).state
        = { st with time_state := { st.time_state with t_now := ts.julian_day } }) ∧
    (ts.months ≠ st.time_state.current_month →
      (update_spa_timestate packn julian_day file time_index nswbands nlwbands ts
          st).state.time_state
        = { current_month := ts.months
            t_beg_month := julian_day ts.years ts.months 0 0
            days_this_month := (ts.dpm : ℚ)
            t_now := ts.julian_day } ∧
      (∃ rest, (update_spa_timestate packn julian_day file time_index nswbands nlwbands ts
          st).state.loads = st.loads ++ ts.months :: rest) ∧
      (nswbands = file.swband → nlwbands = file.lwband →
        file.ncol = st.spa_horiz_interp.source_grid_ncols →
        (update_spa_timestate packn julian_day file time_index nswbands nlwbands ts
            st).error = none ∧
        (update_spa_timestate packn julian_day file time_index nswbands nlwbands ts
            st).state.loads = st.loads ++ [ts.months, next_month ts.months] ∧
        (update_spa_timestate packn julian_day file time_index nswbands nlwbands ts
            st).state.spa_beg_data
          = loaded packn file ts.months nswbands nlwbands st.spa_horiz_interp
              st.spa_beg_data ∧
        (update_spa_timestate packn julian_day file time_index nswbands nlwbands ts
            st).state.spa_end_data
          = loaded packn file (next_month ts.months) nswbands nlwbands st.spa_horiz_interp
              st.spa_end_data)) ∧
    ((update_spa_timestate packn julian_day file time_index nswbands nlwbands ts
        st).state.loads = st.loads ↔ ts.months = st.time_state.current_month) := by
  refine ⟨?_, ?_, ?_⟩
  · intro h
    rw [timestate_same packn julian_day file time_index nswbands nlwbands ts st h]
    exact ⟨rfl, rfl⟩
  · intro h
    obtain ⟨h1, h2⟩ :=
      timestate_roll_time packn julian_day file time_index nswbands nlwbands ts st h
    refine ⟨h1, h2, ?_⟩
    intro hsw hlw hcol
    rw [timestate_roll_ok packn julian_day file time_index nswbands nlwbands ts st h
      hsw hlw hcol]
    exact ⟨rfl, rfl, rfl, rfl⟩
  · constructor
    · intro hl
      by_contra h
      obtain ⟨_, rest, h2⟩ :=
        timestate_roll_time packn julian_day file time_index nswbands nlwbands ts st h
      rw [hl] at h2
      have := congrArg List.length h2
      simp at this
    · intro h
      rw [timestate_same packn julian_day file time_index nswbands nlwbands ts st h]

theorem C14_reload_iff_month_changes_witness :
    sample_ts_feb_1900.months ≠ sample_state.time_state.current_month ∧
    (update_spa_timestate 2 sample_julian_day sample_file 0 1 1 sample_ts_feb_1900
      sample_state).state.loads = [2, 3] ∧
    sample_ts_feb_1900.months
      = (update_spa_timestate 2 sample_julian_day sample_file 0 1 1 sample_ts_feb_1900
          sample_state).state.time_state.current_month ∧
    (update_spa_timestate 2 sample_julian_day sample_file 0 1 1 sample_ts_feb_1900
      (update_spa_timestate 2 sample_julian_day sample_file 0 1 1 sample_ts_feb_1900
        sample_state).state).state.loads = [2, 3] := by
  have h1 := (C14_reload_iff_month_changes 2 sample_julian_day sample_file 0 1 1
    sample_ts_feb_1900 sample_state).2.1 (by decide)
  have h2 := h1.2.2 rfl rfl rfl
  have hm : sample_ts_feb_1900.months
      = (update_spa_timestate 2 sample_julian_day sample_file 0 1 1 sample_ts_feb_1900
          sample_state).state.time_state.current_month := by rw [h1.1]
  have h3 := (C14_reload_iff_month_changes 2 sample_julian_day sample_file 0 1 1
    sample_ts_feb_1900
    (update_spa_timestate 2 sample_julian_day sample_file 0 1 1 sample_ts_feb_1900
      sample_state).state).1 hm
  refine ⟨by decide, h2.2.1, hm, ?_⟩
  rw [h3.2]
  exact h2.2.1

/-- C15. `update_spa_timestate` sets `t_now` to `ts.get_julian_day()` on every call, whether
or not the month changed and whether or not a load failed. -/
theorem C15_t_now_always_set (packn : Nat) (julian_day : Int → Int → Int → Int → ℚ)
    (file : SPADataFile) (time_index nswbands nlwbands : Int) (ts : TimeStamp)
    (st : SPAState) :
    (update_spa_timestate packn julian_day file time_index nswbands nlwbands ts
      st).state.time_state.t_now = ts.julian_day := by
  by_cases h : ts.months = st.time_state.current_month
  · rw [timestate_same packn julian_day file time_index nswbands nlwbands ts st h]
  · rw [(timestate_roll_time packn julian_day file time_index nswbands nlwbands ts st h).1]

/-- C16. Next-month arithmetic of `update_spa_timestate`: for every `current_month` `m` in
`1..12` the next-month index is 1 when `m = 12` and `m + 1` otherwise; it lies in `1..12` and
differs from `m`. -/
theorem C16_next_month_wraps (m : Int) (h1 : 1 ≤ m) (h12 : m ≤ 12) :
    next_month m = (if m = 12 then 1 else m + 1) ∧
    1 ≤ next_month m ∧ next_month m ≤ 12 ∧ next_month m ≠ m := by
  unfold next_month
  refine ⟨rfl, ?_⟩
  by_cases h : m = 12
  · rw [if_pos h]; omega
  · rw [if_neg h]; omega

theorem C16_next_month_wraps_witness :
    (1 : Int) ≤ 12 ∧ (12 : Int) ≤ 12 ∧ next_month 12 = 1 ∧ next_month 12 ≠ 12 :=
  ⟨by decide, by decide, (C16_next_month_wraps 12 (by decide) (by decide)).1,
    (C16_next_month_wraps 12 (by decide) (by decide)).2.2.2⟩

/-- The surface pressure of column 0 that a load of month 2 from the sample file writes. -/
theorem sample_month_two_PS :
    (loaded 2 sample_file 2 1 1 sample_identity sample_data).PS 0 = 100002 := by
  rw [loaded_ok 2 sample_file 2 1 1 sample_identity sample_data rfl rfl rfl,
    remap_data_PS_sum,
    triplets_onto_single _ 0 0 (by decide) rfl (fun idx' _ h => by
      simpa [sample_identity] using h),
    Finset.sum_singleton]
  norm_num [sample_file, sample_identity]

/-- C17 (the code at work). On a month rollover, with a file whose dimensions agree,
`update_spa_timestate` calls the loader twice, first with time index `ts.get_months()` and then
with the next-month index, whatever its `time_index` argument, and leaves
`current_month = ts.get_months()`.  The two loads are handed the objects that the body names
`spa_beg_data` and `spa_end_data`, each loaded from its own previous contents; the datasets
that the routine takes by reference, `spa_beg` and `spa_end`, are not written: after the call
they hold what they held before it. -/
theorem C17_rollover_leaves_arguments (packn : Nat)
    (julian_day : Int → Int → Int → Int → ℚ)
    (file : SPADataFile) (time_index nswbands nlwbands : Int) (ts : TimeStamp)
    (st : SPAState) (h : ts.months ≠ st.time_state.current_month)
    (hsw : nswbands = file.swband) (hlw : nlwbands = file.lwband)
    (hcol : file.ncol = st.spa_horiz_interp.source_grid_ncols) :
    (update_spa_timestate packn julian_day file time_index nswbands nlwbands ts st).error
      = none ∧
    (update_spa_timestate packn julian_day file time_index nswbands nlwbands ts
        st).state.loads = st.loads ++ [ts.months, next_month ts.months] ∧
    (update_spa_timestate packn julian_day file time_index nswbands nlwbands ts
        st).state.time_state.current_month = ts.months ∧
    (∀ time_index2 : Int,
      update_spa_timestate packn julian_day file time_index2 nswbands nlwbands ts st
        = update_spa_timestate packn julian_day file time_index nswbands nlwbands ts st) ∧
    (update_spa_timestate packn julian_day file time_index nswbands nlwbands ts
        st).state.spa_beg_data
      = loaded packn file ts.months nswbands nlwbands st.spa_horiz_interp st.spa_beg_data ∧
    (update_spa_timestate packn julian_day file time_index nswbands nlwbands ts
        st).state.spa_end_data
      = loaded packn file (next_month ts.months) nswbands nlwbands st.spa_horiz_interp
          st.spa_end_data ∧
    (update_spa_timestate packn julian_day file time_index nswbands nlwbands ts
        st).state.spa_beg = st.spa_beg ∧
    (update_spa_timestate packn julian_day file time_index nswbands nlwbands ts
        st).state.spa_end = st.spa_end := by
  rw [timestate_roll_ok packn julian_day file time_index nswbands nlwbands ts st h
    hsw hlw hcol]
  exact ⟨rfl, rfl, rfl, fun time_index2 =>
    timestate_roll_ok packn julian_day file time_index2 nswbands nlwbands ts st h hsw hlw hcol,
    rfl, rfl, rfl, rfl⟩

/-- Witness for C17: the call for 14 February 1900 on a state that has loaded no month yet.
The two loads are issued with indices 2 and 3, and the dataset handed in as `spa_beg` still
has surface pressure 7 in column 0, where a load of month 2 writes 100002. -/
theorem C17_rollover_leaves_arguments_witness :
    sample_ts_feb_1900.months ≠ sample_state.time_state.current_month ∧
    (update_spa_timestate 2 sample_julian_day sample_file 0 1 1 sample_ts_feb_1900
      sample_state).state.loads = [2, 3] ∧
    (update_spa_timestate 2 sample_julian_day sample_file 0 1 1 sample_ts_feb_1900
      sample_state).state.spa_beg.PS 0 = 7 ∧
    (update_spa_timestate 2 sample_julian_day sample_file 0 1 1 sample_ts_feb_1900
      sample_state).state.spa_end.PS 0 = 7 ∧
    (loaded 2 sample_file 2 1 1 sample_identity sample_state.spa_beg).PS 0 = 100002 := by
  have h := C17_rollover_leaves_arguments 2 sample_julian_day sample_file 0 1 1
    sample_ts_feb_1900 sample_state (by decide) rfl rfl rfl
  refine ⟨by decide, h.2.1, ?_, ?_, sample_month_two_PS⟩
  · rw [h.2.2.2.2.2.2.1]; rfl
  · rw [h.2.2.2.2.2.2.2]; rfl

/-- C18 (as stated, refuted). Two calls in a row for the same month number, 14 February 1900
and then 29 February 1904 at noon, each timestamp lying in its own month: the first call rolls
over and leaves `t_beg_month = 31`, `days_this_month = 28`, `t_now = 45`, inside the bracket;
the second sees month 2 again, rewrites only `t_now = 59.5`, and `t_now < t_beg_month +
days_this_month` fails (`59.5 ≥ 59`), so `t_norm ≥ 1`. -/
theorem C18_bracket_broken_by_same_month_call :
    (sample_julian_day sample_ts_feb_1900.years sample_ts_feb_1900.months 0 0
        ≤ sample_ts_feb_1900.julian_day ∧
      sample_ts_feb_1900.julian_day
        < sample_julian_day sample_ts_feb_1900.years sample_ts_feb_1900.months 0 0
          + (sample_ts_feb_1900.dpm : ℚ)) ∧
    (sample_julian_day sample_ts_feb_1904.years sample_ts_feb_1904.months 0 0
        ≤ sample_ts_feb_1904.julian_day ∧
      sample_ts_feb_1904.julian_day
        < sample_julian_day sample_ts_feb_1904.years sample_ts_feb_1904.months 0 0
          + (sample_ts_feb_1904.dpm : ℚ)) ∧
    (update_spa_timestate 2 sample_julian_day sample_file 0 1 1 sample_ts_feb_1900
      sample_state).error = none ∧
    (update_spa_timestate 2 sample_julian_day sample_file 0 1 1 sample_ts_feb_1904
      sample_state_feb).error = none ∧
    (sample_state_feb.time_state.t_beg_month ≤ sample_state_feb.time_state.t_now ∧
      sample_state_feb.time_state.t_now
        < sample_state_feb.time_state.t_beg_month
          + sample_state_feb.time_state.days_this_month) ∧
    sample_state_feb_later.time_state.t_beg_month = 31 ∧
    sample_state_feb_later.time_state.days_this_month = 28 ∧
    sample_state_feb_later.time_state.t_now = 119 / 2 ∧
    ¬ (sample_state_feb_later.time_state.t_now
        < sample_state_feb_later.time_state.t_beg_month
          + sample_state_feb_later.time_state.days_this_month) ∧
    ¬ (t_norm sample_state_feb_later.time_state < 1) := by
  have e1 : sample_state_feb.time_state
      = { current_month := 2, t_beg_month := 31, days_this_month := 28, t_now := 45 } := by
    rw [sample_state_feb, (timestate_roll_time 2 sample_julian_day sample_file 0 1 1
      sample_ts_feb_1900 sample_state (by decide)).1]
    simp only [sample_ts_feb_1900, sample_julian_day]
    norm_num
  have hsame : sample_ts_feb_1904.months = sample_state_feb.time_state.current_month := by
    rw [e1]; rfl
  have e2 : sample_state_feb_later.time_state
      = { current_month := 2, t_beg_month := 31, days_this_month := 28, t_now := 119 / 2 } := by
    rw [sample_state_feb_later, timestate_same 2 sample_julian_day sample_file 0 1 1
      sample_ts_feb_1904 sample_state_feb hsame]
    simp only [e1, sample_ts_feb_1904]
  refine ⟨?_, ?_, ?_, ?_, ?_, ?_, ?_, ?_, ?_, ?_⟩
  · simp only [sample_ts_feb_1900, sample_julian_day]; norm_num
  · simp only [sample_ts_feb_1904, sample_julian_day]; norm_num
  · rw [timestate_roll_ok 2 sample_julian_day sample_file 0 1 1 sample_ts_feb_1900
      sample_state (by decide) rfl rfl rfl]
  · rw [timestate_same 2 sample_julian_day sample_file 0 1 1 sample_ts_feb_1904
      sample_state_feb hsame]
  · rw [e1]; norm_num
  · rw [e2]
  · rw [e2]
  · rw [e2]
  · rw [e2]; norm_num
  · rw [t_norm, e2]; norm_num

/-- C18 (amended). After a call of `update_spa_timestate` on which the month number changed,
if the timestamp lies in its own month, `julian_day(years, months, 0, 0) ≤ get_julian_day() <
julian_day(years, months, 0, 0) + get_dpm()`, then `t_beg_month ≤ t_now < t_beg_month +
days_this_month` and `t_norm` lies in `[0, 1)`.  After a call on which the month number did not
change, `t_beg_month` and `days_this_month` are the stored ones, and the bracket holds exactly
when the timestamp lies in the stored bracket. -/
theorem C18_bracket_after_call (packn : Nat) (julian_day : Int → Int → Int → Int → ℚ)
    (file : SPADataFile) (time_index nswbands nlwbands : Int) (ts : TimeStamp)
    (st : SPAState) :
    (ts.months ≠ st.time_state.current_month →
      julian_day ts.years ts.months 0 0 ≤ ts.julian_day →
      ts.julian_day < julian_day ts.years ts.months 0 0 + (ts.dpm : ℚ) →
      (update_spa_timestate packn julian_day file time_index nswbands nlwbands ts
          st).state.time_state.t_beg_month
        ≤ (update_spa_timestate packn julian_day file time_index nswbands nlwbands ts
            st).state.time_state.t_now ∧
      (update_spa_timestate packn julian_day file time_index nswbands nlwbands ts
          st).state.time_state.t_now
        < (update_spa_timestate packn julian_day file time_index nswbands nlwbands ts
            st).state.time_state.t_beg_month
          + (update_spa_timestate packn julian_day file time_index nswbands nlwbands ts
              st).state.time_state.days_this_month ∧
      0 ≤ t_norm (update_spa_timestate packn julian_day file time_index nswbands nlwbands ts
          st).state.time_state ∧
      t_norm (update_spa_timestate packn julian_day file time_index nswbands nlwbands ts
          st).state.time_state < 1) ∧
    (ts.months = st.time_state.current_month →
      (update_spa_timestate packn julian_day file time_index nswbands nlwbands ts
          st).state.time_state.t_beg_month = st.time_state.t_beg_month ∧
      (update_spa_timestate packn julian_day file time_index nswbands nlwbands ts
          st).state.time_state.days_this_month = st.time_state.days_this_month ∧
      (((update_spa_timestate packn julian_day file time_index nswbands nlwbands ts
            st).state.time_state.t_beg_month
          ≤ (update_spa_timestate packn julian_day file time_index nswbands nlwbands ts
              st).state.time_state.t_now ∧
        (update_spa_timestate packn julian_day file time_index nswbands nlwbands ts
            st).state.time_state.t_now
          < (update_spa_timestate packn julian_day file time_index nswbands nlwbands ts
              st).state.time_state.t_beg_month
            + (update_spa_timestate packn julian_day file time_index nswbands nlwbands ts
                st).state.time_state.days_this_month)
        ↔ (st.time_state.t_beg_month ≤ ts.julian_day ∧
            ts.julian_day < st.time_state.t_beg_month + st.time_state.days_this_month))) := by
  constructor
  · intro h hlo hhi
    rw [(timestate_roll_time packn julian_day file time_index nswbands nlwbands ts st h).1]
    have hpos : (0 : ℚ) < (ts.dpm : ℚ) := by linarith
    refine ⟨hlo, hhi, ?_, ?_⟩
    · exact div_nonneg (by simpa using hlo) hpos.le
    · rw [t_norm, div_lt_one hpos]
      simp only
      linarith
  · intro h
    rw [timestate_same packn julian_day file time_index nswbands nlwbands ts st h]
    exact ⟨rfl, rfl, Iff.rfl⟩

theorem C18_bracket_after_call_witness :
    sample_ts_feb_1900.months ≠ sample_state.time_state.current_month ∧
    (0 : ℚ) ≤ t_norm (update_spa_timestate 2 sample_julian_day sample_file 0 1 1
      sample_ts_feb_1900 sample_state).state.time_state ∧
    t_norm (update_spa_timestate 2 sample_julian_day sample_file 0 1 1
      sample_ts_feb_1900 sample_state).state.time_state < 1 := by
  have h := (C18_bracket_after_call 2 sample_julian_day sample_file 0 1 1 sample_ts_feb_1900
    sample_state).1 (by decide)
    (by simp only [sample_ts_feb_1900, sample_julian_day]; norm_num)
    (by simp only [sample_ts_feb_1900, sample_julian_day]; norm_num)
  exact ⟨by decide, h.2.2.1, h.2.2.2⟩

/-! ## spa_main: the column-count check -/

theorem spa_main_fail (packn : Nat) (P0 : ℚ) (time_state : SPATimeState)
    (pressure_state : SPAPressureState) (data_beg data_end : SPAData) (data_out : SPAOutput)
    (ncols_atm nlevs_atm nswbands nlwbands : Int) (h : ncols_atm ≠ pressure_state.ncols) :
    spa_main packn P0 time_state pressure_state data_beg data_end data_out
        ncols_atm nlevs_atm nswbands nlwbands
      = ⟨some .ncols_atm_mismatch, data_out⟩ := by
  simp [spa_main, h]

theorem spa_main_error_none (packn : Nat) (P0 : ℚ) (time_state : SPATimeState)
    (pressure_state : SPAPressureState) (data_beg data_end : SPAData) (data_out : SPAOutput)
    (ncols_atm nlevs_atm nswbands nlwbands : Int) (h : ncols_atm = pressure_state.ncols) :
    (spa_main packn P0 time_state pressure_state data_beg data_end data_out
        ncols_atm nlevs_atm nswbands nlwbands).error = none := by
  simp [spa_main, h]

/-- C19 (as stated, refuted). The pressure state and the end dataset have 2 columns, the begin
dataset 3, and `spa_main` called with `ncols_atm = 2` raises no error. -/
theorem C19_unequal_dataset_columns_accepted :
    sample_pressure.ncols = 2 ∧ sample_data_three_cols.ncols = 3 ∧
    sample_data_end.ncols = 2 ∧
    (spa_main 2 100000 sample_time_mid sample_pressure sample_data_three_cols sample_data_end
      sample_output 2 2 1 1).error = none :=
  ⟨rfl, rfl, rfl, spa_main_error_none 2 100000 sample_time_mid sample_pressure
    sample_data_three_cols sample_data_end sample_output 2 2 1 1 rfl⟩

/-- C19 (amended). `spa_main` fails, with the column-count error, if and only if `ncols_atm`
differs from `pressure_state.ncols`, whatever the column counts of the begin and end datasets;
when it fails `data_out` is left as it was. -/
theorem C19_fails_iff_ncols_atm_mismatch (packn : Nat) (P0 : ℚ) (time_state : SPATimeState)
    (pressure_state : SPAPressureState) (data_beg data_end : SPAData) (data_out : SPAOutput)
    (ncols_atm nlevs_atm nswbands nlwbands : Int) :
    ((spa_main packn P0 time_state pressure_state data_beg data_end data_out
        ncols_atm nlevs_atm nswbands nlwbands).error = some SPAError.ncols_atm_mismatch
      ↔ ncols_atm ≠ pressure_state.ncols) ∧
    ((spa_main packn P0 time_state pressure_state data_beg data_end data_out
        ncols_atm nlevs_atm nswbands nlwbands).error = none
      ↔ ncols_atm = pressure_state.ncols) ∧
    (ncols_atm ≠ pressure_state.ncols →
      (spa_main packn P0 time_state pressure_state data_beg data_end data_out
        ncols_atm nlevs_atm nswbands nlwbands).state = data_out) := by
  by_cases h : ncols_atm = pressure_state.ncols
  · have e := spa_main_error_none packn P0 time_state pressure_state data_beg data_end
      data_out ncols_atm nlevs_atm nswbands nlwbands h
    rw [e]
    simp [h]
  · rw [spa_main_fail packn P0 time_state pressure_state data_beg data_end data_out
      ncols_atm nlevs_atm nswbands nlwbands h]
    simp [h]

theorem C19_fails_iff_ncols_atm_mismatch_witness :
    (3 : Int) ≠ sample_pressure.ncols ∧
    (spa_main 2 100000 sample_time_mid sample_pressure sample_data sample_data_end
      sample_output 3 2 1 1).state = sample_output :=
  ⟨by decide, (C19_fails_iff_ncols_atm_mismatch 2 100000 sample_time_mid sample_pressure
    sample_data sample_data_end sample_output 3 2 1 1).2.2 (by decide)⟩

/-! ## The vertical interpolator at a source level -/

theorem linear_interp_zero (a b : ℚ) : linear_interp a b 0 = a := by
  unfold linear_interp; ring

theorem linear_interp_one (a b : ℚ) : linear_interp a b 1 = b := by
  unfold linear_interp; ring

theorem bracket_blend_before (x1 y1 : Nat → ℚ) (km1 j : Nat) (hj : j < km1)
    (hmono : ∀ a b : Nat, a < b → b < km1 → x1 a < x1 b) :
    ∀ d k fuel : Nat, k + d + 1 = j → k + fuel + 1 = km1 →
      bracket_blend x1 y1 (x1 j) fuel k = y1 j := by
  intro d
  induction d with
  | zero =>
    intro k fuel hk hf
    obtain ⟨f, rfl⟩ : ∃ f, fuel = f + 1 := ⟨fuel - 1, by omega⟩
    have hkj : k + 1 = j := by omega
    have hlt : x1 k < x1 j := hmono k j (by omega) hj
    unfold bracket_blend
    rw [if_pos ⟨hlt.le, by rw [hkj]⟩, hkj, div_self (sub_ne_zero.2 hlt.ne'),
      linear_interp_one]
  | succ d ih =>
    intro k fuel hk hf
    obtain ⟨f, rfl⟩ : ∃ f, fuel = f + 1 := ⟨fuel - 1, by omega⟩
    have hlt : x1 (k + 1) < x1 j := hmono (k + 1) j (by omega) hj
    unfold bracket_blend
    rw [if_neg (fun h => absurd h.2 (not_le.2 hlt))]
    exact ih (k + 1) f (by omega) (by omega)

theorem bracket_blend_first (x1 y1 : Nat → ℚ) (km1 : Nat) (h0 : 0 < km1)
    (hmono : ∀ a b : Nat, a < b → b < km1 → x1 a < x1 b) :
    bracket_blend x1 y1 (x1 0) (km1 - 1) 0 = y1 0 := by
  cases hf : km1 - 1 with
  | zero => rfl
  | succ f =>
    have hlt : x1 0 < x1 1 := hmono 0 1 (by decide) (by omega)
    unfold bracket_blend
    rw [if_pos ⟨le_refl _, hlt.le⟩, sub_self, zero_div, linear_interp_zero]

theorem lin_interp_level_at_node (minthreshold : ℚ) (km1 : Nat) (x1 y1 : Nat → ℚ) (j : Nat)
    (hj : j < km1) (hmono : ∀ a b : Nat, a < b → b < km1 → x1 a < x1 b) :
    lin_interp_level minthreshold km1 x1 y1 (x1 j) = max (y1 j) minthreshold := by
  have hlow : ¬ x1 j < x1 0 := by
    cases j with
    | zero => exact lt_irrefl _
    | succ j => exact not_lt.2 (hmono 0 (j + 1) (by omega) hj).le
  have hhigh : ¬ x1 (km1 - 1) < x1 j := by
    by_cases e : j = km1 - 1
    · rw [e]; exact lt_irrefl _
    · exact not_lt.2 (hmono j (km1 - 1) (by omega) (by omega)).le
  unfold lin_interp_level
  simp only [if_neg hlow, if_neg hhigh]
  cases j with
  | zero => rw [bracket_blend_first x1 y1 km1 hj hmono]
  | succ j => rw [bracket_blend_before x1 y1 km1 (j + 1) hj hmono j 0 (km1 - 1) (by omega)
      (by omega)]

theorem lin_interp_level_below (minthreshold : ℚ) (km1 : Nat) (x1 y1 : Nat → ℚ) (x : ℚ)
    (h : x < x1 0) : lin_interp_level minthreshold km1 x1 y1 x = max (y1 0) minthreshold := by
  unfold lin_interp_level
  simp only [if_pos h]

/-! ## spa_main: the output, cell by cell -/

theorem spa_main_cells (packn : Nat) (P0 : ℚ) (time_state : SPATimeState)
    (pressure_state : SPAPressureState) (data_beg data_end : SPAData) (data_out : SPAOutput)
    (ncols_atm nlevs_atm nswbands nlwbands : Int) (hp : 0 < packn)
    (hcols : ncols_atm = pressure_state.ncols)
    (i kk : Nat) (hi : i < ncols_atm.toNat) (hkk : kk < nlevs_atm.toNat) :
    (spa_main packn P0 time_state pressure_state data_beg data_end data_out
          ncols_atm nlevs_atm nswbands nlwbands).state.CCN3 i (kk / packn) (kk % packn)
      = lin_interp_level 0 pressure_state.nlevs.toNat
          (unpack packn ((spa_main_temporal packn P0 time_state pressure_state data_beg data_end
          ncols_atm nswbands nlwbands).p_src i))
          (unpack packn ((spa_main_temporal packn P0 time_state pressure_state data_beg data_end
          ncols_atm nswbands nlwbands).ccn3_src i))
          (pressure_state.pmid i (kk / packn) (kk % packn)) ∧
    (∀ n : Nat, n < nswbands.toNat →
      (spa_main packn P0 time_state pressure_state data_beg data_end data_out
          ncols_atm nlevs_atm nswbands nlwbands).state.AER_G_SW i n (kk / packn) (kk % packn)
        = lin_interp_level 0 pressure_state.nlevs.toNat
            (unpack packn ((spa_main_temporal packn P0 time_state pressure_state data_beg data_end
          ncols_atm nswbands nlwbands).p_src i))
            (unpack packn ((spa_main_temporal packn P0 time_state pressure_state data_beg data_end
          ncols_atm nswbands nlwbands).aer_g_sw_src i n))
            (pressure_state.pmid i (kk / packn) (kk % packn))) ∧
    (∀ n : Nat, n < nswbands.toNat →
      (spa_main packn P0 time_state pressure_state data_beg data_end data_out
          ncols_atm nlevs_atm nswbands nlwbands).state.AER_SSA_SW i n (kk / packn) (kk % packn)
        = lin_interp_level 0 pressure_state.nlevs.toNat
            (unpack packn ((spa_main_temporal packn P0 time_state pressure_state data_beg data_end
          ncols_atm nswbands nlwbands).p_src i))
            (unpack packn ((spa_main_temporal packn P0 time_state pressure_state data_beg data_end
          ncols_atm nswbands nlwbands).aer_ssa_sw_src i n))
            (pressure_state.pmid i (kk / packn) (kk % packn))) ∧
    (∀ n : Nat, n < nswbands.toNat →
      (spa_main packn P0 time_state pressure_state data_beg data_end data_out
          ncols_atm nlevs_atm nswbands nlwbands).state.AER_TAU_SW i n (kk / packn) (kk % packn)
        = lin_interp_level 0 pressure_state.nlevs.toNat
            (unpack packn ((spa_main_temporal packn P0 time_state pressure_state data_beg data_end
          ncols_atm nswbands nlwbands).p_src i))
            (unpack packn ((spa_main_temporal packn P0 time_state pressure_state data_beg data_end
          ncols_atm nswbands nlwbands).aer_tau_sw_src i n))
            (pressure_state.pmid i (kk / packn) (kk % packn))) ∧
    (∀ n : Nat, n < nlwbands.toNat →
      (spa_main packn P0 time_state pressure_state data_beg data_end data_out
          ncols_atm nlevs_atm nswbands nlwbands).state.AER_TAU_LW i n (kk / packn) (kk % packn)
        = lin_interp_level 0 pressure_state.nlevs.toNat
            (unpack packn ((spa_main_temporal packn P0 time_state pressure_state data_beg data_end
          ncols_atm nswbands nlwbands).p_src i))
            (unpack packn ((spa_main_temporal packn P0 time_state pressure_state data_beg data_end
          ncols_atm nswbands nlwbands).aer_tau_lw_src i n))
            (pressure_state.pmid i (kk / packn) (kk % packn))) := by
  have hl : kk % packn < packn := Nat.mod_lt kk hp
  have hd : kk / packn * packn + kk % packn < nlevs_atm.toNat := by
    rw [Nat.div_add_mod']; exact hkk
  have hne : ¬ ncols_atm ≠ pressure_state.ncols := fun h => h hcols
  refine ⟨?_, ?_, ?_, ?_, ?_⟩
  · simp only [spa_main, if_neg hne, hi, hl, hd, and_self, if_true]
  · intro n hn
    simp only [spa_main, if_neg hne, hi, hn, hl, hd, and_self, if_true]
  · intro n hn
    simp only [spa_main, if_neg hne, hi, hn, hl, hd, and_self, if_true]
  · intro n hn
    simp only [spa_main, if_neg hne, hi, hn, hl, hd, and_self, if_true]
  · intro n hn
    simp only [spa_main, if_neg hne, hi, hn, hl, hd, and_self, if_true]

/-! ## Vertical pass-through -/

theorem pass_through_value (packn : Nat) (pressure_state : SPAPressureState) (src : SPASource)
    (y : Nat → Nat → ℚ) (i kk j : Nat) (hj : j < pressure_state.nlevs.toNat)
    (hmono : ∀ a b : Nat, a < b → b < pressure_state.nlevs.toNat →
      unpack packn (src.p_src i) a < unpack packn (src.p_src i) b)
    (hpmid : pressure_state.pmid i (kk / packn) (kk % packn) = unpack packn (src.p_src i) j) :
    lin_interp_level 0 pressure_state.nlevs.toNat (unpack packn (src.p_src i))
        (unpack packn y) (pressure_state.pmid i (kk / packn) (kk % packn))
      = max (y (j / packn) (j % packn)) 0 := by
  rw [hpmid, lin_interp_level_at_node 0 _ _ _ j hj hmono]
  rfl

/-- C20 (amended). Vertical pass-through: for a column `i` whose source pressures strictly
increase with level, if the destination pressure `pmid (i,kk)`, `kk < nlevs_atm`, is built from
the interpolated surface pressure and the hybrid coefficients of source level `kk+1` (so it
equals the source pressure of that level), then the output of `spa_main` at destination level
`kk` is the larger of the threshold 0 and the temporally interpolated source value at source
level `kk+1`, so it equals that value wherever the value is at least 0, for `CCN3` and for every
band of `AER_G_SW`, `AER_SSA_SW`, `AER_TAU_SW` and `AER_TAU_LW`; with `t_now = t_beg_month` the
source value is the begin dataset's value at level `kk+1`. -/
theorem C20_vertical_pass_through (packn : Nat) (P0 : ℚ) (time_state : SPATimeState)
    (pressure_state : SPAPressureState) (data_beg data_end : SPAData) (data_out : SPAOutput)
    (ncols_atm nlevs_atm nswbands nlwbands : Int) (hp : 0 < packn)
    (hcols : ncols_atm = pressure_state.ncols)
    (i kk : Nat) (hi : i < ncols_atm.toNat) (hkk : kk < nlevs_atm.toNat)
    (hsrc : kk + 1 < pressure_state.nlevs.toNat)
    (hmono : ∀ a b : Nat, a < b → b < pressure_state.nlevs.toNat →
      unpack packn ((spa_main_temporal packn P0 time_state pressure_state data_beg data_end
          ncols_atm nswbands nlwbands).p_src i) a
        < unpack packn ((spa_main_temporal packn P0 time_state pressure_state data_beg data_end
          ncols_atm nswbands nlwbands).p_src i) b)
    (hpmid : pressure_state.pmid i (kk / packn) (kk % packn)
      = (spa_main_temporal packn P0 time_state pressure_state data_beg data_end
          ncols_atm nswbands nlwbands).ps_src i
          * pressure_state.hybm ((kk + 1) / packn) ((kk + 1) % packn)
        + P0 * pressure_state.hyam ((kk + 1) / packn) ((kk + 1) % packn)) :
    ((spa_main packn P0 time_state pressure_state data_beg data_end data_out
          ncols_atm nlevs_atm nswbands nlwbands).state.CCN3 i (kk / packn) (kk % packn)
        = max ((spa_main_temporal packn P0 time_state pressure_state data_beg data_end
          ncols_atm nswbands nlwbands).ccn3_src i
            ((kk + 1) / packn) ((kk + 1) % packn)) 0 ∧
      (∀ n : Nat, n < nswbands.toNat →
        (spa_main packn P0 time_state pressure_state data_beg data_end data_out
          ncols_atm nlevs_atm nswbands nlwbands).state.AER_G_SW i n (kk / packn) (kk % packn)
          = max ((spa_main_temporal packn P0 time_state pressure_state data_beg data_end
          ncols_atm nswbands nlwbands).aer_g_sw_src i n
              ((kk + 1) / packn) ((kk + 1) % packn)) 0) ∧
      (∀ n : Nat, n < nswbands.toNat →
        (spa_main packn P0 time_state pressure_state data_beg data_end data_out
          ncols_atm nlevs_atm nswbands nlwbands).state.AER_SSA_SW i n (kk / packn) (kk % packn)
          = max ((spa_main_temporal packn P0 time_state pressure_state data_beg data_end
          ncols_atm nswbands nlwbands).aer_ssa_sw_src i n
              ((kk + 1) / packn) ((kk + 1) % packn)) 0) ∧
      (∀ n : Nat, n < nswbands.toNat →
        (spa_main packn P0 time_state pressure_state data_beg data_end data_out
          ncols_atm nlevs_atm nswbands nlwbands).state.AER_TAU_SW i n (kk / packn) (kk % packn)
          = max ((spa_main_temporal packn P0 time_state pressure_state data_beg data_end
          ncols_atm nswbands nlwbands).aer_tau_sw_src i n
              ((kk + 1) / packn) ((kk + 1) % packn)) 0) ∧
      (∀ n : Nat, n < nlwbands.toNat →
        (spa_main packn P0 time_state pressure_state data_beg data_end data_out
          ncols_atm nlevs_atm nswbands nlwbands).state.AER_TAU_LW i n (kk / packn) (kk % packn)
          = max ((spa_main_temporal packn P0 time_state pressure_state data_beg data_end
          ncols_atm nswbands nlwbands).aer_tau_lw_src i n
              ((kk + 1) / packn) ((kk + 1) % packn)) 0)) ∧
    (time_state.t_now = time_state.t_beg_month → time_state.days_this_month ≠ 0 →
      (spa_main packn P0 time_state pressure_state data_beg data_end data_out
          ncols_atm nlevs_atm nswbands nlwbands).state.CCN3 i (kk / packn) (kk % packn)
        = max (data_beg.CCN3 i ((kk + 1) / packn) ((kk + 1) % packn)) 0 ∧
      (∀ n : Nat, n < nswbands.toNat →
        (spa_main packn P0 time_state pressure_state data_beg data_end data_out
          ncols_atm nlevs_atm nswbands nlwbands).state.AER_G_SW i n (kk / packn) (kk % packn)
          = max (data_beg.AER_G_SW i n ((kk + 1) / packn) ((kk + 1) % packn)) 0) ∧
      (∀ n : Nat, n < nswbands.toNat →
        (spa_main packn P0 time_state pressure_state data_beg data_end data_out
          ncols_atm nlevs_atm nswbands nlwbands).state.AER_SSA_SW i n (kk / packn) (kk % packn)
          = max (data_beg.AER_SSA_SW i n ((kk + 1) / packn) ((kk + 1) % packn)) 0) ∧
      (∀ n : Nat, n < nswbands.toNat →
        (spa_main packn P0 time_state pressure_state data_beg data_end data_out
          ncols_atm nlevs_atm nswbands nlwbands).state.AER_TAU_SW i n (kk / packn) (kk % packn)
          = max (data_beg.AER_TAU_SW i n ((kk + 1) / packn) ((kk + 1) % packn)) 0) ∧
      (∀ n : Nat, n < nlwbands.toNat →
        (spa_main packn P0 time_state pressure_state data_beg data_end data_out
          ncols_atm nlevs_atm nswbands nlwbands).state.AER_TAU_LW i n (kk / packn) (kk % packn)
          = max (data_beg.AER_TAU_LW i n ((kk + 1) / packn) ((kk + 1) % packn)) 0)) := by
  have hcells := temporal_cells packn P0 time_state pressure_state data_beg data_end
    ncols_atm nswbands nlwbands hp
  have hp1 : pressure_state.pmid i (kk / packn) (kk % packn)
      = unpack packn ((spa_main_temporal packn P0 time_state pressure_state data_beg data_end
          ncols_atm nswbands nlwbands).p_src i) (kk + 1) := by
    rw [hpmid]
    exact (hcells.2.2.2.2.2.2 i (kk + 1) hi hsrc).symm
  obtain ⟨c1, c2, c3, c4, c5⟩ := spa_main_cells packn P0 time_state pressure_state data_beg
    data_end data_out ncols_atm nlevs_atm nswbands nlwbands hp hcols i kk hi hkk
  have main : (spa_main packn P0 time_state pressure_state data_beg data_end data_out
          ncols_atm nlevs_atm nswbands nlwbands).state.CCN3 i (kk / packn) (kk % packn)
        = max ((spa_main_temporal packn P0 time_state pressure_state data_beg data_end
          ncols_atm nswbands nlwbands).ccn3_src i
            ((kk + 1) / packn) ((kk + 1) % packn)) 0 ∧
      (∀ n : Nat, n < nswbands.toNat →
        (spa_main packn P0 time_state pressure_state data_beg data_end data_out
          ncols_atm nlevs_atm nswbands nlwbands).state.AER_G_SW i n (kk / packn) (kk % packn)
          = max ((spa_main_temporal packn P0 time_state pressure_state data_beg data_end
          ncols_atm nswbands nlwbands).aer_g_sw_src i n
              ((kk + 1) / packn) ((kk + 1) % packn)) 0) ∧
      (∀ n : Nat, n < nswbands.toNat →
        (spa_main packn P0 time_state pressure_state data_beg data_end data_out
          ncols_atm nlevs_atm nswbands nlwbands).state.AER_SSA_SW i n (kk / packn) (kk % packn)
          = max ((spa_main_temporal packn P0 time_state pressure_state data_beg data_end
          ncols_atm nswbands nlwbands).aer_ssa_sw_src i n
              ((kk + 1) / packn) ((kk + 1) % packn)) 0) ∧
      (∀ n : Nat, n < nswbands.toNat →
        (spa_main packn P0 time_state pressure_state data_beg data_end data_out
          ncols_atm nlevs_atm nswbands nlwbands).state.AER_TAU_SW i n (kk / packn) (kk % packn)
          = max ((spa_main_temporal packn P0 time_state pressure_state data_beg data_end
          ncols_atm nswbands nlwbands).aer_tau_sw_src i n
              ((kk + 1) / packn) ((kk + 1) % packn)) 0) ∧
      (∀ n : Nat, n < nlwbands.toNat →
        (spa_main packn P0 time_state pressure_state data_beg data_end data_out
          ncols_atm nlevs_atm nswbands nlwbands).state.AER_TAU_LW i n (kk / packn) (kk % packn)
          = max ((spa_main_temporal packn P0 time_state pressure_state data_beg data_end
          ncols_atm nswbands nlwbands).aer_tau_lw_src i n
              ((kk + 1) / packn) ((kk + 1) % packn)) 0) := by
    refine ⟨?_, ?_, ?_, ?_, ?_⟩
    · rw [c1]
      exact pass_through_value packn pressure_state _ _ i kk (kk + 1) hsrc hmono hp1
    · intro n hn
      rw [c2 n hn]
      exact pass_through_value packn pressure_state _ _ i kk (kk + 1) hsrc hmono hp1
    · intro n hn
      rw [c3 n hn]
      exact pass_through_value packn pressure_state _ _ i kk (kk + 1) hsrc hmono hp1
    · intro n hn
      rw [c4 n hn]
      exact pass_through_value packn pressure_state _ _ i kk (kk + 1) hsrc hmono hp1
    · intro n hn
      rw [c5 n hn]
      exact pass_through_value packn pressure_state _ _ i kk (kk + 1) hsrc hmono hp1
  refine ⟨main, ?_⟩
  intro hnow hlen
  have ht : t_norm time_state = 0 := by
    unfold t_norm
    rw [div_eq_iff hlen, hnow, sub_self, zero_mul]
  obtain ⟨m1, m2, m3, m4, m5⟩ := main
  refine ⟨?_, ?_, ?_, ?_, ?_⟩
  · rw [m1, hcells.2.1 i (kk + 1) hi hsrc, ht, linear_interp_zero]
  · intro n hn
    rw [m2 n hn, hcells.2.2.1 i n (kk + 1) hi hn hsrc, ht, linear_interp_zero]
  · intro n hn
    rw [m3 n hn, hcells.2.2.2.1 i n (kk + 1) hi hn hsrc, ht, linear_interp_zero]
  · intro n hn
    rw [m4 n hn, hcells.2.2.2.2.1 i n (kk + 1) hi hn hsrc, ht, linear_interp_zero]
  · intro n hn
    rw [m5 n hn, hcells.2.2.2.2.2.1 i n (kk + 1) hi hn hsrc, ht, linear_interp_zero]

/-! ## Vertical pass-through on the samples -/

theorem sample_t_norm_start : t_norm sample_time_start = 0 := by
  norm_num [t_norm, sample_time_start]

theorem sample_three_ps_src (b e : SPAData) :
    (spa_main_temporal 2 100000 sample_time_start sample_pressure_three b e 1 1 1).ps_src 0
      = 100000 := by
  rw [(temporal_cells 2 100000 sample_time_start sample_pressure_three b e 1 1 1
    (by decide)).1 0 (by decide), sample_t_norm_start, linear_interp_zero]
  rfl

theorem sample_three_p_src (b e : SPAData) (k : Nat) (hk : k < 3) :
    unpack 2 ((spa_main_temporal 2 100000 sample_time_start sample_pressure_three b e
      1 1 1).p_src 0) k = 100000 * ((k : ℚ) + 1) := by
  unfold unpack
  rw [(temporal_cells 2 100000 sample_time_start sample_pressure_three b e 1 1 1
    (by decide)).2.2.2.2.2.2 0 k (by decide) hk, sample_three_ps_src]
  interval_cases k <;> norm_num [sample_pressure_three]

theorem sample_three_increasing (b e : SPAData) :
    ∀ a k : Nat, a < k → k < sample_pressure_three.nlevs.toNat →
      unpack 2 ((spa_main_temporal 2 100000 sample_time_start sample_pressure_three b e
        1 1 1).p_src 0) a
      < unpack 2 ((spa_main_temporal 2 100000 sample_time_start sample_pressure_three b e
        1 1 1).p_src 0) k := by
  intro a k hak hk
  have hk3 : k < 3 := hk
  rw [sample_three_p_src b e a (by omega), sample_three_p_src b e k hk3]
  have : (a : ℚ) < (k : ℚ) := by exact_mod_cast hak
  linarith

theorem sample_three_pmid (b e : SPAData) :
    sample_pressure_three.pmid 0 (0 / 2) (0 % 2)
      = (spa_main_temporal 2 100000 sample_time_start sample_pressure_three b e
          1 1 1).ps_src 0 * sample_pressure_three.hybm ((0 + 1) / 2) ((0 + 1) % 2)
        + 100000 * sample_pressure_three.hyam ((0 + 1) / 2) ((0 + 1) % 2) := by
  rw [sample_three_ps_src]
  norm_num [sample_pressure_three]

theorem sample_negative_source_value :
    (spa_main_temporal 2 100000 sample_time_start sample_pressure_three sample_data_negative
      sample_data_end 1 1 1).ccn3_src 0 0 1 = -7 := by
  have h := (temporal_cells 2 100000 sample_time_start sample_pressure_three
    sample_data_negative sample_data_end 1 1 1 (by decide)).2.1 0 1 (by decide) (by decide)
  rw [sample_t_norm_start, linear_interp_zero] at h
  exact h.trans (by norm_num [sample_data_negative])

theorem sample_unsorted_ps_src (b e : SPAData) :
    (spa_main_temporal 2 100000 sample_time_start sample_pressure_unsorted b e 1 1 1).ps_src 0
      = 100000 := by
  rw [(temporal_cells 2 100000 sample_time_start sample_pressure_unsorted b e 1 1 1
    (by decide)).1 0 (by decide), sample_t_norm_start, linear_interp_zero]
  rfl

theorem sample_steps_source_values :
    (spa_main_temporal 2 100000 sample_time_start sample_pressure_unsorted sample_data_steps
      sample_data_end 1 1 1).ccn3_src 0 0 0 = 5 ∧
    (spa_main_temporal 2 100000 sample_time_start sample_pressure_unsorted sample_data_steps
      sample_data_end 1 1 1).ccn3_src 0 0 1 = 8 := by
  have h0 := (temporal_cells 2 100000 sample_time_start sample_pressure_unsorted
    sample_data_steps sample_data_end 1 1 1 (by decide)).2.1 0 0 (by decide) (by decide)
  have h1 := (temporal_cells 2 100000 sample_time_start sample_pressure_unsorted
    sample_data_steps sample_data_end 1 1 1 (by decide)).2.1 0 1 (by decide) (by decide)
  rw [sample_t_norm_start, linear_interp_zero] at h0 h1
  exact ⟨h0.trans (by norm_num [sample_data_steps]), h1.trans (by norm_num [sample_data_steps])⟩

/-- C20 (as stated, refuted). In both samples the one destination pressure is built from the
interpolated surface pressure and the hybrid coefficients of source level 1, and
`t_now = t_beg_month`.  In the first the source pressures increase with level and the source
`CCN3` at level 1 is `-7`: the output is the threshold `0`.  In the second the source
pressures are `3, 2, 4` times the surface pressure and the source `CCN3` at levels 0 and 1 is
`5` and `8`: the output is `5`, the value of the boundary level. -/
theorem C20_pass_through_fails :
    (sample_pressure_three.pmid 0 (0 / 2) (0 % 2)
      = (spa_main_temporal 2 100000 sample_time_start sample_pressure_three
          sample_data_negative sample_data_end 1 1 1).ps_src 0
          * sample_pressure_three.hybm ((0 + 1) / 2) ((0 + 1) % 2)
        + 100000 * sample_pressure_three.hyam ((0 + 1) / 2) ((0 + 1) % 2)) ∧
    (spa_main_temporal 2 100000 sample_time_start sample_pressure_three sample_data_negative
      sample_data_end 1 1 1).ccn3_src 0 ((0 + 1) / 2) ((0 + 1) % 2) = -7 ∧
    (spa_main 2 100000 sample_time_start sample_pressure_three sample_data_negative
      sample_data_end sample_output 1 1 1 1).state.CCN3 0 (0 / 2) (0 % 2) = 0 ∧
    (sample_pressure_unsorted.pmid 0 (0 / 2) (0 % 2)
      = (spa_main_temporal 2 100000 sample_time_start sample_pressure_unsorted
          sample_data_steps sample_data_end 1 1 1).ps_src 0
          * sample_pressure_unsorted.hybm ((0 + 1) / 2) ((0 + 1) % 2)
        + 100000 * sample_pressure_unsorted.hyam ((0 + 1) / 2) ((0 + 1) % 2)) ∧
    (spa_main_temporal 2 100000 sample_time_start sample_pressure_unsorted sample_data_steps
      sample_data_end 1 1 1).ccn3_src 0 ((0 + 1) / 2) ((0 + 1) % 2) = 8 ∧
    (spa_main 2 100000 sample_time_start sample_pressure_unsorted sample_data_steps
      sample_data_end sample_output 1 1 1 1).state.CCN3 0 (0 / 2) (0 % 2) = 5 := by
  refine ⟨sample_three_pmid _ _, sample_negative_source_value, ?_, ?_,
    sample_steps_source_values.2, ?_⟩
  · have hpm : sample_pressure_three.pmid 0 (0 / 2) (0 % 2)
        = unpack 2 ((spa_main_temporal 2 100000 sample_time_start sample_pressure_three
            sample_data_negative sample_data_end 1 1 1).p_src 0) 1 := by
      rw [sample_three_p_src _ _ 1 (by decide)]
      norm_num [sample_pressure_three]
    rw [(spa_main_cells 2 100000 sample_time_start sample_pressure_three sample_data_negative
      sample_data_end sample_output 1 1 1 1 (by decide) rfl 0 0 (by decide) (by decide)).1,
      pass_through_value 2 sample_pressure_three _ _ 0 0 1 (by decide)
        (sample_three_increasing _ _) hpm]
    have h := sample_negative_source_value
    rw [show (1 / 2 : Nat) = 0 from rfl, show (1 % 2 : Nat) = 1 from rfl, h]
    norm_num
  · rw [sample_unsorted_ps_src]
    norm_num [sample_pressure_unsorted, sample_pressure_three]
  · rw [(spa_main_cells 2 100000 sample_time_start sample_pressure_unsorted sample_data_steps
      sample_data_end sample_output 1 1 1 1 (by decide) rfl 0 0 (by decide) (by decide)).1,
      lin_interp_level_below]
    · have h := sample_steps_source_values.1
      unfold unpack
      rw [show (0 / 2 : Nat) = 0 from rfl, show (0 % 2 : Nat) = 0 from rfl, h]
      norm_num
    · unfold unpack
      rw [(temporal_cells 2 100000 sample_time_start sample_pressure_unsorted
        sample_data_steps sample_data_end 1 1 1 (by decide)).2.2.2.2.2.2 0 0 (by decide)
        (by decide), sample_unsorted_ps_src]
      norm_num [sample_pressure_unsorted, sample_pressure_three]

theorem C20_vertical_pass_through_witness :
    (spa_main 2 100000 sample_time_start sample_pressure_three sample_data_steps
      sample_data_end sample_output 1 1 1 1).state.CCN3 0 (0 / 2) (0 % 2)
      = max (sample_data_steps.CCN3 0 ((0 + 1) / 2) ((0 + 1) % 2)) 0 :=
  ((C20_vertical_pass_through 2 100000 sample_time_start sample_pressure_three
    sample_data_steps sample_data_end sample_output 1 1 1 1 (by decide) rfl 0 0 (by decide)
    (by decide) (by decide) (sample_three_increasing _ _) (sample_three_pmid _ _)).2 rfl
    (by decide)).1

/-! ## update_spa_data_from_file: what the scatter leaves alone -/

section remap
variable (packn : Nat) (raw : RawFields) (nswbands nlwbands : Int) (hi : SPAHorizInterp)

theorem remap_level_ncols (w : ℚ) (s t : Int) (d : SPAData) (kk : Nat) :
    (remap_level packn raw nswbands nlwbands w s t d kk).ncols = d.ncols := by
  have h1 := foldl_range_keep (fun d : SPAData => d.ncols)
    (remap_swband raw w s t kk (kk / packn) (kk % packn)) (fun _ _ => rfl)
  have h2 := foldl_range_keep (fun d : SPAData => d.ncols)
    (remap_lwband raw w s t kk (kk / packn) (kk % packn)) (fun _ _ => rfl)
  simp only at h1 h2
  simp only [remap_level, h1, h2]

theorem remap_triplet_ncols (d : SPAData) (idx : Nat) :
    (remap_triplet packn raw nswbands nlwbands hi d idx).ncols = d.ncols := by
  have h := foldl_range_keep (fun d : SPAData => d.ncols)
    (remap_level packn raw nswbands nlwbands (hi.weights idx) (hi.source_grid_loc idx)
      (hi.target_grid_loc idx))
    (fun d kk => remap_level_ncols packn raw nswbands nlwbands _ _ _ d kk)
  simp only at h
  simp only [remap_triplet, h]

theorem remap_data_ncols (d : SPAData) :
    (remap_data packn raw nswbands nlwbands hi d).ncols = d.ncols := by
  have h := foldl_range_keep (fun d : SPAData => d.ncols)
    (remap_triplet packn raw nswbands nlwbands hi)
    (fun d idx => remap_triplet_ncols packn raw nswbands nlwbands hi d idx)
  simp only at h
  simp only [remap_data, h]

theorem remap_level_nlevs (w : ℚ) (s t : Int) (d : SPAData) (kk : Nat) :
    (remap_level packn raw nswbands nlwbands w s t d kk).nlevs = d.nlevs := by
  have h1 := foldl_range_keep (fun d : SPAData => d.nlevs)
    (remap_swband raw w s t kk (kk / packn) (kk % packn)) (fun _ _ => rfl)
  have h2 := foldl_range_keep (fun d : SPAData => d.nlevs)
    (remap_lwband raw w s t kk (kk / packn) (kk % packn)) (fun _ _ => rfl)
  simp only at h1 h2
  simp only [remap_level, h1, h2]

theorem remap_triplet_nlevs (d : SPAData) (idx : Nat) :
    (remap_triplet packn raw nswbands nlwbands hi d idx).nlevs = d.nlevs := by
  have h := foldl_range_keep (fun d : SPAData => d.nlevs)
    (remap_level packn raw nswbands nlwbands (hi.weights idx) (hi.source_grid_loc idx)
      (hi.target_grid_loc idx))
    (fun d kk => remap_level_nlevs packn raw nswbands nlwbands _ _ _ d kk)
  simp only at h
  simp only [remap_triplet, h]

theorem remap_data_nlevs (d : SPAData) :
    (remap_data packn raw nswbands nlwbands hi d).nlevs = d.nlevs := by
  have h := foldl_range_keep (fun d : SPAData => d.nlevs)
    (remap_triplet packn raw nswbands nlwbands hi)
    (fun d idx => remap_triplet_nlevs packn raw nswbands nlwbands hi d idx)
  simp only at h
  simp only [remap_data, h]

theorem remap_level_hyam (w : ℚ) (s t : Int) (d : SPAData) (kk : Nat) :
    (remap_level packn raw nswbands nlwbands w s t d kk).hyam = d.hyam := by
  have h1 := foldl_range_keep (fun d : SPAData => d.hyam)
    (remap_swband raw w s t kk (kk / packn) (kk % packn)) (fun _ _ => rfl)
  have h2 := foldl_range_keep (fun d : SPAData => d.hyam)
    (remap_lwband raw w s t kk (kk / packn) (kk % packn)) (fun _ _ => rfl)
  simp only at h1 h2
  simp only [remap_level, h1, h2]

theorem remap_triplet_hyam (d : SPAData) (idx : Nat) :
    (remap_triplet packn raw nswbands nlwbands hi d idx).hyam = d.hyam := by
  have h := foldl_range_keep (fun d : SPAData => d.hyam)
    (remap_level packn raw nswbands nlwbands (hi.weights idx) (hi.source_grid_loc idx)
      (hi.target_grid_loc idx))
    (fun d kk => remap_level_hyam packn raw nswbands nlwbands _ _ _ d kk)
  simp only at h
  simp only [remap_triplet, h]

theorem remap_data_hyam (d : SPAData) :
    (remap_data packn raw nswbands nlwbands hi d).hyam = d.hyam := by
  have h := foldl_range_keep (fun d : SPAData => d.hyam)
    (remap_triplet packn raw nswbands nlwbands hi)
    (fun d idx => remap_triplet_hyam packn raw nswbands nlwbands hi d idx)
  simp only at h
  simp only [remap_data, h]

theorem remap_level_hybm (w : ℚ) (s t : Int) (d : SPAData) (kk : Nat) :
    (remap_level packn raw nswbands nlwbands w s t d kk).hybm = d.hybm := by
  have h1 := foldl_range_keep (fun d : SPAData => d.hybm)
    (remap_swband raw w s t kk (kk / packn) (kk % packn)) (fun _ _ => rfl)
  have h2 := foldl_range_keep (fun d : SPAData => d.hybm)
    (remap_lwband raw w s t kk (kk / packn) (kk % packn)) (fun _ _ => rfl)
  simp only at h1 h2
  simp only [remap_level, h1, h2]

theorem remap_triplet_hybm (d : SPAData) (idx : Nat) :
    (remap_triplet packn raw nswbands nlwbands hi d idx).hybm = d.hybm := by
  have h := foldl_range_keep (fun d : SPAData => d.hybm)
    (remap_level packn raw nswbands nlwbands (hi.weights idx) (hi.source_grid_loc idx)
      (hi.target_grid_loc idx))
    (fun d kk => remap_level_hybm packn raw nswbands nlwbands _ _ _ d kk)
  simp only at h
  simp only [remap_triplet, h]

theorem remap_data_hybm (d : SPAData) :
    (remap_data packn raw nswbands nlwbands hi d).hybm = d.hybm := by
  have h := foldl_range_keep (fun d : SPAData => d.hybm)
    (remap_triplet packn raw nswbands nlwbands hi)
    (fun d idx => remap_triplet_hybm packn raw nswbands nlwbands hi d idx)
  simp only at h
  simp only [remap_data, h]

end remap

/-! ## Coverage gap -/

/-- C23. Coverage gap: when the file's dimensions agree and no triplet `idx < length` has
target column `t`, `update_spa_data_from_file` succeeds and leaves `PS t` and every cell (every
band, pack and lane) of `CCN3`, `AER_G_SW`, `AER_SSA_SW`, `AER_TAU_SW` and `AER_TAU_LW` in
column `t` equal to zero, whatever the column held before. -/
theorem C23_coverage_gap (packn : Nat) (file : SPADataFile)
    (time_index nswbands nlwbands : Int) (hi : SPAHorizInterp) (d : SPAData)
    (hsw : nswbands = file.swband) (hlw : nlwbands = file.lwband)
    (hcol : file.ncol = hi.source_grid_ncols) (t : Int)
    (hgap : ∀ idx : Nat, idx < hi.length.toNat → hi.target_grid_loc idx ≠ t) :
    (update_spa_data_from_file packn file time_index nswbands nlwbands hi d).error = none ∧
    (loaded packn file time_index nswbands nlwbands hi d).PS t = 0 ∧
    (∀ p l : Nat, (loaded packn file time_index nswbands nlwbands hi d).CCN3 t p l = 0) ∧
    (∀ b p l : Nat,
      (loaded packn file time_index nswbands nlwbands hi d).AER_G_SW t b p l = 0 ∧
      (loaded packn file time_index nswbands nlwbands hi d).AER_SSA_SW t b p l = 0 ∧
      (loaded packn file time_index nswbands nlwbands hi d).AER_TAU_SW t b p l = 0 ∧
      (loaded packn file time_index nswbands nlwbands hi d).AER_TAU_LW t b p l = 0) := by
  have hl := loaded_ok packn file time_index nswbands nlwbands hi d hsw hlw hcol
  have hne : ∀ idx ∈ Finset.range hi.length.toNat, ¬ t = hi.target_grid_loc idx :=
    fun idx hidx e => hgap idx (Finset.mem_range.1 hidx) e.symm
  refine ⟨?_, ?_, ?_, ?_⟩
  · rw [update_ok packn file time_index nswbands nlwbands hi d hsw hlw hcol]
  · rw [hl, remap_data_PS]
    exact Finset.sum_eq_zero (fun idx hidx => if_neg (hne idx hidx))
  · intro p l
    rw [hl, remap_data_CCN3]
    refine Finset.sum_eq_zero (fun idx hidx => Finset.sum_eq_zero (fun kk _ => if_neg ?_))
    exact fun h => hne idx hidx h.1
  · intro b p l
    refine ⟨?_, ?_, ?_, ?_⟩
    · rw [hl, remap_data_G]
      refine Finset.sum_eq_zero (fun idx hidx => Finset.sum_eq_zero (fun kk _ =>
        Finset.sum_eq_zero (fun n _ => if_neg ?_)))
      exact fun h => hne idx hidx h.1
    · rw [hl, remap_data_SSA]
      refine Finset.sum_eq_zero (fun idx hidx => Finset.sum_eq_zero (fun kk _ =>
        Finset.sum_eq_zero (fun n _ => if_neg ?_)))
      exact fun h => hne idx hidx h.1
    · rw [hl, remap_data_TAU_SW]
      refine Finset.sum_eq_zero (fun idx hidx => Finset.sum_eq_zero (fun kk _ =>
        Finset.sum_eq_zero (fun n _ => if_neg ?_)))
      exact fun h => hne idx hidx h.1
    · rw [hl, remap_data_TAU_LW]
      refine Finset.sum_eq_zero (fun idx hidx => Finset.sum_eq_zero (fun kk _ =>
        Finset.sum_eq_zero (fun n _ => if_neg ?_)))
      exact fun h => hne idx hidx h.1

theorem C23_coverage_gap_witness :
    (1 : Int) = sample_file.swband ∧ (1 : Int) = sample_file.lwband ∧
    sample_file.ncol = sample_two_onto_one.source_grid_ncols ∧
    (loaded 2 sample_file 0 1 1 sample_two_onto_one sample_data).PS 1 = 0 ∧
    (loaded 2 sample_file 0 1 1 sample_two_onto_one sample_data).CCN3 1 0 1 = 0 := by
  have h := C23_coverage_gap 2 sample_file 0 1 1 sample_two_onto_one sample_data rfl rfl rfl 1
    (by intro idx _; simp [sample_two_onto_one])
  exact ⟨rfl, rfl, rfl, h.2.1, h.2.2.1 0 1⟩

/-! ## update_spa_data_from_file: a failed call and the error raised -/

theorem loaded_fail (packn : Nat) (file : SPADataFile) (time_index nswbands nlwbands : Int)
    (hi : SPAHorizInterp) (d : SPAData)
    (h : ¬ (nswbands = file.swband ∧ nlwbands = file.lwband ∧
      file.ncol = hi.source_grid_ncols)) :
    loaded packn file time_index nswbands nlwbands hi d = d := by
  unfold loaded update_spa_data_from_file
  by_cases h1 : nswbands = file.swband
  · by_cases h2 : nlwbands = file.lwband
    · by_cases h3 : file.ncol = hi.source_grid_ncols
      · exact absurd ⟨h1, h2, h3⟩ h
      · simp [h1, h2, h3]
    · simp [h1, h2]
  · simp [h1]

theorem update_error_eq (packn : Nat) (file : SPADataFile) (time_index nswbands nlwbands : Int)
    (hi hi2 : SPAHorizInterp) (d d2 : SPAData)
    (h : hi.source_grid_ncols = hi2.source_grid_ncols) :
    (update_spa_data_from_file packn file time_index nswbands nlwbands hi d).error
      = (update_spa_data_from_file packn file time_index nswbands nlwbands hi2 d2).error := by
  unfold update_spa_data_from_file
  simp only [h]
  split_ifs <;> rfl

/-! ## Hybrid coefficients -/

/-- The loader leaves the hybrid coefficients of the dataset as they were, whether it succeeds
or fails. -/
theorem loaded_hybrid (packn : Nat) (file : SPADataFile)
    (time_index nswbands nlwbands : Int) (hi : SPAHorizInterp) (d : SPAData) :
    (loaded packn file time_index nswbands nlwbands hi d).hyam = d.hyam ∧
    (loaded packn file time_index nswbands nlwbands hi d).hybm = d.hybm := by
  by_cases h : nswbands = file.swband ∧ nlwbands = file.lwband ∧
      file.ncol = hi.source_grid_ncols
  · rw [loaded_ok packn file time_index nswbands nlwbands hi d h.1 h.2.1 h.2.2]
    exact ⟨remap_data_hyam _ _ _ _ _ _, remap_data_hybm _ _ _ _ _ _⟩
  · rw [loaded_fail packn file time_index nswbands nlwbands hi d h]
    exact ⟨rfl, rfl⟩

/-- C24 (as stated, refuted). The same file (two columns, two levels, one band of each kind)
is loaded with the same time index and the same identity table, once into a dataset whose
`hyam` and `hybm` hold 7 and once into one whose `hyam` and `hybm` hold 9.  Both calls
succeed; afterwards the first dataset still holds 7 and the second still holds 9, so the
coefficients after the load are not a copy of anything stored in the file: no single table of
coefficients equals both. -/
theorem C24_same_file_different_coefficients :
    (update_spa_data_from_file 2 sample_file 0 1 1 sample_identity sample_data).error = none ∧
    (update_spa_data_from_file 2 sample_file 0 1 1 sample_identity sample_data_end).error
      = none ∧
    (loaded 2 sample_file 0 1 1 sample_identity sample_data).hyam 0 0 = 7 ∧
    (loaded 2 sample_file 0 1 1 sample_identity sample_data).hybm 0 0 = 7 ∧
    (loaded 2 sample_file 0 1 1 sample_identity sample_data_end).hyam 0 0 = 9 ∧
    (loaded 2 sample_file 0 1 1 sample_identity sample_data_end).hybm 0 0 = 9 ∧
    ¬ ∃ file_hyam : Nat → Nat → ℚ,
      (loaded 2 sample_file 0 1 1 sample_identity sample_data).hyam = file_hyam ∧
      (loaded 2 sample_file 0 1 1 sample_identity sample_data_end).hyam = file_hyam := by
  have h7 := loaded_hybrid 2 sample_file 0 1 1 sample_identity sample_data
  have h9 := loaded_hybrid 2 sample_file 0 1 1 sample_identity sample_data_end
  refine ⟨?_, ?_, ?_, ?_, ?_, ?_, ?_⟩
  · rw [update_ok 2 sample_file 0 1 1 sample_identity sample_data rfl rfl rfl]
  · rw [update_ok 2 sample_file 0 1 1 sample_identity sample_data_end rfl rfl rfl]
  · rw [h7.1]; rfl
  · rw [h7.2]; rfl
  · rw [h9.1]; rfl
  · rw [h9.2]; rfl
  · rintro ⟨c, hc7, hc9⟩
    have e : sample_data.hyam 0 0 = sample_data_end.hyam 0 0 := by
      rw [← h7.1, ← h9.1, hc7, hc9]
    norm_num [sample_data, sample_data_end] at e

/-- C24 (amended). `update_spa_data_from_file` neither reads hybrid coefficients from the file
nor assigns `spa_data.hyam` or `spa_data.hybm`: for every file, time index, remap table and
dataset, the dataset's `hyam` and `hybm` after the call are the ones it held before, whether
the call succeeds or fails.  The hybrid coefficients that `spa_main` uses are those of the
pressure state: its result does not change when the `hyam` and `hybm` of the begin and end
datasets are replaced. -/
theorem C24_hybrid_coefficients_untouched (packn : Nat) (file : SPADataFile)
    (time_index nswbands nlwbands : Int) (hi : SPAHorizInterp) (d : SPAData) :
    (loaded packn file time_index nswbands nlwbands hi d).hyam = d.hyam ∧
    (loaded packn file time_index nswbands nlwbands hi d).hybm = d.hybm ∧
    (∀ (P0 : ℚ) (time_state : SPATimeState) (pressure_state : SPAPressureState)
      (data_beg data_end : SPAData) (data_out : SPAOutput)
      (ncols_atm nlevs_atm nsw nlw : Int) (a b a2 b2 : Nat → Nat → ℚ),
      spa_main packn P0 time_state pressure_state { data_beg with hyam := a, hybm := b }
          { data_end with hyam := a2, hybm := b2 } data_out ncols_atm nlevs_atm nsw nlw
        = spa_main packn P0 time_state pressure_state data_beg data_end data_out ncols_atm
          nlevs_atm nsw nlw) :=
  ⟨(loaded_hybrid packn file time_index nswbands nlwbands hi d).1,
    (loaded_hybrid packn file time_index nswbands nlwbands hi d).2,
    fun _ _ _ _ _ _ _ _ _ _ _ _ _ _ => rfl⟩

/-! ## The remap table as an unordered list -/

theorem SPAData_eq (a b : SPAData) (h1 : a.ncols = b.ncols) (h2 : a.nlevs = b.nlevs)
    (h3 : a.hyam = b.hyam) (h4 : a.hybm = b.hybm) (h5 : a.PS = b.PS) (h6 : a.CCN3 = b.CCN3)
    (h7 : a.AER_G_SW = b.AER_G_SW) (h8 : a.AER_SSA_SW = b.AER_SSA_SW)
    (h9 : a.AER_TAU_SW = b.AER_TAU_SW) (h10 : a.AER_TAU_LW = b.AER_TAU_LW) : a = b := by
  cases a; cases b
  simp only at h1 h2 h3 h4 h5 h6 h7 h8 h9 h10
  subst h1 h2 h3 h4 h5 h6 h7 h8 h9 h10
  rfl

theorem sum_range_perm (σ : Equiv.Perm Nat) (L : Nat) (hσ : ∀ idx, idx < L ↔ σ idx < L)
    (g : Nat → ℚ) :
    ∑ idx in Finset.range L, g (σ idx) = ∑ idx in Finset.range L, g idx :=
  Finset.sum_equiv σ (fun idx => by simp only [Finset.mem_range]; exact hσ idx)
    (fun _ _ => rfl)

theorem remap_data_perm (packn : Nat) (raw : RawFields) (nswbands nlwbands : Int)
    (hi : SPAHorizInterp) (d : SPAData) (σ : Equiv.Perm Nat)
    (hσ : ∀ idx, idx < hi.length.toNat ↔ σ idx < hi.length.toNat) :
    remap_data packn raw nswbands nlwbands (permute_table σ hi) d
      = remap_data packn raw nswbands nlwbands hi d := by
  apply SPAData_eq
  · rw [remap_data_ncols, remap_data_ncols]
  · rw [remap_data_nlevs, remap_data_nlevs]
  · rw [remap_data_hyam, remap_data_hyam]
  · rw [remap_data_hybm, remap_data_hybm]
  · funext c
    rw [remap_data_PS, remap_data_PS]
    exact sum_range_perm σ _ hσ (fun idx => if c = hi.target_grid_loc idx
      then raw.PS_v (hi.source_grid_loc idx) * hi.weights idx else 0)
  · funext c p l
    rw [remap_data_CCN3, remap_data_CCN3]
    exact sum_range_perm σ _ hσ (fun idx => ∑ kk in Finset.range hi.source_grid_nlevs.toNat,
      if c = hi.target_grid_loc idx ∧ p = kk / packn ∧ l = kk % packn
      then raw.CCN3_v (hi.source_grid_loc idx) kk * hi.weights idx else 0)
  · funext c b p l
    rw [remap_data_G, remap_data_G]
    exact sum_range_perm σ _ hσ (fun idx => ∑ kk in Finset.range hi.source_grid_nlevs.toNat,
      ∑ n in Finset.range nswbands.toNat,
      if c = hi.target_grid_loc idx ∧ b = n ∧ p = kk / packn ∧ l = kk % packn
      then raw.AER_G_SW_v (hi.source_grid_loc idx) n kk * hi.weights idx else 0)
  · funext c b p l
    rw [remap_data_SSA, remap_data_SSA]
    exact sum_range_perm σ _ hσ (fun idx => ∑ kk in Finset.range hi.source_grid_nlevs.toNat,
      ∑ n in Finset.range nswbands.toNat,
      if c = hi.target_grid_loc idx ∧ b = n ∧ p = kk / packn ∧ l = kk % packn
      then raw.AER_SSA_SW_v (hi.source_grid_loc idx) n kk * hi.weights idx else 0)
  · funext c b p l
    rw [remap_data_TAU_SW, remap_data_TAU_SW]
    exact sum_range_perm σ _ hσ (fun idx => ∑ kk in Finset.range hi.source_grid_nlevs.toNat,
      ∑ n in Finset.range nswbands.toNat,
      if c = hi.target_grid_loc idx ∧ b = n ∧ p = kk / packn ∧ l = kk % packn
      then raw.AER_TAU_SW_v (hi.source_grid_loc idx) n kk * hi.weights idx else 0)
  · funext c b p l
    rw [remap_data_TAU_LW, remap_data_TAU_LW]
    exact sum_range_perm σ _ hσ (fun idx => ∑ kk in Finset.range hi.source_grid_nlevs.toNat,
      ∑ n in Finset.range nlwbands.toNat,
      if c = hi.target_grid_loc idx ∧ b = n ∧ p = kk / packn ∧ l = kk % packn
      then raw.AER_TAU_LW_v (hi.source_grid_loc idx) n kk * hi.weights idx else 0)

/-- C25. The remap table is an unordered list: for every remap table and every rearrangement
`σ` of its triplets `idx < length` (applied alike to `weights`, `source_grid_loc` and
`target_grid_loc`), `update_spa_data_from_file` leaves the same dataset, and raises the same
error if any. -/
theorem C25_remap_order_irrelevant (packn : Nat) (file : SPADataFile)
    (time_index nswbands nlwbands : Int) (hi : SPAHorizInterp) (d : SPAData)
    (σ : Equiv.Perm Nat) (hσ : ∀ idx, idx < hi.length.toNat ↔ σ idx < hi.length.toNat) :
    loaded packn file time_index nswbands nlwbands (permute_table σ hi) d
      = loaded packn file time_index nswbands nlwbands hi d ∧
    (update_spa_data_from_file packn file time_index nswbands nlwbands
        (permute_table σ hi) d).error
      = (update_spa_data_from_file packn file time_index nswbands nlwbands hi d).error := by
  refine ⟨?_, update_error_eq packn file time_index nswbands nlwbands _ _ d d rfl⟩
  by_cases h : nswbands = file.swband ∧ nlwbands = file.lwband ∧
      file.ncol = hi.source_grid_ncols
  · rw [loaded_ok packn file time_index nswbands nlwbands hi d h.1 h.2.1 h.2.2,
      loaded_ok packn file time_index nswbands nlwbands (permute_table σ hi) d h.1 h.2.1
        h.2.2]
    exact remap_data_perm packn (file.read time_index) nswbands nlwbands
      { hi with source_grid_nlevs := file.lev } d σ hσ
  · rw [loaded_fail packn file time_index nswbands nlwbands hi d h,
      loaded_fail packn file time_index nswbands nlwbands (permute_table σ hi) d h]

theorem C25_remap_order_irrelevant_witness :
    (∀ idx, idx < sample_two_onto_one.length.toNat
      ↔ (Equiv.swap 0 1 : Equiv.Perm Nat) idx < sample_two_onto_one.length.toNat) ∧
    loaded 2 sample_file 0 1 1 (permute_table (Equiv.swap 0 1) sample_two_onto_one) sample_data
      = loaded 2 sample_file 0 1 1 sample_two_onto_one sample_data := by
  have hσ : ∀ idx, idx < sample_two_onto_one.length.toNat
      ↔ (Equiv.swap 0 1 : Equiv.Perm Nat) idx < sample_two_onto_one.length.toNat := by
    intro idx
    show idx < 2 ↔ (Equiv.swap 0 1 : Equiv.Perm Nat) idx < 2
    by_cases h0 : idx = 0
    · subst h0; simp
    · by_cases h1 : idx = 1
      · subst h1; simp
      · rw [Equiv.swap_apply_of_ne_of_ne h0 h1]
  exact ⟨hσ, (C25_remap_order_irrelevant 2 sample_file 0 1 1 sample_two_onto_one sample_data
    (Equiv.swap 0 1) hσ).1⟩

/-! ## linear_interp in double precision -/

/-- Rounding to an integer moves a number by at most one half. -/
theorem round_half_even_err (q : ℚ) : |(round_half_even q : ℚ) - q| ≤ 1 / 2 := by
  have h1 := Int.floor_le q
  have h2 := Int.lt_floor_add_one q
  unfold round_half_even
  rw [abs_le]
  split_ifs <;> push_cast <;> constructor <;> linarith

/-- The rounding to an integer, given the integer part. -/
theorem round_half_even_of_floor (q : ℚ) (f : Int) (h1 : (f : ℚ) ≤ q) (h2 : q < f + 1) :
    round_half_even q =
      if q - f < 1 / 2 then f else if 1 / 2 < q - f then f + 1
      else if f % 2 = 0 then f else f + 1 := by
  have hf : ⌊q⌋ = f := Int.floor_eq_iff.2 ⟨h1, h2⟩
  unfold round_half_even
  rw [hf]

/-- The spacing is positive. -/
theorem double_ulp_pos (q : ℚ) : 0 < double_ulp q := by
  unfold double_ulp
  exact zpow_pos (by norm_num) _

/-- The spacing in the binade `2^e ≤ |q| < 2^(e+1)` of the normal range. -/
theorem double_ulp_of_binade (q : ℚ) (e : Int) (he : -1022 ≤ e) (h1 : (2 : ℚ) ^ e ≤ |q|)
    (h2 : |q| < (2 : ℚ) ^ (e + 1)) : double_ulp q = (2 : ℚ) ^ (e - 52) := by
  have hq : 0 < |q| := lt_of_lt_of_le (zpow_pos (by norm_num) _) h1
  have hl : Int.log 2 |q| = e := by
    apply le_antisymm
    · have := (Int.lt_zpow_iff_log_lt (b := 2) (by norm_num) hq (x := e + 1)).1
        (by exact_mod_cast h2)
      omega
    · exact (Int.zpow_le_iff_le_log (b := 2) (by norm_num) hq).1 (by exact_mod_cast h1)
  unfold double_ulp
  rw [hl, max_eq_left he]


/-- Zero is a double. -/
theorem round_double_zero : round_double 0 = some 0 := by
  have h : round_half_even (0 / double_ulp 0) = 0 := by
    rw [zero_div]
    unfold round_half_even
    norm_num
  unfold round_double
  rw [h]
  norm_num [DBL_MAX]

/-- A rounding that does not overflow is the nearest multiple of the spacing. -/
theorem round_double_value (q r : ℚ) (h : round_double q = some r) :
    r = (round_half_even (q / double_ulp q) : ℚ) * double_ulp q ∧ |r| ≤ DBL_MAX := by
  unfold round_double at h
  split_ifs at h with hc
  · cases h
    exact ⟨rfl, hc⟩

/-- The nearest multiple of the spacing is within half a spacing. -/
theorem round_value_err (q : ℚ) :
    |(round_half_even (q / double_ulp q) : ℚ) * double_ulp q - q| ≤ double_ulp q / 2 := by
  have hp := double_ulp_pos q
  have h := round_half_even_err (q / double_ulp q)
  have e : (round_half_even (q / double_ulp q) : ℚ) * double_ulp q - q
      = ((round_half_even (q / double_ulp q) : ℚ) - q / double_ulp q) * double_ulp q := by
    field_simp
  rw [e, abs_mul, abs_of_pos hp]
  nlinarith

/-- Half a spacing is at most `|q| / 2^53`, or `2^-1075` below the normal range. -/
theorem double_ulp_half_le (q : ℚ) (hq : q ≠ 0) :
    double_ulp q / 2 ≤ |q| / 2 ^ 53 + 1 / 2 ^ 1075 := by
  have hq0 : 0 < |q| := abs_pos.2 hq
  unfold double_ulp
  by_cases h : -1022 ≤ Int.log 2 |q|
  · rw [max_eq_left h, zpow_sub₀ (by norm_num)]
    have h1 : ((2 : ℕ) : ℚ) ^ Int.log 2 |q| ≤ |q| := Int.zpow_log_le_self (by norm_num) hq0
    have h2 : (2 : ℚ) ^ Int.log 2 |q| ≤ |q| := by exact_mod_cast h1
    have h3 : (2 : ℚ) ^ (52 : Int) = 2 ^ 52 := by norm_cast
    rw [h3]
    have h4 : (0 : ℚ) < 1 / 2 ^ 1075 := by positivity
    have h5 : (2 : ℚ) ^ Int.log 2 |q| / 2 ^ 52 / 2 ≤ |q| / 2 ^ 53 := by
      rw [div_div, div_le_div_iff₀ (by positivity) (by positivity)]
      have : (2 : ℚ) ^ 52 * 2 = 2 ^ 53 := by norm_num
      rw [this]
      exact mul_le_mul_of_nonneg_right h2 (by positivity)
    linarith
  · rw [max_eq_right (le_of_lt (not_le.1 h))]
    have h3 : (2 : ℚ) ^ ((-1022 : Int) - 52) / 2 = 1 / 2 ^ 1075 := by
      rw [show ((-1022 : Int) - 52) = -(1074 : ℕ) by norm_num, zpow_neg, zpow_natCast]
      norm_num
    rw [h3]
    have : (0 : ℚ) ≤ |q| / 2 ^ 53 := by positivity
    linarith

/-- The error of one rounding: relative `2^-53`, or absolute `2^-1075` below the normal range. -/
theorem round_double_err (q r : ℚ) (h : round_double q = some r) :
    |r - q| ≤ |q| / 2 ^ 53 + 1 / 2 ^ 1075 := by
  by_cases hq : q = 0
  · subst hq
    rw [round_double_zero] at h
    cases h
    norm_num
  · rw [(round_double_value q r h).1]
    exact le_trans (round_value_err q) (double_ulp_half_le q hq)

/-- A result of magnitude at most `2^1023` does not overflow. -/
theorem round_double_some (q : ℚ) (hq : |q| ≤ 2 ^ 1023) :
    ∃ r, round_double q = some r ∧ |r - q| ≤ |q| / 2 ^ 53 + 1 / 2 ^ 1075 := by
  by_cases h0 : q = 0
  · subst h0
    exact ⟨0, round_double_zero, by norm_num⟩
  have e := le_trans (round_value_err q) (double_ulp_half_le q h0)
  have hb : |(round_half_even (q / double_ulp q) : ℚ) * double_ulp q| ≤ DBL_MAX := by
    have h1 : |(round_half_even (q / double_ulp q) : ℚ) * double_ulp q|
        ≤ |q| + |(round_half_even (q / double_ulp q) : ℚ) * double_ulp q - q| := by
      have := abs_add q ((round_half_even (q / double_ulp q) : ℚ) * double_ulp q - q)
      simpa using this
    have h2 : |q| + (|q| / 2 ^ 53 + 1 / 2 ^ 1075) ≤ DBL_MAX := by
      have h3 : (2 : ℚ) ^ 1023 + ((2 : ℚ) ^ 1023 / 2 ^ 53 + 1 / 2 ^ 1075) ≤ DBL_MAX := by
        norm_num [DBL_MAX]
      have h4 : |q| / 2 ^ 53 ≤ (2 : ℚ) ^ 1023 / 2 ^ 53 :=
        div_le_div_of_nonneg_right hq (by positivity)
      linarith
    linarith
  refine ⟨_, ?_, e⟩
  unfold round_double
  rw [if_pos hb]

/-- The exact blend is no larger in magnitude than its operands. -/
theorem blend_exact_abs (x0 x1 t M : ℚ) (ht0 : 0 ≤ t) (ht1 : t ≤ 1) (h0 : |x0| ≤ M)
    (h1 : |x1| ≤ M) : |(1 - t) * x0 + t * x1| ≤ M := by
  have hs0 : 0 ≤ 1 - t := by linarith
  have e0 : |(1 - t) * x0| ≤ (1 - t) * M := by
    rw [abs_mul, abs_of_nonneg hs0]; exact mul_le_mul_of_nonneg_left h0 hs0
  have e1 : |t * x1| ≤ t * M := by
    rw [abs_mul, abs_of_nonneg ht0]; exact mul_le_mul_of_nonneg_left h1 ht0
  have := abs_add ((1 - t) * x0) (t * x1)
  linarith

/-- The error of the two rounded products, before the last rounding, with unit roundoff `u`
and underflow threshold `η`. -/
theorem blend_sum_error (u η x0 x1 t a b c M : ℚ) (hu0 : 0 ≤ u) (hη0 : 0 ≤ η)
    (ht0 : 0 ≤ t) (ht1 : t ≤ 1) (h0 : |x0| ≤ M) (h1 : |x1| ≤ M)
    (ha : |a - (1 - t)| ≤ |1 - t| * u + η)
    (hb : |b - a * x0| ≤ |a * x0| * u + η)
    (hc : |c - t * x1| ≤ |t * x1| * u + η) :
    |a| ≤ 1 + u + η ∧
    |b + c - ((1 - t) * x0 + t * x1)| ≤ (2 * u + u ^ 2 + u * η + η) * M + 2 * η := by
  have hs0 : 0 ≤ 1 - t := by linarith
  have hM : 0 ≤ M := le_trans (abs_nonneg _) h0
  rw [abs_of_nonneg hs0] at ha
  have hA : |a| ≤ (1 - t) + ((1 - t) * u + η) := by
    have h := abs_sub_abs_le_abs_sub a (1 - t)
    rw [abs_of_nonneg hs0] at h
    linarith
  have hsu : 0 ≤ (1 - t) * u + η := add_nonneg (mul_nonneg hs0 hu0) hη0
  have hax : |a * x0| ≤ ((1 - t) + ((1 - t) * u + η)) * M := by
    rw [abs_mul]
    exact mul_le_mul hA h0 (abs_nonneg _) (add_nonneg hs0 hsu)
  have hdax : |a * x0 - (1 - t) * x0| ≤ ((1 - t) * u + η) * M := by
    rw [← sub_mul, abs_mul]
    exact mul_le_mul ha h0 (abs_nonneg _) hsu
  have htx : |t * x1| ≤ t * M := by
    rw [abs_mul, abs_of_nonneg ht0]
    exact mul_le_mul_of_nonneg_left h1 ht0
  have hB : |b - (1 - t) * x0|
      ≤ ((1 - t) + ((1 - t) * u + η)) * M * u + η + ((1 - t) * u + η) * M := by
    have h := abs_sub_le b (a * x0) ((1 - t) * x0)
    have h2 := mul_le_mul_of_nonneg_right hax hu0
    linarith
  have hC : |c - t * x1| ≤ t * M * u + η := by
    have h2 := mul_le_mul_of_nonneg_right htx hu0
    linarith
  have hsum : |b + c - ((1 - t) * x0 + t * x1)| ≤ |b - (1 - t) * x0| + |c - t * x1| := by
    have e : b + c - ((1 - t) * x0 + t * x1) = (b - (1 - t) * x0) + (c - t * x1) := by ring
    rw [e]
    exact abs_add _ _
  refine ⟨?_, ?_⟩
  · nlinarith [mul_nonneg ht0 hu0]
  · have p1 : 0 ≤ M * u * t := mul_nonneg (mul_nonneg hM hu0) ht0
    have p2 : 0 ≤ M * u * t * u := mul_nonneg p1 hu0
    nlinarith

/-- The error of the rounded blend against the exact one. -/
theorem blend_total_error (u η x0 x1 t b c r M : ℚ) (hu0 : 0 ≤ u) (hu1 : u ≤ 1 / 8)
    (hη0 : 0 ≤ η) (hη : η ≤ u) (ht0 : 0 ≤ t) (ht1 : t ≤ 1) (h0 : |x0| ≤ M) (h1 : |x1| ≤ M)
    (hs : |b + c - ((1 - t) * x0 + t * x1)| ≤ (2 * u + u ^ 2 + u * η + η) * M + 2 * η)
    (hr : |r - (b + c)| ≤ |b + c| * u + η) :
    |r - ((1 - t) * x0 + t * x1)| ≤ 8 * u * M + 4 * η := by
  have hM : 0 ≤ M := le_trans (abs_nonneg _) h0
  have hE := blend_exact_abs x0 x1 t M ht0 ht1 h0 h1
  have hbc : |b + c| ≤ M + ((2 * u + u ^ 2 + u * η + η) * M + 2 * η) := by
    have h := abs_sub_abs_le_abs_sub (b + c) ((1 - t) * x0 + t * x1)
    linarith
  have h3 := abs_sub_le r (b + c) ((1 - t) * x0 + t * x1)
  have h4 := mul_le_mul_of_nonneg_right hbc hu0
  have k1 : (1 + u) * (2 * u + u ^ 2 + u * η + η) + u ≤ 8 * u := by
    have q1 : u * η ≤ u * u := mul_le_mul_of_nonneg_left hη hu0
    have q2 : u * u ≤ u * (1 / 8) := mul_le_mul_of_nonneg_left hu1 hu0
    have q3 : 0 ≤ u * u := mul_nonneg hu0 hu0
    have q4 : u * u * u ≤ u * u * (1 / 8) := mul_le_mul_of_nonneg_left hu1 q3
    have q5 : u * (u * η) ≤ u * (u * u) := mul_le_mul_of_nonneg_left q1 hu0
    have q6 : u * η ≤ 1 / 8 * η := mul_le_mul_of_nonneg_right hu1 hη0
    nlinarith
  have k2 : (1 + u) * (2 * η) + η ≤ 4 * η := by
    have q6 : u * η ≤ 1 / 8 * η := mul_le_mul_of_nonneg_right hu1 hη0
    nlinarith
  have k3 := mul_le_mul_of_nonneg_right k1 hM
  have e : (M + ((2 * u + u ^ 2 + u * η + η) * M + 2 * η)) * u + η
        + ((2 * u + u ^ 2 + u * η + η) * M + 2 * η)
      = ((1 + u) * (2 * u + u ^ 2 + u * η + η) + u) * M + ((1 + u) * (2 * η) + η) := by ring
  linarith

/-- The expression of line 535 in double does not overflow for operands up to `2^1022` and
stays within `max |x0| |x1| / 2^50 + 2^-1073` of its exact value. -/
theorem linear_interp_double_near (x0 x1 t : ℚ) (ht0 : 0 ≤ t) (ht1 : t ≤ 1)
    (h0 : |x0| ≤ 2 ^ 1022) (h1 : |x1| ≤ 2 ^ 1022) :
    ∃ r, linear_interp_double x0 x1 t = some r ∧
      |r - linear_interp x0 x1 t| ≤ max |x0| |x1| / 2 ^ 50 + 1 / 2 ^ 1073 := by
  have hu0 : (0 : ℚ) ≤ 1 / 2 ^ 53 := by positivity
  have hu1 : (1 : ℚ) / 2 ^ 53 ≤ 1 / 8 := by norm_num
  have hη0 : (0 : ℚ) ≤ 1 / 2 ^ 1075 := by positivity
  have hη : (1 : ℚ) / 2 ^ 1075 ≤ 1 / 2 ^ 53 := by norm_num
  have hs0 : 0 ≤ 1 - t := by linarith
  obtain ⟨a, ha, ea⟩ := round_double_some (1 - t) (by
    rw [abs_of_nonneg hs0]
    have : (1 : ℚ) ≤ 2 ^ 1023 := by norm_num
    linarith)
  rw [div_eq_mul_one_div] at ea
  have hA1 : |a| ≤ 2 := by
    have h := abs_sub_abs_le_abs_sub a (1 - t)
    rw [abs_of_nonneg hs0] at h ea
    have h2 := mul_le_mul_of_nonneg_right (show 1 - t ≤ 1 by linarith) hu0
    have h3 : (1 : ℚ) * (1 / 2 ^ 53) + 1 / 2 ^ 1075 ≤ 1 := by norm_num
    linarith
  obtain ⟨b, hb, eb⟩ := round_double_some (a * x0) (by
    rw [abs_mul]
    have h := mul_le_mul hA1 h0 (abs_nonneg _) (by norm_num)
    have h2 : (2 : ℚ) * 2 ^ 1022 = 2 ^ 1023 := by norm_num
    linarith)
  rw [div_eq_mul_one_div] at eb
  obtain ⟨c, hc, ec⟩ := round_double_some (t * x1) (by
    rw [abs_mul, abs_of_nonneg ht0]
    have h := mul_le_mul ht1 h1 (abs_nonneg _) (by norm_num)
    have h2 : (1 : ℚ) * 2 ^ 1022 ≤ 2 ^ 1023 := by norm_num
    linarith)
  rw [div_eq_mul_one_div] at ec
  have sB := (blend_sum_error (1 / 2 ^ 53) (1 / 2 ^ 1075) x0 x1 t a b c (2 ^ 1022) hu0 hη0
    ht0 ht1 h0 h1 ea eb ec).2
  have hEB := blend_exact_abs x0 x1 t (2 ^ 1022) ht0 ht1 h0 h1
  obtain ⟨r, hr, er⟩ := round_double_some (b + c) (by
    have h := abs_sub_abs_le_abs_sub (b + c) ((1 - t) * x0 + t * x1)
    have h2 : (2 * (1 / 2 ^ 53) + (1 / 2 ^ 53) ^ 2 + 1 / 2 ^ 53 * (1 / 2 ^ 1075)
        + 1 / 2 ^ 1075) * 2 ^ 1022 + 2 * (1 / 2 ^ 1075) + (2 : ℚ) ^ 1022 ≤ 2 ^ 1023 := by
      norm_num
    linarith)
  rw [div_eq_mul_one_div] at er
  refine ⟨r, ?_, ?_⟩
  · simp [linear_interp_double, ha, hb, hc, hr]
  · have sM := (blend_sum_error (1 / 2 ^ 53) (1 / 2 ^ 1075) x0 x1 t a b c (max |x0| |x1|)
      hu0 hη0 ht0 ht1 (le_max_left _ _) (le_max_right _ _) ea eb ec).2
    have h := blend_total_error (1 / 2 ^ 53) (1 / 2 ^ 1075) x0 x1 t b c r (max |x0| |x1|)
      hu0 hu1 hη0 hη ht0 ht1 (le_max_left _ _) (le_max_right _ _) sM er
    have e1 : 8 * (1 / 2 ^ 53) * max |x0| |x1| = max |x0| |x1| / 2 ^ 50 := by
      have e : (8 : ℚ) * (1 / 2 ^ 53) = 1 / 2 ^ 50 := by norm_num
      rw [e, one_div, div_eq_mul_inv, mul_comm]
    have e2 : (4 : ℚ) * (1 / 2 ^ 1075) = 1 / 2 ^ 1073 := by norm_num
    rw [e1, e2] at h
    exact h

/-- The rounding of a number whose binade and integer part are given. -/
theorem round_double_eval (q r w : ℚ) (e m f : Int) (he : -1022 ≤ e)
    (hw : w = (2 : ℚ) ^ (e - 52)) (h1 : (2 : ℚ) ^ e ≤ |q|) (h2 : |q| < (2 : ℚ) ^ (e + 1))
    (hf1 : (f : ℚ) ≤ q / w) (hf2 : q / w < f + 1)
    (hm : (if q / w - f < 1 / 2 then f else if 1 / 2 < q / w - f then f + 1
      else if f % 2 = 0 then f else f + 1) = m)
    (hr : r = m * w) (hmax : |r| ≤ DBL_MAX) : round_double q = some r := by
  have hu : double_ulp q = w := by rw [hw]; exact double_ulp_of_binade q e he h1 h2
  have hv : round_half_even (q / w) = m := by
    rw [round_half_even_of_floor (q / w) f hf1 hf2]; exact hm
  unfold round_double
  rw [hu, hv, ← hr, if_pos hmax]

/-- The double nearest to `1 / 10`. -/
theorem sample_round_tenth :
    round_double (1 / 10) = some (3602879701896397 / 2 ^ 55) := by
  refine round_double_eval _ _ (1 / 2 ^ 56) (-4) 7205759403792794 7205759403792793
    (by norm_num) ?_ ?_ ?_ ?_ ?_ ?_ ?_ ?_ <;>
  norm_num [double_tenth, double_fifth, double_three_tenths, DBL_MAX, abs_of_pos]

/-- The double nearest to `2 / 10`. -/
theorem sample_round_fifth :
    round_double (2 / 10) = some (3602879701896397 / 2 ^ 54) := by
  refine round_double_eval _ _ (1 / 2 ^ 55) (-3) 7205759403792794 7205759403792793
    (by norm_num) ?_ ?_ ?_ ?_ ?_ ?_ ?_ ?_ <;>
  norm_num [double_tenth, double_fifth, double_three_tenths, DBL_MAX, abs_of_pos]

/-- The double nearest to `3 / 10`. -/
theorem sample_round_three_tenths :
    round_double (3 / 10) = some (5404319552844595 / 2 ^ 54) := by
  refine round_double_eval _ _ (1 / 2 ^ 54) (-2) 5404319552844595 5404319552844595
    (by norm_num) ?_ ?_ ?_ ?_ ?_ ?_ ?_ ?_ <;>
  norm_num [double_tenth, double_fifth, double_three_tenths, DBL_MAX, abs_of_pos]

/-- The rounded difference `1.0 - t_norm` for `t_norm = double_fifth`. -/
theorem sample_fifth_one_minus :
    round_double (1 - double_fifth) = some (3602879701896397 / 2 ^ 52) := by
  refine round_double_eval _ _ (1 / 2 ^ 53) (-1) 7205759403792794 7205759403792793
    (by norm_num) ?_ ?_ ?_ ?_ ?_ ?_ ?_ ?_ <;>
  norm_num [double_tenth, double_fifth, double_three_tenths, DBL_MAX, abs_of_pos]

/-- The rounded product `(1.0 - t_norm) * x0` for `t_norm = double_fifth`, `x0 = double_tenth`. -/
theorem sample_fifth_left :
    round_double (3602879701896397 / 2 ^ 52 * double_tenth) = some (1441151880758559 / 2 ^ 54) := by
  refine round_double_eval _ _ (1 / 2 ^ 56) (-4) 5764607523034236 5764607523034235
    (by norm_num) ?_ ?_ ?_ ?_ ?_ ?_ ?_ ?_ <;>
  norm_num [double_tenth, double_fifth, double_three_tenths, DBL_MAX, abs_of_pos]

/-- The rounded product `t_norm * x1` for `t_norm = double_fifth`, `x1 = double_tenth`. -/
theorem sample_fifth_right :
    round_double (double_fifth * double_tenth) = some (1441151880758559 / 2 ^ 56) := by
  refine round_double_eval _ _ (1 / 2 ^ 58) (-6) 5764607523034236 5764607523034235
    (by norm_num) ?_ ?_ ?_ ?_ ?_ ?_ ?_ ?_ <;>
  norm_num [double_tenth, double_fifth, double_three_tenths, DBL_MAX, abs_of_pos]

/-- The rounded sum of the two products for `t_norm = double_fifth`. -/
theorem sample_fifth_sum :
    round_double (1441151880758559 / 2 ^ 54 + 1441151880758559 / 2 ^ 56)
      = some (7205759403792795 / 2 ^ 56) := by
  refine round_double_eval _ _ (1 / 2 ^ 56) (-4) 7205759403792795 7205759403792795
    (by norm_num) ?_ ?_ ?_ ?_ ?_ ?_ ?_ ?_ <;>
  norm_num [double_tenth, double_fifth, double_three_tenths, DBL_MAX, abs_of_pos]

/-- The blend of `double_tenth` with itself at `t_norm = double_fifth`, in double. -/
theorem sample_fifth_blend :
    linear_interp_double double_tenth double_tenth double_fifth
      = some (7205759403792795 / 2 ^ 56) := by
  unfold linear_interp_double
  rw [sample_fifth_one_minus, Option.some_bind, sample_fifth_left, Option.some_bind,
    sample_fifth_right, Option.some_bind, sample_fifth_sum]

/-- The rounded difference `1.0 - t_norm` for `t_norm = double_three_tenths`. -/
theorem sample_three_tenths_one_minus :
    round_double (1 - double_three_tenths) = some (3152519739159347 / 2 ^ 52) := by
  refine round_double_eval _ _ (1 / 2 ^ 53) (-1) 6305039478318694 6305039478318694
    (by norm_num) ?_ ?_ ?_ ?_ ?_ ?_ ?_ ?_ <;>
  norm_num [double_tenth, double_fifth, double_three_tenths, DBL_MAX, abs_of_pos]

/-- The rounded product `(1.0 - t_norm) * x0` for `t_norm = double_three_tenths`,
`x0 = double_tenth`. -/
theorem sample_three_tenths_left :
    round_double (3152519739159347 / 2 ^ 52 * double_tenth) = some (5044031582654955 / 2 ^ 56) := by
  refine round_double_eval _ _ (1 / 2 ^ 56) (-4) 5044031582654955 5044031582654955
    (by norm_num) ?_ ?_ ?_ ?_ ?_ ?_ ?_ ?_ <;>
  norm_num [double_tenth, double_fifth, double_three_tenths, DBL_MAX, abs_of_pos]

/-- The rounded product `t_norm * x1` for `t_norm = double_three_tenths`, `x1 = double_tenth`. -/
theorem sample_three_tenths_right :
    round_double (double_three_tenths * double_tenth) = some (1080863910568919 / 2 ^ 55) := by
  refine round_double_eval _ _ (1 / 2 ^ 58) (-6) 8646911284551352 8646911284551352
    (by norm_num) ?_ ?_ ?_ ?_ ?_ ?_ ?_ ?_ <;>
  norm_num [double_tenth, double_fifth, double_three_tenths, DBL_MAX, abs_of_pos]

/-- The rounded sum of the two products for `t_norm = double_three_tenths`. -/
theorem sample_three_tenths_sum :
    round_double (5044031582654955 / 2 ^ 56 + 1080863910568919 / 2 ^ 55)
      = some (7205759403792793 / 2 ^ 56) := by
  refine round_double_eval _ _ (1 / 2 ^ 56) (-4) 7205759403792793 7205759403792793
    (by norm_num) ?_ ?_ ?_ ?_ ?_ ?_ ?_ ?_ <;>
  norm_num [double_tenth, double_fifth, double_three_tenths, DBL_MAX, abs_of_pos]

/-- The blend of `double_tenth` with itself at `t_norm = double_three_tenths`, in double. -/
theorem sample_three_tenths_blend :
    linear_interp_double double_tenth double_tenth double_three_tenths
      = some (7205759403792793 / 2 ^ 56) := by
  unfold linear_interp_double
  rw [sample_three_tenths_one_minus, Option.some_bind, sample_three_tenths_left, Option.some_bind,
    sample_three_tenths_right, Option.some_bind, sample_three_tenths_sum]

/-- The number 2 is a double. -/
theorem sample_round_two : round_double 2 = some 2 := by
  refine round_double_eval _ _ (1 / 2 ^ 51) 1 4503599627370496 4503599627370496
    (by norm_num) ?_ ?_ ?_ ?_ ?_ ?_ ?_ ?_ <;>
  norm_num [DBL_MAX, abs_of_pos]

/-- The blend of 1 and 0 at `t_norm = -1`, in double. -/
theorem sample_outside_blend : linear_interp_double 1 0 (-1) = some 2 := by
  unfold linear_interp_double
  have e1 : (1 : ℚ) - (-1) = 2 := by norm_num
  have e2 : (2 : ℚ) * 1 = 2 := by norm_num
  have e3 : (-1 : ℚ) * 0 = 0 := by norm_num
  have e4 : (2 : ℚ) + 0 = 2 := by norm_num
  rw [e1, sample_round_two, Option.some_bind, e2, sample_round_two, Option.some_bind, e3,
    round_double_zero, Option.some_bind, e4, sample_round_two]

/-- In exact arithmetic the blend stays in the bracket for `0 ≤ t_norm ≤ 1` and leaves it for
every other `t_norm` when `x0 ≠ x1`. -/
theorem linear_interp_exact_bracket (x0 x1 t_norm : ℚ) :
    (0 ≤ t_norm → t_norm ≤ 1 →
      min x0 x1 ≤ linear_interp x0 x1 t_norm ∧ linear_interp x0 x1 t_norm ≤ max x0 x1) ∧
    (x0 ≠ x1 → (t_norm < 0 ∨ 1 < t_norm) →
      ¬ (min x0 x1 ≤ linear_interp x0 x1 t_norm ∧ linear_interp x0 x1 t_norm ≤ max x0 x1)) := by
  unfold linear_interp
  constructor
  · intro h0 h1
    rcases le_total x0 x1 with h | h
    · rw [min_eq_left h, max_eq_right h]
      constructor <;> nlinarith
    · rw [min_eq_right h, max_eq_left h]
      constructor <;> nlinarith
  · intro hne ht
    rintro ⟨hlo, hhi⟩
    rcases lt_or_gt_of_ne hne with h | h
    · rw [min_eq_left h.le] at hlo
      rw [max_eq_right h.le] at hhi
      rcases ht with ht | ht <;> nlinarith
    · rw [min_eq_right h.le] at hlo
      rw [max_eq_left h.le] at hhi
      rcases ht with ht | ht <;> nlinarith

/-- C26 (as stated, refuted in double precision). The doubles nearest to 0.1, 0.2 and 0.3 are
`double_tenth`, `double_fifth` and `double_three_tenths`.  With `x0 = x1 = double_tenth`, so
that the bracket is the single point `double_tenth`, the expression of line 535 evaluated in
double gives `double_tenth + 2^-56` at `t_norm = double_fifth`, above the maximum, and
`double_tenth - 2^-56` at `t_norm = double_three_tenths`, below the minimum; both `t_norm` lie
in `[0, 1]`. -/
theorem C26_bracket_left_in_double :
    round_double (1 / 10) = some double_tenth ∧
    round_double (2 / 10) = some double_fifth ∧
    round_double (3 / 10) = some double_three_tenths ∧
    (0 ≤ double_fifth ∧ double_fifth ≤ 1) ∧
    linear_interp_double double_tenth double_tenth double_fifth
      = some (double_tenth + 1 / 2 ^ 56) ∧
    ¬ (double_tenth + 1 / 2 ^ 56 ≤ max double_tenth double_tenth) ∧
    (0 ≤ double_three_tenths ∧ double_three_tenths ≤ 1) ∧
    linear_interp_double double_tenth double_tenth double_three_tenths
      = some (double_tenth - 1 / 2 ^ 56) ∧
    ¬ (min double_tenth double_tenth ≤ double_tenth - 1 / 2 ^ 56) := by
  refine ⟨?_, ?_, ?_, ?_, ?_, ?_, ?_, ?_, ?_⟩
  · rw [sample_round_tenth]; norm_num [double_tenth]
  · rw [sample_round_fifth]; norm_num [double_fifth]
  · rw [sample_round_three_tenths]; norm_num [double_three_tenths]
  · norm_num [double_fifth]
  · rw [sample_fifth_blend]; norm_num [double_tenth]
  · norm_num
  · norm_num [double_three_tenths]
  · rw [sample_three_tenths_blend]; norm_num [double_tenth]
  · norm_num

/-- C26 (amended). Temporal interpolation stays within a few units in the last place of the
bracket: for all `x0`, `x1` of magnitude at most `2^1022` and every `t_norm` with
`0 ≤ t_norm ≤ 1`, the expression of line 535 evaluated in double does not overflow and its
value `r` satisfies `min x0 x1 - δ ≤ r ≤ max x0 x1 + δ` with
`δ = max |x0| |x1| / 2^50 + 2^-1073`; evaluated in exact arithmetic the value lies in the
bracket itself, `min x0 x1 ≤ linear_interp x0 x1 t_norm ≤ max x0 x1`.  For `t_norm` outside
`[0, 1]` and `x0 ≠ x1` the exact value lies outside the bracket, and so does the double one
for `x0 = 1`, `x1 = 0`, `t_norm = -1`, which is 2. -/
theorem C26_linear_interp_near_bracket (x0 x1 t_norm : ℚ) :
    (0 ≤ t_norm → t_norm ≤ 1 → |x0| ≤ 2 ^ 1022 → |x1| ≤ 2 ^ 1022 →
      ∃ r, linear_interp_double x0 x1 t_norm = some r ∧
        min x0 x1 - (max |x0| |x1| / 2 ^ 50 + 1 / 2 ^ 1073) ≤ r ∧
        r ≤ max x0 x1 + (max |x0| |x1| / 2 ^ 50 + 1 / 2 ^ 1073)) ∧
    (0 ≤ t_norm → t_norm ≤ 1 →
      min x0 x1 ≤ linear_interp x0 x1 t_norm ∧ linear_interp x0 x1 t_norm ≤ max x0 x1) ∧
    (x0 ≠ x1 → (t_norm < 0 ∨ 1 < t_norm) →
      ¬ (min x0 x1 ≤ linear_interp x0 x1 t_norm ∧ linear_interp x0 x1 t_norm ≤ max x0 x1)) ∧
    (linear_interp_double 1 0 (-1) = some 2 ∧
      ¬ ((2 : ℚ) ≤ max 1 0 + (max |1| |0| / 2 ^ 50 + 1 / 2 ^ 1073))) := by
  refine ⟨?_, (linear_interp_exact_bracket x0 x1 t_norm).1,
    (linear_interp_exact_bracket x0 x1 t_norm).2, sample_outside_blend, ?_⟩
  · intro ht0 ht1 h0 h1
    obtain ⟨r, hr, er⟩ := linear_interp_double_near x0 x1 t_norm ht0 ht1 h0 h1
    obtain ⟨e1, e2⟩ := (linear_interp_exact_bracket x0 x1 t_norm).1 ht0 ht1
    obtain ⟨e3, e4⟩ := abs_le.1 er
    exact ⟨r, hr, by linarith, by linarith⟩
  · norm_num

/-- Witness for C26: the blend of `double_tenth` with itself at `t_norm = double_fifth` is a
double within `δ` of the bracket. -/
theorem C26_linear_interp_near_bracket_witness :
    (0 ≤ double_fifth ∧ double_fifth ≤ 1 ∧ |double_tenth| ≤ 2 ^ 1022) ∧
    ∃ r, linear_interp_double double_tenth double_tenth double_fifth = some r ∧
      min double_tenth double_tenth
          - (max |double_tenth| |double_tenth| / 2 ^ 50 + 1 / 2 ^ 1073) ≤ r ∧
      r ≤ max double_tenth double_tenth
          + (max |double_tenth| |double_tenth| / 2 ^ 50 + 1 / 2 ^ 1073) := by
  have h0 : (0 : ℚ) ≤ double_fifth := by norm_num [double_fifth]
  have h1 : double_fifth ≤ 1 := by norm_num [double_fifth]
  have h2 : |double_tenth| ≤ 2 ^ 1022 := by norm_num [double_tenth, abs_of_pos]
  exact ⟨⟨h0, h1, h2⟩,
    (C26_linear_interp_near_bracket double_tenth double_tenth double_fifth).1 h0 h1 h2 h2⟩

/-! ## get_remap_weights_from_file: order and multiplicity -/

theorem kept_entries_increasing (file : RemapFile) (dofs_gids : List Int) :
    (kept_entries file dofs_gids).Pairwise (· < ·) := by
  rw [kept_entries, retain_owned_global]
  exact (List.pairwise_lt_range _).filter _

theorem kept_entries_length_le (file : RemapFile) (dofs_gids : List Int) :
    (kept_entries file dofs_gids).length ≤ file.n_s.toNat := by
  rw [kept_entries, retain_owned_global]
  exact (List.length_filter_le _ _).trans (by rw [List.length_range])

/-- C27. `get_remap_weights_from_file` keeps each owned file entry exactly once and in file
order: the kept file entries, in table order, are strictly increasing (so none repeats and
the file order is kept); the resulting `length` is their number and does not exceed `n_s`; and
when `dofs_gids` holds the id of a kept entry more than once, the entry's `target_grid_loc` is
the first position holding that id. -/
theorem C27_kept_once_in_file_order (file : RemapFile) (ncols_scream : Int)
    (dofs_gids : List Int) (hi : SPAHorizInterp) (hnb : file.n_b = ncols_scream) :
    (kept_entries file dofs_gids).Pairwise (· < ·) ∧
    (kept_entries file dofs_gids).Nodup ∧
    (∀ a b : Nat, a < b → b < (kept_entries file dofs_gids).length →
      (kept_entries file dofs_gids).getD a 0 < (kept_entries file dofs_gids).getD b 0) ∧
    (get_remap_weights_from_file file ncols_scream dofs_gids hi).state.length
      = ((kept_entries file dofs_gids).length : Int) ∧
    (0 ≤ file.n_s →
      (get_remap_weights_from_file file ncols_scream dofs_gids hi).state.length ≤ file.n_s) ∧
    (∀ idx : Nat, idx < (kept_entries file dofs_gids).length →
      ∃ p : Nat, (get_remap_weights_from_file file ncols_scream dofs_gids
          hi).state.target_grid_loc idx = (p : Int) ∧
        dofs_gids[p]? = some (file.col ((kept_entries file dofs_gids).getD idx 0) - 1) ∧
        ∀ j : Nat, j < p →
          dofs_gids[j]? ≠ some (file.col ((kept_entries file dofs_gids).getD idx 0) - 1)) := by
  obtain ⟨hlen, _, htab⟩ := get_remap_table file ncols_scream dofs_gids hi hnb
  have hpw := kept_entries_increasing file dofs_gids
  refine ⟨hpw, hpw.imp (fun h => h.ne), ?_, hlen, ?_, ?_⟩
  · intro a b hab hb
    rw [List.getD_eq_getElem _ _ (hab.trans hb), List.getD_eq_getElem _ _ hb]
    exact List.pairwise_iff_getElem.1 hpw a b (hab.trans hb) hb hab
  · intro hn
    rw [hlen]
    have := kept_entries_length_le file dofs_gids
    omega
  · intro idx hidx
    obtain ⟨_, _, hfind, hpos⟩ := htab idx hidx
    obtain ⟨_, hget, hfirst⟩ := find_dof_some _ _ _ _ hfind
    rw [Nat.sub_zero] at hget hfirst
    exact ⟨_, (Int.toNat_of_nonneg hpos).symm, hget, hfirst⟩

theorem C27_kept_once_in_file_order_witness :
    sample_remap_file.n_b = 5 ∧
    kept_entries sample_remap_file [2, 4, 2] = [1, 2, 3] ∧
    (get_remap_weights_from_file sample_remap_file 5 [2, 4, 2]
      sample_empty_table).state.length = 3 ∧
    (∃ p : Nat, (get_remap_weights_from_file sample_remap_file 5 [2, 4, 2]
        sample_empty_table).state.target_grid_loc 2 = (p : Int) ∧
      [2, 4, 2][p]? = some (sample_remap_file.col 3 - 1) ∧
      ∀ j : Nat, j < p → [2, 4, 2][j]? ≠ some (sample_remap_file.col 3 - 1)) := by
  have hk : kept_entries sample_remap_file [2, 4, 2] = [1, 2, 3] := by decide
  have h := C27_kept_once_in_file_order sample_remap_file 5 [2, 4, 2] sample_empty_table rfl
  have h3 := h.2.2.2.1
  have h5 := h.2.2.2.2.2 2 (by rw [hk]; decide)
  rw [hk] at h3 h5
  exact ⟨rfl, hk, h3, h5⟩

/-! ## Packed level addressing -/

/-- C29. Packed level addressing of `update_spa_data_from_file`: for every pack width
`n ≥ 1` and every level `kk`, the pair `(pack, lane) = (kk / n, kk % n)` has `lane < n` and
`pack * n + lane = kk`; two levels with the same pair are the same level; level `kk` of the loop
writes the `CCN3` cell `(kk / n, kk % n)` and no other; and every level below
`source_grid_nlevs` has a pack index below `npack`, the rounded-up quotient
`(source_grid_nlevs + n - 1) / n`. -/
theorem C29_packed_level_addressing (n : Nat) (hn : 1 ≤ n) (kk : Nat) :
    kk % n < n ∧ kk / n * n + kk % n = kk ∧
    (∀ kk2 : Nat, kk2 / n = kk / n → kk2 % n = kk % n → kk2 = kk) ∧
    (∀ (raw : RawFields) (nswbands nlwbands : Int) (w : ℚ) (s t : Int) (d : SPAData),
      (remap_level n raw nswbands nlwbands w s t d kk).CCN3
        = add_at2 d.CCN3 t (kk / n) (kk % n) (raw.CCN3_v s kk * w)) ∧
    (∀ source_grid_nlevs : Int, kk < source_grid_nlevs.toNat →
      kk / n < npack n source_grid_nlevs ∧
      npack n source_grid_nlevs = (source_grid_nlevs.toNat + n - 1) / n ∧
      source_grid_nlevs.toNat ≤ npack n source_grid_nlevs * n ∧
      npack n source_grid_nlevs * n < source_grid_nlevs.toNat + n) := by
  refine ⟨Nat.mod_lt kk hn, Nat.div_add_mod' kk n, ?_, ?_, ?_⟩
  · intro kk2 h1 h2
    exact (level_eq_iff n kk2 kk).1 ⟨h1.symm, h2.symm⟩
  · intro raw nswbands nlwbands w s t d
    exact remap_level_CCN3 n raw nswbands nlwbands w s t d kk
  · intro nl hk
    refine ⟨level_pack_lt n nl kk hn hk, rfl, ?_, ?_⟩
    · unfold npack
      have h1 := Nat.div_add_mod' (nl.toNat + n - 1) n
      have h2 := Nat.mod_lt (nl.toNat + n - 1) hn
      omega
    · unfold npack
      have h1 := Nat.div_add_mod' (nl.toNat + n - 1) n
      omega

theorem C29_packed_level_addressing_witness :
    (1 : Nat) ≤ 2 ∧ 5 % 2 < 2 ∧ 5 / 2 * 2 + 5 % 2 = 5 ∧ 5 / 2 < npack 2 6 :=
  ⟨by decide, (C29_packed_level_addressing 2 (by decide) 5).1,
    (C29_packed_level_addressing 2 (by decide) 5).2.1,
    ((C29_packed_level_addressing 2 (by decide) 5).2.2.2.2 6 (by decide)).1⟩

/-! ## The vertical interpolator never leaves the range of the source values -/

theorem lin_interp_level_eq (minthreshold : ℚ) (km1 : Nat) (x1 y1 : Nat → ℚ) (x : ℚ) :
    lin_interp_level minthreshold km1 x1 y1 x
      = max (lin_interp_clamped km1 x1 y1 x) minthreshold := rfl

theorem lin_interp_level_nonneg (km1 : Nat) (x1 y1 : Nat → ℚ) (x : ℚ) :
    0 ≤ lin_interp_level 0 km1 x1 y1 x := by
  rw [lin_interp_level_eq]
  exact le_max_right _ _

/-! ## spa_main: bounds on the output -/

theorem lin_interp_clamped_below (km1 : Nat) (x1 y1 : Nat → ℚ) (x : ℚ) (hkm : 0 < km1)
    (h : ∀ k, k < km1 → x < x1 k) : lin_interp_clamped km1 x1 y1 x = y1 0 := by
  rw [lin_interp_clamped, if_pos (h 0 hkm)]

theorem lin_interp_clamped_above (km1 : Nat) (x1 y1 : Nat → ℚ) (x : ℚ) (hkm : 0 < km1)
    (h : ∀ k, k < km1 → x1 k < x) : lin_interp_clamped km1 x1 y1 x = y1 (km1 - 1) := by
  rw [lin_interp_clamped, if_neg (not_lt.2 (h 0 hkm).le), if_pos (h (km1 - 1) (by omega))]

/-- C22. Out-of-range clamping with a floor: for a column `i < ncols_atm` and a destination
level `kk < nlevs_atm`, every value `spa_main` writes is the vertically interpolated value
floored at the threshold 0; when the destination pressure is below every source pressure of
the column the vertically interpolated value is the source value at the first source level,
when it is above every source pressure it is the source value at the last source level; and
the values written for `CCN3`, `AER_TAU_SW` and `AER_TAU_LW` are at least 0. -/
theorem C22_clamp_and_floor (packn : Nat) (P0 : ℚ) (time_state : SPATimeState)
    (pressure_state : SPAPressureState) (data_beg data_end : SPAData) (data_out : SPAOutput)
    (ncols_atm nlevs_atm nswbands nlwbands : Int) (hp : 0 < packn)
    (hcols : ncols_atm = pressure_state.ncols)
    (i kk : Nat) (hi : i < ncols_atm.toNat) (hkk : kk < nlevs_atm.toNat)
    (hkm : 0 < pressure_state.nlevs.toNat) :
    ((spa_main packn P0 time_state pressure_state data_beg data_end data_out
          ncols_atm nlevs_atm nswbands nlwbands).state.CCN3 i (kk / packn) (kk % packn)
      = max (lin_interp_clamped pressure_state.nlevs.toNat
          (unpack packn ((spa_main_temporal packn P0 time_state pressure_state data_beg data_end
          ncols_atm nswbands nlwbands).p_src i))
          (unpack packn ((spa_main_temporal packn P0 time_state pressure_state data_beg data_end
          ncols_atm nswbands nlwbands).ccn3_src i))
          (pressure_state.pmid i (kk / packn) (kk % packn))) 0) ∧
    (∀ n : Nat, n < nswbands.toNat →
      (spa_main packn P0 time_state pressure_state data_beg data_end data_out
          ncols_atm nlevs_atm nswbands nlwbands).state.AER_G_SW i n (kk / packn) (kk % packn)
        = max (lin_interp_clamped pressure_state.nlevs.toNat
            (unpack packn ((spa_main_temporal packn P0 time_state pressure_state data_beg data_end
          ncols_atm nswbands nlwbands).p_src i))
            (unpack packn ((spa_main_temporal packn P0 time_state pressure_state data_beg data_end
          ncols_atm nswbands nlwbands).aer_g_sw_src i n))
            (pressure_state.pmid i (kk / packn) (kk % packn))) 0) ∧
    (∀ n : Nat, n < nswbands.toNat →
      (spa_main packn P0 time_state pressure_state data_beg data_end data_out
          ncols_atm nlevs_atm nswbands nlwbands).state.AER_SSA_SW i n (kk / packn) (kk % packn)
        = max (lin_interp_clamped pressure_state.nlevs.toNat
            (unpack packn ((spa_main_temporal packn P0 time_state pressure_state data_beg data_end
          ncols_atm nswbands nlwbands).p_src i))
            (unpack packn ((spa_main_temporal packn P0 time_state pressure_state data_beg data_end
          ncols_atm nswbands nlwbands).aer_ssa_sw_src i n))
            (pressure_state.pmid i (kk / packn) (kk % packn))) 0) ∧
    (∀ n : Nat, n < nswbands.toNat →
      (spa_main packn P0 time_state pressure_state data_beg data_end data_out
          ncols_atm nlevs_atm nswbands nlwbands).state.AER_TAU_SW i n (kk / packn) (kk % packn)
        = max (lin_interp_clamped pressure_state.nlevs.toNat
            (unpack packn ((spa_main_temporal packn P0 time_state pressure_state data_beg data_end
          ncols_atm nswbands nlwbands).p_src i))
            (unpack packn ((spa_main_temporal packn P0 time_state pressure_state data_beg data_end
          ncols_atm nswbands nlwbands).aer_tau_sw_src i n))
            (pressure_state.pmid i (kk / packn) (kk % packn))) 0) ∧
    (∀ n : Nat, n < nlwbands.toNat →
      (spa_main packn P0 time_state pressure_state data_beg data_end data_out
          ncols_atm nlevs_atm nswbands nlwbands).state.AER_TAU_LW i n (kk / packn) (kk % packn)
        = max (lin_interp_clamped pressure_state.nlevs.toNat
            (unpack packn ((spa_main_temporal packn P0 time_state pressure_state data_beg data_end
          ncols_atm nswbands nlwbands).p_src i))
            (unpack packn ((spa_main_temporal packn P0 time_state pressure_state data_beg data_end
          ncols_atm nswbands nlwbands).aer_tau_lw_src i n))
            (pressure_state.pmid i (kk / packn) (kk % packn))) 0) ∧
    (∀ y1 : Nat → ℚ,
      (∀ k : Nat, k < pressure_state.nlevs.toNat →
        (pressure_state.pmid i (kk / packn) (kk % packn))
          < unpack packn ((spa_main_temporal packn P0 time_state pressure_state data_beg data_end
          ncols_atm nswbands nlwbands).p_src i) k) →
      lin_interp_clamped pressure_state.nlevs.toNat
          (unpack packn ((spa_main_temporal packn P0 time_state pressure_state data_beg data_end
          ncols_atm nswbands nlwbands).p_src i))
          y1 (pressure_state.pmid i (kk / packn) (kk % packn)) = y1 0) ∧
    (∀ y1 : Nat → ℚ,
      (∀ k : Nat, k < pressure_state.nlevs.toNat →
        unpack packn ((spa_main_temporal packn P0 time_state pressure_state data_beg data_end
          ncols_atm nswbands nlwbands).p_src i) k
          < (pressure_state.pmid i (kk / packn) (kk % packn))) →
      lin_interp_clamped pressure_state.nlevs.toNat
          (unpack packn ((spa_main_temporal packn P0 time_state pressure_state data_beg data_end
          ncols_atm nswbands nlwbands).p_src i))
          y1 (pressure_state.pmid i (kk / packn) (kk % packn))
        = y1 (pressure_state.nlevs.toNat - 1)) ∧
    0 ≤ (spa_main packn P0 time_state pressure_state data_beg data_end data_out
          ncols_atm nlevs_atm nswbands nlwbands).state.CCN3 i (kk / packn) (kk % packn) ∧
    (∀ n : Nat, n < nswbands.toNat →
      0 ≤ (spa_main packn P0 time_state pressure_state data_beg data_end data_out
          ncols_atm nlevs_atm nswbands nlwbands).state.AER_TAU_SW i n (kk / packn) (kk % packn)) ∧
    (∀ n : Nat, n < nlwbands.toNat →
      0 ≤ (spa_main packn P0 time_state pressure_state data_beg data_end data_out
          ncols_atm nlevs_atm nswbands nlwbands).state.AER_TAU_LW i n (kk / packn) (kk % packn)) := by
  obtain ⟨c1, c2, c3, c4, c5⟩ := spa_main_cells packn P0 time_state pressure_state data_beg
    data_end data_out ncols_atm nlevs_atm nswbands nlwbands hp hcols i kk hi hkk
  refine ⟨?_, ?_, ?_, ?_, ?_, ?_, ?_, ?_, ?_, ?_⟩
  · rw [c1, lin_interp_level_eq]
  · intro n hn; rw [c2 n hn, lin_interp_level_eq]
  · intro n hn; rw [c3 n hn, lin_interp_level_eq]
  · intro n hn; rw [c4 n hn, lin_interp_level_eq]
  · intro n hn; rw [c5 n hn, lin_interp_level_eq]
  · intro y1 h; exact lin_interp_clamped_below _ _ _ _ hkm h
  · intro y1 h; exact lin_interp_clamped_above _ _ _ _ hkm h
  · rw [c1]; exact lin_interp_level_nonneg _ _ _ _
  · intro n hn; rw [c4 n hn]; exact lin_interp_level_nonneg _ _ _ _
  · intro n hn; rw [c5 n hn]; exact lin_interp_level_nonneg _ _ _ _

theorem sample_low_p_src (b e : SPAData) (k : Nat) (hk : k < 3) :
    unpack 2 ((spa_main_temporal 2 100000 sample_time_start sample_pressure_low b e
      1 1 1).p_src 0) k = 100000 * ((k : ℚ) + 1) := by
  unfold unpack
  rw [(temporal_cells 2 100000 sample_time_start sample_pressure_low b e 1 1 1
    (by decide)).2.2.2.2.2.2 0 k (by decide) hk,
    (temporal_cells 2 100000 sample_time_start sample_pressure_low b e 1 1 1
    (by decide)).1 0 (by decide), sample_t_norm_start]
  interval_cases k <;>
    norm_num [sample_pressure_low, sample_pressure_three, linear_interp]

theorem C22_clamp_and_floor_witness :
    (∀ k : Nat, k < sample_pressure_low.nlevs.toNat →
      sample_pressure_low.pmid 0 (0 / 2) (0 % 2)
        < unpack 2 ((spa_main_temporal 2 100000 sample_time_start sample_pressure_low
            sample_data_steps sample_data_end 1 1 1).p_src 0) k) ∧
    (spa_main 2 100000 sample_time_start sample_pressure_low sample_data_steps sample_data_end
      sample_output 1 1 1 1).state.CCN3 0 (0 / 2) (0 % 2)
      = max (unpack 2 ((spa_main_temporal 2 100000 sample_time_start sample_pressure_low
          sample_data_steps sample_data_end 1 1 1).ccn3_src 0) 0) 0 ∧
    0 ≤ (spa_main 2 100000 sample_time_start sample_pressure_low sample_data_steps
      sample_data_end sample_output 1 1 1 1).state.CCN3 0 (0 / 2) (0 % 2) := by
  have hbelow : ∀ k : Nat, k < sample_pressure_low.nlevs.toNat →
      sample_pressure_low.pmid 0 (0 / 2) (0 % 2)
        < unpack 2 ((spa_main_temporal 2 100000 sample_time_start sample_pressure_low
            sample_data_steps sample_data_end 1 1 1).p_src 0) k := by
    intro k hk
    have hk3 : k < 3 := hk
    rw [sample_low_p_src _ _ k hk3]
    have : (0 : ℚ) ≤ (k : ℚ) := Nat.cast_nonneg k
    show (50000 : ℚ) < _
    linarith
  have h := C22_clamp_and_floor 2 100000 sample_time_start sample_pressure_low
    sample_data_steps sample_data_end sample_output 1 1 1 1 (by decide) rfl 0 0 (by decide)
    (by decide) (by decide)
  refine ⟨hbelow, ?_, h.2.2.2.2.2.2.2.1⟩
  rw [h.1, h.2.2.2.2.2.1 _ hbelow]


/-! ## e2str names every FieldTag -/

/-- The switch of `e2str` reaches one of its `case` labels for every enumerator, never the
`default` branch. -/
theorem e2str_ok (ft : FieldTag) : ∃ name, e2str ft = Except.ok name := by
  cases ft <;> exact ⟨_, rfl⟩

/-- Two enumerators with the same outcome of `e2str` are the same enumerator. -/
theorem e2str_injective (a b : FieldTag) (h : e2str a = e2str b) : a = b := by
  cases a <;> cases b <;> first
    | rfl
    | (exfalso
       simp [e2str, e2str_switch, FieldTag.value] at h)

/-- Claim C30: `e2str` gives different names to different `FieldTag` values, returns a name
for every `FieldTag` value (the unrecognized-tag branch is not reached), and names `Column`,
`LevelMidPoint`, `ShortWaveBand` and `LongWaveBand` "ncol", "lev", "swband" and "lwband". -/
theorem C30_e2str_names_distinct :
    (∀ a b : FieldTag, a ≠ b → e2str a ≠ e2str b) ∧
    (∀ ft : FieldTag, ∃ name, e2str ft = Except.ok name) ∧
    (∀ ft : FieldTag, e2str ft ≠ Except.error "Error! Unrecognized field tag.") ∧
    e2str FieldTag.Column = Except.ok "ncol" ∧
    e2str FieldTag.LevelMidPoint = Except.ok "lev" ∧
    e2str FieldTag.ShortWaveBand = Except.ok "swband" ∧
    e2str FieldTag.LongWaveBand = Except.ok "lwband" := by
  refine ⟨fun a b hab h => hab (e2str_injective a b h), e2str_ok, ?_, rfl, rfl, rfl, rfl⟩
  intro ft h
  obtain ⟨name, hn⟩ := e2str_ok ft
  rw [hn] at h
  cases h


/-! ## read_rrtmg_table: the reordering of the table dimensions -/

/-- A counting loop whose step assigns `v` to the observed cell exactly at counter `k0` (and
under `Q`) leaves `v` there when `k0` is in range, and the old value otherwise. -/
theorem foldl_range_assign {σ β : Type} (r : σ → β) (step : σ → Nat → σ) (k0 : Nat)
    (Q : Prop) [Decidable Q] (v : β)
    (h : ∀ s i, r (step s i) = if i = k0 ∧ Q then v else r s) (s : σ) (N : Nat) :
    r ((List.range N).foldl step s) = if k0 < N ∧ Q then v else r s := by
  induction N with
  | zero => simp
  | succ n ih =>
    rw [List.range_succ, List.foldl_append, List.foldl_cons, List.foldl_nil, h, ih]
    by_cases hq : Q
    · by_cases h1 : n = k0
      · subst h1
        simp [hq]
      · by_cases h2 : k0 < n
        · have h3 : k0 < n + 1 := by omega
          simp [hq, h1, h2, h3]
        · have h3 : ¬ k0 < n + 1 := by omega
          simp [hq, h1, h2, h3]
    · simp [hq]

/-- The loop nest leaves alone what its innermost statement leaves alone. -/
theorem reorder_loop_keep {σ β : Type} (r : σ → β) (body : σ → Nat → Nat → Nat → Nat → σ)
    (h : ∀ s d5 d2 d3 d4, r (body s d5 d2 d3 d4) = r s)
    (nbands coef_number refindex_real refindex_im : Nat) (s : σ) :
    r (reorder_loop nbands coef_number refindex_real refindex_im body s) = r s := by
  unfold reorder_loop
  refine foldl_range_keep r _ (fun s d5 => ?_) _ _
  refine foldl_range_keep r _ (fun s d2 => ?_) _ _
  refine foldl_range_keep r _ (fun s d3 => ?_) _ _
  exact foldl_range_keep r _ (fun s d4 => h s d5 d2 d3 d4) _ _

/-- The loop nest, observed at one cell: an innermost statement that assigns `v` to the cell
exactly at counters `(b, c, r0, i)` leaves `v` there when the four counters are in range. -/
theorem reorder_loop_cell {σ β : Type} (r : σ → β) (body : σ → Nat → Nat → Nat → Nat → σ)
    (b c r0 i : Nat) (v : β)
    (h : ∀ s d5 d2 d3 d4,
      r (body s d5 d2 d3 d4) = if d5 = b ∧ d2 = c ∧ d3 = r0 ∧ d4 = i then v else r s)
    (nbands coef_number refindex_real refindex_im : Nat) (s : σ) :
    r (reorder_loop nbands coef_number refindex_real refindex_im body s) =
      if b < nbands ∧ c < coef_number ∧ r0 < refindex_real ∧ i < refindex_im then v
      else r s := by
  unfold reorder_loop
  have h4 : ∀ s d5 d2 d3,
      r ((List.range refindex_im).foldl (fun s d4 => body s d5 d2 d3 d4) s) =
        if i < refindex_im ∧ (d5 = b ∧ d2 = c ∧ d3 = r0) then v else r s := fun s d5 d2 d3 =>
    foldl_range_assign r _ i (d5 = b ∧ d2 = c ∧ d3 = r0) v
      (fun s d4 => by rw [h]; exact if_congr (by tauto) rfl rfl) s refindex_im
  have h3 : ∀ s d5 d2,
      r ((List.range refindex_real).foldl (fun s d3 =>
        (List.range refindex_im).foldl (fun s d4 => body s d5 d2 d3 d4) s) s) =
        if r0 < refindex_real ∧ (i < refindex_im ∧ d5 = b ∧ d2 = c) then v else r s :=
    fun s d5 d2 =>
    foldl_range_assign r _ r0 (i < refindex_im ∧ d5 = b ∧ d2 = c) v
      (fun s d3 => by rw [h4]; exact if_congr (by tauto) rfl rfl) s refindex_real
  have h2 : ∀ s d5,
      r ((List.range coef_number).foldl (fun s d2 =>
        (List.range refindex_real).foldl (fun s d3 =>
          (List.range refindex_im).foldl (fun s d4 => body s d5 d2 d3 d4) s) s) s) =
        if c < coef_number ∧ (r0 < refindex_real ∧ i < refindex_im ∧ d5 = b) then v
        else r s :=
    fun s d5 =>
    foldl_range_assign r _ c (r0 < refindex_real ∧ i < refindex_im ∧ d5 = b) v
      (fun s d2 => by rw [h3]; exact if_congr (by tauto) rfl rfl) s coef_number
  have h1 := foldl_range_assign r (fun s d5 =>
      (List.range coef_number).foldl (fun s d2 =>
        (List.range refindex_real).foldl (fun s d3 =>
          (List.range refindex_im).foldl (fun s d4 => body s d5 d2 d3 d4) s) s) s)
      b (c < coef_number ∧ r0 < refindex_real ∧ i < refindex_im) v
      (fun s d5 => by rw [h2]; exact if_congr (by tauto) rfl rfl) s nbands
  rw [h1]

/-- The statement `tab[d1][d5](d2,d3,d4) = host(d5,0,d4,d3,d2)`, observed at the cell
`(d1, b, c, r0, i)`. -/
theorem set_cell_reordered (tab host : Nat → Nat → Nat → Nat → Nat → ℚ)
    (d1 b c r0 i d5 d2 d3 d4 : Nat) :
    set_cell tab d1 d5 d2 d3 d4 (host d5 0 d4 d3 d2) d1 b c r0 i =
      if d5 = b ∧ d2 = c ∧ d3 = r0 ∧ d4 = i then host b 0 i r0 c else tab d1 b c r0 i := by
  unfold set_cell
  by_cases hc : d5 = b ∧ d2 = c ∧ d3 = r0 ∧ d4 = i
  · obtain ⟨rfl, rfl, rfl, rfl⟩ := hc
    simp
  · rw [if_neg hc, if_neg]
    intro hn
    exact hc ⟨hn.2.1.symm, hn.2.2.1.symm, hn.2.2.2.1.symm, hn.2.2.2.2.symm⟩

/-- The reordering map is a bijection from the host index range onto the device index range
of mode slot `imode`. -/
theorem host_to_device_bijOn (k : ModalAerOpt) (imode nbands : Nat) :
    Set.BijOn (host_to_device imode) (host_range k nbands) (device_range k imode nbands) := by
  refine ⟨?_, ?_, ?_⟩
  · intro h hh
    exact ⟨rfl, hh.1, hh.2.2.2.2, hh.2.2.2.1, hh.2.2.1⟩
  · intro x hx y hy hxy
    obtain ⟨b, m, i, r, c⟩ := x
    obtain ⟨b2, m2, i2, r2, c2⟩ := y
    simp only [host_range, Set.mem_setOf_eq] at hx hy
    simp only [host_to_device, Prod.mk.injEq] at hxy
    have hm : m = m2 := by omega
    simp only [Prod.mk.injEq]
    exact ⟨hxy.2.1, hm, hxy.2.2.2.2, hxy.2.2.2.1, hxy.2.2.1⟩
  · intro d hd
    obtain ⟨m, b, c, r, i⟩ := d
    simp only [device_range, Set.mem_setOf_eq] at hd
    refine ⟨(b, 0, i, r, c), ⟨hd.2.1, Nat.zero_lt_one, hd.2.2.2.2, hd.2.2.2.1, hd.2.2.1⟩, ?_⟩
    simp only [host_to_device, Prod.mk.injEq, and_self, and_true]
    exact hd.1.symm

/-- Claim C28: `read_rrtmg_table` reorders the table dimensions as documented. For every mode
slot `imode`, band `b` in range, coefficient `c < coef_number`, real index
`r < refindex_real` and imaginary index `i < refindex_im`, the device table
`absplw[imode][b](c, r, i)` equals the host table `absplw_host(b, 0, i, r, c)` (`b` a longwave
band), and likewise `asmpsw`, `abspsw` and `extpsw` (`b` a shortwave band); the map from host
index `(b, 0, i, r, c)` to device index `(imode, b, c, r, i)` is a bijection between the two
index ranges. -/
theorem C28_tables_reordered (k : ModalAerOpt) (imode : Nat) (host : AerosolOpticsHostData)
    (dev : AerosolOpticsDeviceData) :
    (∀ b c r i : Nat, b < k.nlwbands → c < k.coef_number → r < k.refindex_real →
      i < k.refindex_im →
      (read_rrtmg_table k imode host dev).absplw imode b c r i = host.absplw_host b 0 i r c) ∧
    (∀ b c r i : Nat, b < k.nswbands → c < k.coef_number → r < k.refindex_real →
      i < k.refindex_im →
      (read_rrtmg_table k imode host dev).asmpsw imode b c r i = host.asmpsw_host b 0 i r c ∧
      (read_rrtmg_table k imode host dev).abspsw imode b c r i = host.abspsw_host b 0 i r c ∧
      (read_rrtmg_table k imode host dev).extpsw imode b c r i = host.extpsw_host b 0 i r c) ∧
    Set.BijOn (host_to_device imode) (host_range k k.nlwbands)
      (device_range k imode k.nlwbands) ∧
    Set.BijOn (host_to_device imode) (host_range k k.nswbands)
      (device_range k imode k.nswbands) := by
  refine ⟨?_, ?_, host_to_device_bijOn k imode k.nlwbands,
    host_to_device_bijOn k imode k.nswbands⟩
  · intro b c r i hb hc hr hi
    unfold read_rrtmg_table
    simp only []
    refine (reorder_loop_keep (fun d : AerosolOpticsDeviceData => d.absplw imode b c r i) _
      ?_ _ _ _ _ _).trans ?_
    · intro s d5 d2 d3 d4
      rfl
    refine (reorder_loop_cell (fun d : AerosolOpticsDeviceData => d.absplw imode b c r i) _
      b c r i (host.absplw_host b 0 i r c) ?_ _ _ _ _ _).trans ?_
    · intro s d5 d2 d3 d4
      exact set_cell_reordered s.absplw host.absplw_host imode b c r i d5 d2 d3 d4
    rw [if_pos ⟨hb, hc, hr, hi⟩]
  · intro b c r i hb hc hr hi
    unfold read_rrtmg_table
    simp only []
    refine ⟨?_, ?_, ?_⟩
    · refine (reorder_loop_cell (fun d : AerosolOpticsDeviceData => d.asmpsw imode b c r i) _
        b c r i (host.asmpsw_host b 0 i r c) ?_ _ _ _ _ _).trans ?_
      · intro s d5 d2 d3 d4
        exact set_cell_reordered s.asmpsw host.asmpsw_host imode b c r i d5 d2 d3 d4
      rw [if_pos ⟨hb, hc, hr, hi⟩]
    · refine (reorder_loop_cell (fun d : AerosolOpticsDeviceData => d.abspsw imode b c r i) _
        b c r i (host.abspsw_host b 0 i r c) ?_ _ _ _ _ _).trans ?_
      · intro s d5 d2 d3 d4
        exact set_cell_reordered s.abspsw host.abspsw_host imode b c r i d5 d2 d3 d4
      rw [if_pos ⟨hb, hc, hr, hi⟩]
    · refine (reorder_loop_cell (fun d : AerosolOpticsDeviceData => d.extpsw imode b c r i) _
        b c r i (host.extpsw_host b 0 i r c) ?_ _ _ _ _ _).trans ?_
      · intro s d5 d2 d3 d4
        exact set_cell_reordered s.extpsw host.extpsw_host imode b c r i d5 d2 d3 d4
      rw [if_pos ⟨hb, hc, hr, hi⟩]

/-- Witness for C28 on the sample tables: mode slot 1, longwave band 1, coefficient 0, real
index 1, imaginary index 2 receives the host entry `(1, 0, 2, 1, 0)`, which is 10210. -/
theorem C28_tables_reordered_witness :
    (read_rrtmg_table sample_modal 1 sample_host sample_device).absplw 1 1 0 1 2 = 10210 ∧
    sample_host.absplw_host 1 0 2 1 0 = 10210 :=
  ⟨((C28_tables_reordered sample_modal 1 sample_host sample_device).1 1 0 1 2
      (by decide) (by decide) (by decide) (by decide)).trans (by norm_num [sample_host]),
    by norm_num [sample_host]⟩

end SPA
